import Mathlib

/-! machine-vision (mvz): geometry ingestion, shape lookup, file registry, shaders and
programs, framebuffers, session construction and rendering

A shallow embedding of `src/mvz_obj.cpp` and of `src/mvz.cpp` (model files, shape lookup,
shader compilation, program linking, the `gl_object` wrapper, the constructor of the session
and its render pass), followed by theorems about them.

Conventions of the embedding

* A C++ `float` is carried as its bit pattern (`GLfloat := Nat`): the code only copies floats.
* A C++ `int` counter (`num_vertices`, `m_next_obj_id`) is an `Int`; signed overflow is
  undefined behaviour in C++, so the embedding coincides with the program wherever the
  program has a defined behaviour (fewer than 2^31 increments).
* A `std::string` / `const char*` is the list of its bytes (`Str := List Nat`).
* A `const float*` argument is the view of memory from that address (`Nat → GLfloat`).
* A C++ exception is a value of `Exn`; a function that may throw returns `Except Exn _`.
  The case `Exn.terminated` stands for the end of the process, which only the constructor
  of the session can reach (a destructor that calls a pure virtual function).
* `std::sort` is embedded for ranges of at most 16 elements, where the library runs an
  insertion sort; nothing is stated about the order it gives to a longer range.
-/

namespace mvz

/-! ## Strings -/

/-- The bytes of a `std::string`. -/
abbrev Str := List Nat

/-- A string literal of the source, as bytes (the literals of the source are ASCII). -/
def lit (s : String) : Str := s.toList.map Char.toNat

/-- The comparison `a < b` of `std::string` (`char_traits<char>::compare`, then the lengths):
lexicographic on the bytes, a proper start being smaller. -/
def strLt : Str → Str → Bool
  | [], [] => false
  | [], _ :: _ => true
  | _ :: _, [] => false
  | a :: as, b :: bs => if a < b then true else if b < a then false else strLt as bs

/-! ## `std::map<int, T>` -/

/-- A `std::map<int, T>`: its entries in iteration order (ascending key). -/
abbrev IntMap (β : Type) := List (Int × β)

/-- The call `m.find(k)`: the mapped value, `none` for `end()`. -/
def IntMap.find {β : Type} : IntMap β → Int → Option β
  | [], _ => none
  | (k', v) :: rest, k => if k' = k then some v else IntMap.find rest k

/-- The call `m.emplace(k, v)`: the entry is inserted at its place in key order, and the map
is left as it is when the key is already there. -/
def IntMap.emplace {β : Type} : IntMap β → Int → β → IntMap β
  | [], k, v => [(k, v)]
  | (k', v') :: rest, k, v =>
    if k < k' then (k, v) :: (k', v') :: rest
    else if k' = k then (k', v') :: rest
    else (k', v') :: IntMap.emplace rest k v

/-- Assignment through a reference to the value mapped at `k`. -/
def IntMap.modify {β : Type} : IntMap β → Int → (β → β) → IntMap β
  | [], _, _ => []
  | (k', v') :: rest, k, f =>
    if k' = k then (k', f v') :: rest else (k', v') :: IntMap.modify rest k f

/-- The call `m.at(k)`, which throws `std::out_of_range` (here `none`) for an absent key. -/
def IntMap.at {β : Type} (m : IntMap β) (k : Int) : Option β := IntMap.find m k

/-! ## `mvz_obj.h` -/

/-- A C++ `float`, as its bit pattern. -/
abbrev GLfloat := Nat

/-- The struct `obj_mesh`. -/
structure obj_mesh where
  material_index : Int := -1
  vertices : List GLfloat := []
  num_vertices : Int := 0
deriving DecidableEq, Repr

/-- The struct `obj_shape`. -/
structure obj_shape where
  name : Str := []
  meshes : List obj_mesh := []
deriving DecidableEq, Repr

/-- The struct `obj_file`. -/
structure obj_file where
  shapes : List obj_shape := []
deriving DecidableEq, Repr

/-! ## `mesh_builder` (`mvz_obj.cpp`) -/

/-- The class `mesh_builder`: its one member `m_meshes`. -/
structure mesh_builder where
  m_meshes : IntMap obj_mesh := []
deriving DecidableEq, Repr

/-- The method `mesh_builder::get_or_create`: the builder after the call (the entry for `mat`
exists); the reference it returns is the entry at `mat`. -/
def mesh_builder.get_or_create (b : mesh_builder) (mat : Int) : mesh_builder :=
  match IntMap.find b.m_meshes mat with
  | none => { m_meshes := IntMap.emplace b.m_meshes mat { material_index := mat, vertices := [] } }
  | some _ => b

/-- The body of `mesh_builder::add` on the mesh `m` it got from `get_or_create`: resize by 8,
write the 8 floats, count the vertex. -/
def mesh_builder.add_to (m : obj_mesh) (pos uv norm : Nat → GLfloat) : obj_mesh :=
  { m with
    vertices := m.vertices ++ [pos 0, pos 1, pos 2, uv 0, uv 1, norm 0, norm 1, norm 2]
    num_vertices := m.num_vertices + 1 }

/-- The method `mesh_builder::add`. -/
def mesh_builder.add (b : mesh_builder) (mat : Int) (pos uv norm : Nat → GLfloat) :
    mesh_builder :=
  let b1 := mesh_builder.get_or_create b mat
  { m_meshes := IntMap.modify b1.m_meshes mat (fun m => mesh_builder.add_to m pos uv norm) }

/-- The method `mesh_builder::take_meshes`: the mapped values in the iteration order of the map. -/
def mesh_builder.take_meshes (b : mesh_builder) : List obj_mesh :=
  b.m_meshes.map Prod.snd

/-- One call of `mesh_builder::add`: its four arguments. -/
structure vertex_input where
  mat : Int
  pos : Nat → GLfloat
  uv : Nat → GLfloat
  norm : Nat → GLfloat

/-- The 8 floats of a vertex, as `add` writes them. -/
def vertex_input.floats (v : vertex_input) : List GLfloat :=
  [v.pos 0, v.pos 1, v.pos 2, v.uv 0, v.uv 1, v.norm 0, v.norm 1, v.norm 2]

/-- A fresh builder fed a sequence of vertices, one `add` per vertex, in order. -/
def mesh_builder.feed (vs : List vertex_input) : mesh_builder :=
  vs.foldl (fun b v => mesh_builder.add b v.mat v.pos v.uv v.norm) {}

/-- The meshes a fresh builder emits for a sequence of vertices. -/
def mesh_builder.build (vs : List vertex_input) : List obj_mesh :=
  mesh_builder.take_meshes (mesh_builder.feed vs)

/-- The material ids of a sequence in the order of their first appearance. -/
def first_seen : List Int → List Int
  | [] => []
  | m :: rest => m :: (first_seen rest).filter (fun k => decide (k ≠ m))

/-- A vertex tagged `mat` whose 8 floats are all `x`. -/
def flat_vertex (mat : Int) (x : GLfloat) : vertex_input :=
  { mat := mat, pos := fun _ => x, uv := fun _ => x, norm := fun _ => x }

/-- A triangle (three vertices) tagged `mat`. -/
def flat_triangle (mat : Int) (x : GLfloat) : List vertex_input :=
  [flat_vertex mat x, flat_vertex mat x, flat_vertex mat x]

/-! ## Exceptions -/

/-- The exceptions the code can raise. `runtime_error` is `mvz::runtime_error` itself,
`open_gl_error` and `glsl_error` are its two subclasses (`mvz.h`); `out_of_range` is
`std::out_of_range` (thrown by `at`), `system_error` is what the asset store throws for an
absent path. The last case, `terminated`, is not an exception: it stands for the end of the
process (a call of a pure virtual function from a destructor), which no handler catches. -/
inductive Exn where
  | runtime_error (what : Str)
  | open_gl_error (what : Str)
  | glsl_error (what : Str) (path : Str) (source : Str)
  | out_of_range
  | system_error
  | terminated
deriving DecidableEq, Repr

/-- An exception is caught by `catch (const mvz::runtime_error&)`: it is a
`mvz::runtime_error` or of a class derived from it. -/
def Exn.is_runtime_error : Exn → Bool
  | .runtime_error _ => true
  | .open_gl_error _ => true
  | .glsl_error _ _ _ => true
  | .out_of_range => false
  | .system_error => false
  | .terminated => false

/-- The call `v.at(i)` of a `std::vector` with an `int` or `size_t` index: an index that is
negative (converted to `size_t` it is huge) or not below the size throws `std::out_of_range`. -/
def vec_at {α : Type} (v : List α) (i : Int) : Except Exn α :=
  if i < 0 then .error .out_of_range
  else
    match v[i.toNat]? with
    | some x => .ok x
    | none => .error .out_of_range

/-! ## The external geometry parser (tinyobj) -/

/-- The struct `tinyobj::index_t`. -/
structure index_t where
  vertex_index : Int
  normal_index : Int
  texcoord_index : Int
deriving DecidableEq, Repr

/-- The struct `tinyobj::mesh_t`, the two members the code reads. -/
structure mesh_t where
  indices : List index_t := []
  material_ids : List Int := []
deriving DecidableEq, Repr

/-- The struct `tinyobj::shape_t`, the two members the code reads. -/
structure shape_t where
  name : Str := []
  mesh : mesh_t := {}
deriving DecidableEq, Repr

/-- The struct `tinyobj::attrib_t`, the three members the code reads. -/
structure attrib_t where
  vertices : List GLfloat := []
  normals : List GLfloat := []
  texcoords : List GLfloat := []
deriving DecidableEq, Repr

/-- What a successful `ObjReader::ParseFromFile` leaves in the reader. -/
structure ObjReader where
  attrib : attrib_t := {}
  shapes : List shape_t := []
deriving DecidableEq, Repr

/-- The address `&v.at(i)`: the view of the floats from index `i` on (a read past the end of
the vector, which the parser's arrays never cause, reads 0 here). -/
def ptr_at (v : List GLfloat) (i : Int) : Except Exn (Nat → GLfloat) :=
  match vec_at v i with
  | .ok _ => .ok (fun k => v.getD (i.toNat + k) 0)
  | .error e => .error e

/-! ## `std::sort` and `std::lower_bound` -/

/-- The inner loop of insertion sort (`__unguarded_linear_insert`): `val` moves towards the
front past every element `e` with `comp val e`. The argument is the sorted part, last element
first, and so is the result. -/
def linear_insert {α : Type} (comp : α → α → Bool) (val : α) : List α → List α
  | [] => [val]
  | e :: rest => if comp val e then e :: linear_insert comp val rest else val :: e :: rest

/-- One round of insertion sort (`__insertion_sort`): when `comp val first` the value goes
to the front, otherwise it is inserted linearly. The sorted part is held last element first. -/
def insertion_step {α : Type} (comp : α → α → Bool) (rev : List α) (val : α) : List α :=
  match rev.getLast? with
  | none => [val]
  | some first => if comp val first then rev ++ [val] else linear_insert comp val rev

/-- The call `std::sort(first, last, comp)` on a range of at most 16 elements: the insertion
sort that the standard library (libstdc++) runs on such a range. On a longer range the
library partitions the range first (introsort), and that part is not embedded: this
definition stands for the call only when `xs.length ≤ 16`, and the statements about the
sort of `obj_file::load` carry that bound. -/
def std_sort {α : Type} (comp : α → α → Bool) (xs : List α) : List α :=
  (xs.foldl (insertion_step comp) []).reverse

/-- The loop of `std::lower_bound`: `first` and `len` are its two variables; `fuel` bounds
the number of rounds (`len` at least halves in each, so `len` rounds are enough). -/
def lower_bound_loop {α β : Type} (comp : α → β → Bool) (xs : List α) (val : β) :
    Nat → Nat → Nat → Nat
  | 0, first, _ => first
  | fuel + 1, first, len =>
    if len = 0 then first
    else
      let half := len / 2
      let middle := first + half
      match xs[middle]? with
      | none => first
      | some e =>
        if comp e val then lower_bound_loop comp xs val fuel (middle + 1) (len - half - 1)
        else lower_bound_loop comp xs val fuel first half

/-- The call `std::lower_bound(xs.begin(), xs.end(), val, comp)`: the index it returns
(`xs.length` for `end()`). -/
def lower_bound {α β : Type} (comp : α → β → Bool) (xs : List α) (val : β) : Nat :=
  lower_bound_loop comp xs val xs.length 0 xs.length

/-! ## `obj_file` (`mvz_obj.cpp`) -/

/-- The inner loop of `obj_file::load` from index `j` on: one `builder.add` per index of the
input mesh. -/
def obj_file.load_indices (attrib : attrib_t) (input_mesh : mesh_t) :
    List index_t → Nat → mesh_builder → Except Exn mesh_builder
  | [], _, builder => .ok builder
  | idx :: rest, j, builder =>
    let v_idx := idx.vertex_index
    let t_idx := idx.texcoord_index
    let n_idx := idx.normal_index
    match vec_at input_mesh.material_ids ((j / 3 : Nat) : Int) with
    | .error e => .error e
    | .ok mat_id =>
      match ptr_at attrib.vertices (v_idx * 3) with
      | .error e => .error e
      | .ok pos =>
        match ptr_at attrib.texcoords (t_idx * 2) with
        | .error e => .error e
        | .ok uv =>
          match ptr_at attrib.normals (n_idx * 3) with
          | .error e => .error e
          | .ok nrm =>
            obj_file.load_indices attrib input_mesh rest (j + 1) (builder.add mat_id pos uv nrm)

/-- The outer loop of `obj_file::load`: one `obj_shape` per input shape, appended to `shapes`. -/
def obj_file.load_shapes (attrib : attrib_t) : List shape_t → List obj_shape →
    Except Exn (List obj_shape)
  | [], shapes => .ok shapes
  | input_shape :: rest, shapes =>
    match obj_file.load_indices attrib input_shape.mesh input_shape.mesh.indices 0 {} with
    | .error e => .error e
    | .ok builder =>
      obj_file.load_shapes attrib rest
        (shapes ++ [{ name := input_shape.name, meshes := builder.take_meshes }])

/-- The lambda `cmp_shape_name` of `obj_file::load`, as it is written: `a.name < a.name`. -/
def cmp_shape_name (a _b : obj_shape) : Bool := strLt a.name a.name

/-- The method `obj_file::load`. `parsed` is what `reader.ParseFromFile(path, reader_config)`
made of the file: `none` when it returned false. The result is the returned `bool` and the
object after the call. -/
def obj_file.load (self : obj_file) (parsed : Option ObjReader) :
    Except Exn (Bool × obj_file) :=
  match parsed with
  | none => .ok (false, self)
  | some reader =>
    match obj_file.load_shapes reader.attrib reader.shapes self.shapes with
    | .error e => .error e
    | .ok shapes => .ok (true, { shapes := std_sort cmp_shape_name shapes })

/-- The method `obj_file::find_shape`. -/
def obj_file.find_shape (self : obj_file) (name : Str) : Int :=
  let it := lower_bound (fun (shp : obj_shape) (n : Str) => strLt shp.name n) self.shapes name
  if it = self.shapes.length then -1
  else
    match self.shapes[it]? with
    | none => -1
    | some shp => if shp.name ≠ name then -1 else (it : Int)

/-- The shapes are in non-decreasing order of name: no shape is followed, anywhere later, by
one of a smaller name. -/
def shapes_sorted (shapes : List obj_shape) : Prop :=
  shapes.Pairwise (fun a b => strLt b.name a.name = false)

instance (shapes : List obj_shape) : Decidable (shapes_sorted shapes) := by
  unfold shapes_sorted; infer_instance

/-! ## The GPU driver

The driver is an external collaborator. A (fake) driver is given by what it answers to a call
as a function of all the calls made so far, the call it answers included: every deterministic
behaviour of a driver is of that form. The state threaded through the code is the sequence of
the calls made. -/

/-- The value of `GL_NO_ERROR` in the OpenGL ES 2.0 headers. -/
def GL_NO_ERROR : Nat := 0
/-- The value of `GL_INVALID_ENUM` in the OpenGL ES 2.0 headers. -/
def GL_INVALID_ENUM : Nat := 0x0500
/-- The value of `GL_INVALID_VALUE` in the OpenGL ES 2.0 headers. -/
def GL_INVALID_VALUE : Nat := 0x0501
/-- The value of `GL_INVALID_OPERATION` in the OpenGL ES 2.0 headers. -/
def GL_INVALID_OPERATION : Nat := 0x0502
/-- The value of `GL_INVALID_FRAMEBUFFER_OPERATION` in the OpenGL ES 2.0 headers. -/
def GL_INVALID_FRAMEBUFFER_OPERATION : Nat := 0x0506
/-- The value of `GL_FALSE` in the OpenGL ES 2.0 headers. -/
def GL_FALSE : Int := 0
/-- The value of `GL_TRUE` in the OpenGL ES 2.0 headers. -/
def GL_TRUE : Int := 1
/-- The value of `GL_COMPILE_STATUS` in the OpenGL ES 2.0 headers. -/
def GL_COMPILE_STATUS : Nat := 0x8B81
/-- The value of `GL_INFO_LOG_LENGTH` in the OpenGL ES 2.0 headers. -/
def GL_INFO_LOG_LENGTH : Nat := 0x8B84
/-- The value of `GL_VERTEX_SHADER` in the OpenGL ES 2.0 headers. -/
def GL_VERTEX_SHADER : Nat := 0x8B31
/-- The value of `GL_FRAGMENT_SHADER` in the OpenGL ES 2.0 headers. -/
def GL_FRAGMENT_SHADER : Nat := 0x8B30
/-- The value of `GL_ARRAY_BUFFER` in the OpenGL ES 2.0 headers. -/
def GL_ARRAY_BUFFER : Nat := 0x8892
/-- The value of `GL_STATIC_DRAW` in the OpenGL ES 2.0 headers. -/
def GL_STATIC_DRAW : Nat := 0x88E4
/-- The value of `GL_LINK_STATUS` in the OpenGL ES 2.0 headers. -/
def GL_LINK_STATUS : Nat := 0x8B82
/-- The value of `GL_TEXTURE0` in the OpenGL ES 2.0 headers. -/
def GL_TEXTURE0 : Nat := 0x84C0
/-- The value of `GL_TEXTURE_CUBE_MAP` in the OpenGL ES 2.0 headers. -/
def GL_TEXTURE_CUBE_MAP : Nat := 0x8513
/-- The value of `GL_TEXTURE_CUBE_MAP_POSITIVE_X` in the OpenGL ES 2.0 headers. -/
def GL_TEXTURE_CUBE_MAP_POSITIVE_X : Nat := 0x8515
/-- The value of `GL_TEXTURE_CUBE_MAP_NEGATIVE_X` in the OpenGL ES 2.0 headers. -/
def GL_TEXTURE_CUBE_MAP_NEGATIVE_X : Nat := 0x8516
/-- The value of `GL_TEXTURE_CUBE_MAP_POSITIVE_Y` in the OpenGL ES 2.0 headers. -/
def GL_TEXTURE_CUBE_MAP_POSITIVE_Y : Nat := 0x8517
/-- The value of `GL_TEXTURE_CUBE_MAP_NEGATIVE_Y` in the OpenGL ES 2.0 headers. -/
def GL_TEXTURE_CUBE_MAP_NEGATIVE_Y : Nat := 0x8518
/-- The value of `GL_TEXTURE_CUBE_MAP_POSITIVE_Z` in the OpenGL ES 2.0 headers. -/
def GL_TEXTURE_CUBE_MAP_POSITIVE_Z : Nat := 0x8519
/-- The value of `GL_TEXTURE_CUBE_MAP_NEGATIVE_Z` in the OpenGL ES 2.0 headers. -/
def GL_TEXTURE_CUBE_MAP_NEGATIVE_Z : Nat := 0x851A
/-- The value of `GL_TEXTURE_MIN_FILTER` in the OpenGL ES 2.0 headers. -/
def GL_TEXTURE_MIN_FILTER : Nat := 0x2801
/-- The value of `GL_TEXTURE_MAG_FILTER` in the OpenGL ES 2.0 headers. -/
def GL_TEXTURE_MAG_FILTER : Nat := 0x2800
/-- The value of `GL_TEXTURE_WRAP_S` in the OpenGL ES 2.0 headers. -/
def GL_TEXTURE_WRAP_S : Nat := 0x2802
/-- The value of `GL_TEXTURE_WRAP_T` in the OpenGL ES 2.0 headers. -/
def GL_TEXTURE_WRAP_T : Nat := 0x2803
/-- The value of `GL_NEAREST` in the OpenGL ES 2.0 headers. -/
def GL_NEAREST : Int := 0x2600
/-- The value of `GL_LINEAR` in the OpenGL ES 2.0 headers. -/
def GL_LINEAR : Int := 0x2601
/-- The value of `GL_CLAMP_TO_EDGE` in the OpenGL ES 2.0 headers. -/
def GL_CLAMP_TO_EDGE : Int := 0x812F
/-- The value of `GL_DEPTH_TEST` in the OpenGL ES 2.0 headers. -/
def GL_DEPTH_TEST : Nat := 0x0B71
/-- The value of `GL_COLOR_BUFFER_BIT` in the OpenGL ES 2.0 headers. -/
def GL_COLOR_BUFFER_BIT : Nat := 0x4000
/-- The value of `GL_DEPTH_BUFFER_BIT` in the OpenGL ES 2.0 headers. -/
def GL_DEPTH_BUFFER_BIT : Nat := 0x0100
/-- The value of `GL_TRIANGLES` in the OpenGL ES 2.0 headers. -/
def GL_TRIANGLES : Nat := 0x0004
/-- The value of `GL_FLOAT` in the OpenGL ES 2.0 headers. -/
def GL_FLOAT : Nat := 0x1406
/-- The value of `GL_RGBA` in the OpenGL ES 2.0 headers. -/
def GL_RGBA : Nat := 0x1908
/-- The value of `GL_UNSIGNED_BYTE` in the OpenGL ES 2.0 headers. -/
def GL_UNSIGNED_BYTE : Nat := 0x1401
/-- The constant `skybox_texture_index` of `mvz.cpp`. -/
def skybox_texture_index : Nat := 2

/-- A call of a driver function, with the arguments the driver reads. For `glDeleteBuffers`
these are `n` and the first `n` names at the address passed. -/
inductive GLCall where
  | glGetError
  | glCreateShader (type : Nat)
  | glShaderSource (shader : Nat) (count : Int) (string : Str) (length : Int)
  | glCompileShader (shader : Nat)
  | glGetShaderiv (shader : Nat) (pname : Nat)
  | glGetShaderInfoLog (shader : Nat) (bufSize : Int)
  | glDeleteShader (shader : Nat)
  | glGenBuffers (n : Int)
  | glBindBuffer (target : Nat) (buffer : Nat)
  | glBufferData (target : Nat) (size : Nat) (data : List GLfloat) (usage : Nat)
  | glDeleteBuffers (n : Int) (buffers : List Nat)
  | glCreateProgram
  | glAttachShader (program : Nat) (shader : Nat)
  | glLinkProgram (program : Nat)
  | glDetachShader (program : Nat) (shader : Nat)
  | glGetProgramiv (program : Nat) (pname : Nat)
  | glGetProgramInfoLog (program : Nat) (bufSize : Int)
  | glDeleteProgram (program : Nat)
  | glUseProgram (program : Nat)
  | glGetUniformLocation (program : Nat) (name : Str)
  | glGetAttribLocation (program : Nat) (name : Str)
  | glGenTextures (n : Int)
  | glGenRenderbuffers (n : Int)
  | glGenFramebuffers (n : Int)
  | glDeleteTextures (n : Int) (textures : List Nat)
  | glDeleteRenderbuffers (n : Int) (renderbuffers : List Nat)
  | glDeleteFramebuffers (n : Int) (framebuffers : List Nat)
  | glActiveTexture (texture : Nat)
  | glBindTexture (target : Nat) (texture : Nat)
  | glTexParameteri (target : Nat) (pname : Nat) (param : Int)
  | glTexImage2D (target : Nat) (level : Int) (internalformat : Nat) (width : Int)
      (height : Int) (border : Int) (format : Nat) (type : Nat) (pixels : List Nat)
  | glEnable (cap : Nat)
  | glViewport (x : Int) (y : Int) (width : Int) (height : Int)
  | glClear (mask : Nat)
  | glEnableVertexAttribArray (index : Int)
  | glDisableVertexAttribArray (index : Int)
  | glUniform1i (location : Int) (v0 : Int)
  | glUniformMatrix3fv (location : Int) (count : Int) (transpose : Int) (value : List GLfloat)
  | glVertexAttribPointer (index : Int) (size : Int) (type : Nat) (normalized : Int)
      (stride : Nat) (pointer : Nat)
  | glDrawArrays (mode : Nat) (first : Int) (count : Int)
deriving DecidableEq, Repr

/-- The calls made to the driver so far, oldest first. -/
abbrev Trace := List GLCall

/-- A driver: what the last call of a trace answers. `glGetError` is the error code;
`glCreateShader` the handle returned; `glGetShaderiv` the value stored through `params`
(`none`: nothing is stored); `glGetShaderInfoLog` the value stored through `length` and the
bytes written to the buffer; `glGenBuffers` the name stored. The answers for programs,
textures, renderbuffers and framebuffers are of the same kinds; `glGetUniformLocation` and
`glGetAttribLocation` are the locations returned. -/
structure Driver where
  glGetError : Trace → Nat
  glCreateShader : Trace → Nat
  glGetShaderiv : Trace → Option Int
  glGetShaderInfoLog : Trace → Option Int × Str
  glGenBuffers : Trace → Option Nat
  glCreateProgram : Trace → Nat
  glGetProgramiv : Trace → Option Int
  glGetProgramInfoLog : Trace → Option Int × Str
  glGenTextures : Trace → Option Nat
  glGenRenderbuffers : Trace → Option Nat
  glGenFramebuffers : Trace → Option Nat
  glGetUniformLocation : Trace → Int
  glGetAttribLocation : Trace → Int

/-- The path of the source file, as the macro `__FILE__` gives it. -/
def source_file : Str := lit "mvz.cpp"

/-- The function `format_gl_error`. -/
def format_gl_error (err : Str) (code : Str) (line : Nat) : Str :=
  source_file ++ lit ":" ++ lit (toString line) ++ lit ": '" ++ code ++ lit "' -> " ++ err

/-- The function `throw_gl_error`: the exception it throws, `none` when it returns. -/
def throw_gl_error (err : Nat) (line : Nat) (code : Str) : Option Exn :=
  if err = GL_NO_ERROR then none
  else if err = GL_INVALID_VALUE then
    some (.open_gl_error (format_gl_error (lit "GL_INVALID_VALUE") code line))
  else if err = GL_INVALID_ENUM then
    some (.open_gl_error (format_gl_error (lit "GL_INVALID_ENUM") code line))
  else if err = GL_INVALID_OPERATION then
    some (.open_gl_error (format_gl_error (lit "GL_INVALID_OPERATION") code line))
  else if err = GL_INVALID_FRAMEBUFFER_OPERATION then
    some (.open_gl_error (format_gl_error (lit "GL_INVALID_FRAMEBUFFER_OPERATION") code line))
  else some (.open_gl_error (format_gl_error (lit "(UNKNOWN_OPENGL_ERROR)") code line))

/-- The tail of the macros `CHECK_GL` and `CHECK_GL_EXPR`, after the statement has run:
`glGetError()` is called, and a code other than `GL_NO_ERROR` goes to `throw_gl_error`. -/
def check_error (d : Driver) (line : Nat) (code : Str) (t : Trace) : Except Exn Unit × Trace :=
  let t1 := t ++ [GLCall.glGetError]
  let err := d.glGetError t1
  if err ≠ GL_NO_ERROR then
    match throw_gl_error err line code with
    | some e => (.error e, t1)
    | none => (.ok (), t1)
  else (.ok (), t1)

/-- The macro `CHECK_GL(stmt)` for a statement that is one driver call without a result. -/
def CHECK_GL (d : Driver) (stmt : GLCall) (line : Nat) (code : Str) (t : Trace) :
    Except Exn Unit × Trace :=
  check_error d line code (t ++ [stmt])

/-- A run of statements of the form `CHECK_GL(stmt)`, each given with its line and its text:
they run in order, and the first that raises ends the run. -/
def run_checked (d : Driver) : List (GLCall × Nat × Str) → Trace → Except Exn Unit × Trace
  | [], t => (.ok (), t)
  | (stmt, line, code) :: rest, t =>
    match CHECK_GL d stmt line code t with
    | (.ok _, t1) => run_checked d rest t1
    | (.error e, t1) => (.error e, t1)

/-- The conversion `static_cast<GLint>` of a `size_t`. -/
def to_GLint (n : Nat) : Int := ((n : Int) + 2 ^ 31) % 2 ^ 32 - 2 ^ 31

/-- The call `s.resize(n)` of a `std::string`: cut to `n` bytes, or filled up with zeros. -/
def str_resize (s : Str) (n : Nat) : Str := s.take n ++ List.replicate (n - s.length) 0

/-! ## `shader` (`mvz.cpp`) -/

/-- The class `shader`. -/
structure shader where
  m_id : Nat := 0
deriving DecidableEq, Repr

/-- The first `try` block of `shader::init` with its handler: upload, compile, query the
status. The value is true when the block returns from `init` (status `GL_TRUE`). -/
def shader.compile_block (d : Driver) (m_id : Nat) (source_ptr : Str) (source_len : Int)
    (t : Trace) : Except Exn Bool × Trace :=
  let body : Except Exn Bool × Trace :=
    match CHECK_GL d (.glShaderSource m_id 1 source_ptr source_len) 232
        (lit "glShaderSource(m_id, 1, &source_ptr, &source_len)") t with
    | (.error e, t1) => (.error e, t1)
    | (.ok _, t1) =>
      match CHECK_GL d (.glCompileShader m_id) 233 (lit "glCompileShader(m_id)") t1 with
      | (.error e, t2) => (.error e, t2)
      | (.ok _, t2) =>
        let t3 := t2 ++ [GLCall.glGetShaderiv m_id GL_COMPILE_STATUS]
        let compile_status := (d.glGetShaderiv t3).getD GL_FALSE
        match check_error d 235
            (lit "glGetShaderiv(m_id, GL_COMPILE_STATUS, &compile_status)") t3 with
        | (.error e, t4) => (.error e, t4)
        | (.ok _, t4) => (.ok (decide (compile_status = GL_TRUE)), t4)
  match body with
  | (.error e, t5) => (.error e, t5 ++ [GLCall.glDeleteShader m_id])
  | (.ok b, t5) => (.ok b, t5)

/-- The second `try` block of `shader::init` with its handler: the query of the log length. -/
def shader.log_length_block (d : Driver) (m_id : Nat) (t : Trace) : Except Exn Int × Trace :=
  let t1 := t ++ [GLCall.glGetShaderiv m_id GL_INFO_LOG_LENGTH]
  let log_length := (d.glGetShaderiv t1).getD 0
  match check_error d 247 (lit "glGetShaderiv(m_id, GL_INFO_LOG_LENGTH, &log_length)") t1 with
  | (.error e, t2) => (.error e, t2 ++ [GLCall.glDeleteShader m_id])
  | (.ok _, t2) => (.ok log_length, t2)

/-- The third `try` block of `shader::init` with its handler: the log is read into a buffer
of `log_length` zero bytes. The value is `read_size` and the buffer after the call (the
driver writes within the buffer). -/
def shader.info_log_block (d : Driver) (m_id : Nat) (log_length : Int) (t : Trace) :
    Except Exn (Int × Str) × Trace :=
  let t1 := t ++ [GLCall.glGetShaderInfoLog m_id log_length]
  let answer := d.glGetShaderInfoLog t1
  let read_size := answer.1.getD 0
  let written := answer.2.take log_length.toNat
  let log := written ++ List.replicate (log_length.toNat - written.length) 0
  match check_error d 267 (lit "glGetShaderInfoLog(m_id, log_length, &read_size, &log[0])") t1 with
  | (.error e, t2) => (.error e, t2 ++ [GLCall.glDeleteShader m_id])
  | (.ok _, t2) => (.ok (read_size, log), t2)

/-- The method `shader::init`. `assets` is the embedded asset store (`none`: the path is
absent and `fs.open` throws). The result is the outcome, the object and the trace after
the call. -/
def shader.init (d : Driver) (assets : Str → Option Str) (self : shader) (type : Nat)
    (path : Str) (t : Trace) : Except Exn Unit × shader × Trace :=
  match assets path with
  | none => (.error .system_error, self, t)
  | some file =>
    let source_ptr := file
    let source_len := to_GLint file.length
    let t0 := t ++ [GLCall.glCreateShader type]
    let m_id := d.glCreateShader t0
    match check_error d 229 (lit "glCreateShader") t0 with
    | (.error e, t1) => (.error e, { m_id := m_id }, t1)
    | (.ok _, t1) =>
      match shader.compile_block d m_id source_ptr source_len t1 with
      | (.error e, t2) => (.error e, { m_id := m_id }, t2)
      | (.ok true, t2) => (.ok (), { m_id := m_id }, t2)
      | (.ok false, t2) =>
        match shader.log_length_block d m_id t2 with
        | (.error e, t3) => (.error e, { m_id := m_id }, t3)
        | (.ok log_length, t3) =>
          if log_length < 0 then
            (.error (.runtime_error (lit "Shader log length of '" ++ lit (toString log_length)
                ++ lit "' is invalid.")),
              { m_id := m_id }, t3 ++ [GLCall.glDeleteShader m_id])
          else
            match shader.info_log_block d m_id log_length t3 with
            | (.error e, t4) => (.error e, { m_id := m_id }, t4)
            | (.ok (read_size, log), t4) =>
              if read_size < 0 then
                (.error (.runtime_error (lit "Shader log read size of '"
                    ++ lit (toString read_size) ++ lit "' is invalid.")),
                  { m_id := m_id }, t4 ++ [GLCall.glDeleteShader m_id])
              else
                let log := str_resize log read_size.toNat
                match CHECK_GL d (.glDeleteShader m_id) 282 (lit "glDeleteShader(m_id)") t4 with
                | (.error e, t5) => (.error e, { m_id := m_id }, t5)
                | (.ok _, t5) => (.error (.glsl_error log path file), { m_id := m_id }, t5)

/-- The method `shader::cleanup`. -/
def shader.cleanup (self : shader) (t : Trace) : Trace := t ++ [GLCall.glDeleteShader self.m_id]

/-- The method `shader::id`. -/
def shader.id (self : shader) : Nat := self.m_id

/-! ## `session_impl` (`mvz.cpp`): the file registry -/

/-- The struct `vec3` of `mvz.h`. -/
structure vec3 where
  x : GLfloat
  y : GLfloat
  z : GLfloat
deriving DecidableEq, Repr

/-- The bit pattern of the float `1`. -/
def float_one : GLfloat := 0x3F800000

/-- The struct `mesh_instance` of `mvz.h`. -/
structure mesh_instance where
  scale : vec3 := ⟨float_one, float_one, float_one⟩
  rotation : vec3 := ⟨float_one, float_one, float_one⟩
  translation : vec3 := ⟨float_one, float_one, float_one⟩
  obj_id : Int := 0
  shape_index : Int := 0
deriving DecidableEq, Repr

/-- The struct `gl_obj_shape`. -/
structure gl_obj_shape where
  meshes : List Nat := []
  num_vertices : List Int := []
deriving DecidableEq, Repr

/-- The struct `gl_obj_file`. -/
structure gl_obj_file where
  shapes : List gl_obj_shape := []
deriving DecidableEq, Repr

/-- The class `framebuffer`, with the flag `m_initialized` of its base `gl_object`. -/
structure framebuffer where
  m_initialized : Bool := false
  m_framebuffer : Nat := 0
  m_renderbuffer : Nat := 0
  m_texture : Nat := 0
  m_width : Int := 0
  m_height : Int := 0
deriving DecidableEq, Repr

/-- The class `program`. -/
structure program where
  m_id : Nat := 0
deriving DecidableEq, Repr

/-- The first `try` block of `program::init` with its handler: attach, link, detach. -/
def program.link_block (d : Driver) (m_id vert_shader frag_shader : Nat) (t : Trace) :
    Except Exn Unit × Trace :=
  match run_checked d
      [(.glAttachShader m_id vert_shader, 303, lit "glAttachShader(m_id, vert_shader)"),
       (.glAttachShader m_id frag_shader, 304, lit "glAttachShader(m_id, frag_shader)"),
       (.glLinkProgram m_id, 305, lit "glLinkProgram(m_id)"),
       (.glDetachShader m_id vert_shader, 306, lit "glDetachShader(m_id, vert_shader)"),
       (.glDetachShader m_id frag_shader, 307, lit "glDetachShader(m_id, frag_shader)")] t with
  | (.error e, t1) => (.error e, t1 ++ [GLCall.glDeleteProgram m_id])
  | (.ok u, t1) => (.ok u, t1)

/-- The second `try` block of `program::init` with its handler: the query of the link
status. The value is `link_status`. -/
def program.link_status_block (d : Driver) (m_id : Nat) (t : Trace) : Except Exn Int × Trace :=
  let t1 := t ++ [GLCall.glGetProgramiv m_id GL_LINK_STATUS]
  let link_status := (d.glGetProgramiv t1).getD 0
  match check_error d 316 (lit "glGetProgramiv(m_id, GL_LINK_STATUS, &link_status)") t1 with
  | (.error e, t2) => (.error e, t2 ++ [GLCall.glDeleteProgram m_id])
  | (.ok _, t2) => (.ok link_status, t2)

/-- The third `try` block of `program::init` with its handler: the query of the log length. -/
def program.log_length_block (d : Driver) (m_id : Nat) (t : Trace) : Except Exn Int × Trace :=
  let t1 := t ++ [GLCall.glGetProgramiv m_id GL_INFO_LOG_LENGTH]
  let log_length := (d.glGetProgramiv t1).getD 0
  match check_error d 329 (lit "glGetProgramiv(m_id, GL_INFO_LOG_LENGTH, &log_length)") t1 with
  | (.error e, t2) => (.error e, t2 ++ [GLCall.glDeleteProgram m_id])
  | (.ok _, t2) => (.ok log_length, t2)

/-- The fourth `try` block of `program::init` with its handler: the log is read into a
buffer of `log_length` zero bytes. The value is `read_size` and the buffer after the call. -/
def program.info_log_block (d : Driver) (m_id : Nat) (log_length : Int) (t : Trace) :
    Except Exn (Int × Str) × Trace :=
  let t1 := t ++ [GLCall.glGetProgramInfoLog m_id log_length]
  let answer := d.glGetProgramInfoLog t1
  let read_size := answer.1.getD 0
  let written := answer.2.take log_length.toNat
  let info_log := written ++ List.replicate (log_length.toNat - written.length) 0
  match check_error d 349
      (lit "glGetProgramInfoLog(m_id, log_length, &read_size, &info_log[0])") t1 with
  | (.error e, t2) => (.error e, t2 ++ [GLCall.glDeleteProgram m_id])
  | (.ok _, t2) => (.ok (read_size, info_log), t2)

/-- The method `program::init`. The result is the outcome, the object and the trace after
the call. -/
def program.init (d : Driver) (_self : program) (vert_shader frag_shader : Nat) (t : Trace) :
    Except Exn Unit × program × Trace :=
  let t0 := t ++ [GLCall.glCreateProgram]
  let m_id := d.glCreateProgram t0
  match check_error d 300 (lit "glCreateProgram") t0 with
  | (.error e, t1) => (.error e, { m_id := m_id }, t1)
  | (.ok _, t1) =>
    match program.link_block d m_id vert_shader frag_shader t1 with
    | (.error e, t2) => (.error e, { m_id := m_id }, t2)
    | (.ok _, t2) =>
      match program.link_status_block d m_id t2 with
      | (.error e, t3) => (.error e, { m_id := m_id }, t3)
      | (.ok link_status, t3) =>
        if link_status = GL_TRUE then (.ok (), { m_id := m_id }, t3)
        else
          match program.log_length_block d m_id t3 with
          | (.error e, t4) => (.error e, { m_id := m_id }, t4)
          | (.ok log_length, t4) =>
            if log_length < 0 then
              (.error (.runtime_error (lit "Invalid log length '" ++ lit (toString log_length)
                  ++ lit "' for shader program.")),
                { m_id := m_id }, t4 ++ [GLCall.glDeleteProgram m_id])
            else
              match program.info_log_block d m_id log_length t4 with
              | (.error e, t5) => (.error e, { m_id := m_id }, t5)
              | (.ok (read_size, info_log), t5) =>
                if read_size < 0 then
                  (.error (.runtime_error (lit "Invalid log read size '"
                      ++ lit (toString read_size) ++ lit "' for shader program.")),
                    { m_id := m_id }, t5 ++ [GLCall.glDeleteProgram m_id])
                else
                  match CHECK_GL d (.glDeleteProgram m_id) 362 (lit "glDeleteProgram(m_id)")
                      t5 with
                  | (.error e, t6) => (.error e, { m_id := m_id }, t6)
                  | (.ok _, t6) =>
                    (.error (.open_gl_error (str_resize info_log read_size.toNat)),
                      { m_id := m_id }, t6)

/-- The method `program::cleanup`. -/
def program.cleanup (self : program) (t : Trace) : Trace :=
  t ++ [GLCall.glDeleteProgram self.m_id]

/-- The method `program::use`. -/
def program.use (d : Driver) (self : program) (t : Trace) : Except Exn Unit × Trace :=
  CHECK_GL d (.glUseProgram self.m_id) 371 (lit "glUseProgram(m_id)") t

/-- The method `program::get_uniform_location`: the location and the trace after the call. -/
def program.get_uniform_location (d : Driver) (self : program) (name : Str) (t : Trace) :
    Int × Trace :=
  (d.glGetUniformLocation (t ++ [GLCall.glGetUniformLocation self.m_id name]),
    t ++ [GLCall.glGetUniformLocation self.m_id name])

/-- The method `program::get_attribute_location`: the location and the trace after the call. -/
def program.get_attribute_location (d : Driver) (self : program) (name : Str) (t : Trace) :
    Int × Trace :=
  (d.glGetAttribLocation (t ++ [GLCall.glGetAttribLocation self.m_id name]),
    t ++ [GLCall.glGetAttribLocation self.m_id name])

/-- The data members of the class `session_impl`, with their default initialisers. -/
structure session_impl where
  m_color_framebuffer : framebuffer := {}
  m_segmentation_framebuffer : framebuffer := {}
  m_skybox_color_program : program := {}
  m_mesh_color_program : program := {}
  m_skybox_texture : Nat := 0
  m_screen_quad : Nat := 0
  m_obj_files : IntMap obj_file := []
  m_obj_paths : IntMap Str := []
  m_gl_obj_files : IntMap gl_obj_file := []
  m_next_obj_id : Int := 0
  m_development_mode : Bool := false
deriving DecidableEq, Repr

/-- One round of the inner loop of `create_gl_obj_file`, for mesh `j` of a shape: `mesh` is
`f.shapes.at(i).meshes.at(j)`, `shp` the GPU shape being filled. Both handlers swallow the
exception they catch. -/
def session_impl.create_gl_obj_mesh (d : Driver) (mesh : obj_mesh) (j : Nat)
    (shp : gl_obj_shape) (t : Trace) : gl_obj_shape × Trace :=
  let t1 := t ++ [GLCall.glGenBuffers 1]
  let meshes :=
    match d.glGenBuffers t1 with
    | some name => shp.meshes.set j name
    | none => shp.meshes
  let t3 :=
    match check_error d 693 (lit "glGenBuffers(1, &shp.meshes.at(j))") t1 with
    | (.error _, t2) =>
      if j > 0 then t2 ++ [GLCall.glDeleteBuffers ((j : Int) - 1) (meshes.take (j - 1))] else t2
    | (.ok _, t2) => t2
  let id := meshes.getD j 0
  let num_vertices := shp.num_vertices.set j mesh.num_vertices
  let data := mesh.vertices
  let upload : Except Exn Unit × Trace :=
    match CHECK_GL d (.glBindBuffer GL_ARRAY_BUFFER id) 707
        (lit "glBindBuffer(GL_ARRAY_BUFFER, id)") t3 with
    | (.error e, t4) => (.error e, t4)
    | (.ok _, t4) =>
      CHECK_GL d (.glBufferData GL_ARRAY_BUFFER (data.length * 4) data GL_STATIC_DRAW) 708
        (lit "glBufferData(GL_ARRAY_BUFFER, data.size() * sizeof(data[0]), data.data(), GL_STATIC_DRAW)")
        t4
  let t6 :=
    match upload with
    | (.error _, t5) => t5 ++ [GLCall.glDeleteBuffers (j : Int) (meshes.take j)]
    | (.ok _, t5) => t5
  ({ meshes := meshes, num_vertices := num_vertices }, t6)

/-- The inner loop of `create_gl_obj_file` from mesh `j` on. -/
def session_impl.create_gl_obj_meshes (d : Driver) :
    List obj_mesh → Nat → gl_obj_shape → Trace → gl_obj_shape × Trace
  | [], _, shp, t => (shp, t)
  | mesh :: rest, j, shp, t =>
    let r := session_impl.create_gl_obj_mesh d mesh j shp t
    session_impl.create_gl_obj_meshes d rest (j + 1) r.1 r.2

/-- The outer loop of `create_gl_obj_file`: the GPU shapes made so far are `done`. -/
def session_impl.create_gl_obj_shapes (d : Driver) :
    List obj_shape → List gl_obj_shape → Trace → List gl_obj_shape × Trace
  | [], done, t => (done, t)
  | shape :: rest, done, t =>
    let num_meshes := shape.meshes.length
    let shp : gl_obj_shape :=
      { meshes := List.replicate num_meshes 0, num_vertices := List.replicate num_meshes 0 }
    let r := session_impl.create_gl_obj_meshes d shape.meshes 0 shp t
    session_impl.create_gl_obj_shapes d rest (done ++ [r.1]) r.2

/-- The method `session_impl::create_gl_obj_file`. -/
def session_impl.create_gl_obj_file (d : Driver) (f : obj_file) (t : Trace) :
    gl_obj_file × Trace :=
  let r := session_impl.create_gl_obj_shapes d f.shapes [] t
  ({ shapes := r.1 }, r.2)

/-- The method `session_impl::load_obj`. `parsed` is what the external parser makes of the
file at `path` (`none`: it reports failure). The result is the outcome, the session and the
trace after the call. -/
def session_impl.load_obj (d : Driver) (self : session_impl) (path : Str)
    (parsed : Option ObjReader) (t : Trace) : Except Exn Int × session_impl × Trace :=
  match obj_file.load {} parsed with
  | .error e => (.error e, self, t)
  | .ok (false, _) =>
    (.error (.runtime_error (lit "Failed to load OBJ file '" ++ path ++ lit "'.")), self, t)
  | .ok (true, file) =>
    let r := session_impl.create_gl_obj_file d file t
    let id := self.m_next_obj_id
    (.ok id,
      { self with
        m_next_obj_id := id + 1
        m_obj_files := IntMap.emplace self.m_obj_files id file
        m_obj_paths := IntMap.emplace self.m_obj_paths id path
        m_gl_obj_files := IntMap.emplace self.m_gl_obj_files id r.1 },
      r.2)

/-- The method `session_impl::instance` (and `session::instance`, which forwards to it). -/
def session_impl.instance_of (self : session_impl) (obj_id : Int) (shape : Str) :
    Except Exn mesh_instance :=
  match IntMap.at self.m_obj_files obj_id with
  | none => .error .out_of_range
  | some file =>
    let shape_idx := file.find_shape shape
    if shape_idx < 0 then
      match IntMap.at self.m_obj_paths obj_id with
      | none => .error .out_of_range
      | some path =>
        .error (.runtime_error (lit "Failed to find shape '" ++ shape ++ lit "' in OBJ '"
          ++ path ++ lit "'."))
    else .ok { obj_id := obj_id, shape_index := shape_idx }

/-- One call of `load_obj`: the path and what the parser makes of the file. -/
structure load_call where
  path : Str
  parsed : Option ObjReader
deriving DecidableEq, Repr

/-- A sequence of `load_obj` calls on a session, in order: the outcomes of the calls, and the
session and the trace after the last. -/
def session_impl.run_loads (d : Driver) :
    List load_call → session_impl → Trace → List (Except Exn Int) × session_impl × Trace
  | [], self, t => ([], self, t)
  | c :: rest, self, t =>
    let r := session_impl.load_obj d self c.path c.parsed t
    let rs := session_impl.run_loads d rest r.2.1 r.2.2
    (r.1 :: rs.1, rs.2.1, rs.2.2)

/-- The file ids returned by the successful calls among a list of outcomes, in order. -/
def returned_ids : List (Except Exn Int) → List Int
  | [] => []
  | .ok id :: rest => id :: returned_ids rest
  | .error _ :: rest => returned_ids rest

/-! ## `gl_object` and `framebuffer` (`mvz.cpp`) -/

/-- The method `gl_object::init`; `init_impl` is the virtual creation routine, which cannot
reach the private flag `m_initialized`. -/
def gl_object.init (init_impl : framebuffer → Trace → Except Exn Unit × framebuffer × Trace)
    (self : framebuffer) (t : Trace) : Except Exn Unit × framebuffer × Trace :=
  match init_impl self t with
  | (.error e, s, t1) => (.error e, { s with m_initialized := self.m_initialized }, t1)
  | (.ok _, s, t1) => (.ok (), { s with m_initialized := true }, t1)

/-- The method `gl_object::cleanup`; `cleanup_impl` is the virtual destruction routine. -/
def gl_object.cleanup (cleanup_impl : framebuffer → Trace → Except Exn Unit × Trace)
    (self : framebuffer) (t : Trace) : Except Exn Unit × framebuffer × Trace :=
  if self.m_initialized then
    match cleanup_impl self t with
    | (.error e, t1) => (.error e, self, t1)
    | (.ok _, t1) => (.ok (), { self with m_initialized := false }, t1)
  else (.ok (), self, t)

/-- The method `framebuffer::init_impl`; `HasDepth` is the template parameter. -/
def framebuffer.init_impl (d : Driver) (HasDepth : Bool) (self : framebuffer) (t : Trace) :
    Except Exn Unit × framebuffer × Trace :=
  let t1 := t ++ [GLCall.glGenTextures 1]
  let self1 : framebuffer :=
    match d.glGenTextures t1 with
    | some name => { self with m_texture := name }
    | none => self
  match check_error d 182 (lit "glGenTextures(1, &m_texture)") t1 with
  | (.error e, t2) => (.error e, self1, t2)
  | (.ok _, t2) =>
    let depth : Except Exn Unit × framebuffer × Trace :=
      if HasDepth then
        let t3 := t2 ++ [GLCall.glGenRenderbuffers 1]
        let self2 : framebuffer :=
          match d.glGenRenderbuffers t3 with
          | some name => { self1 with m_renderbuffer := name }
          | none => self1
        match check_error d 185 (lit "glGenRenderbuffers(1, &m_renderbuffer)") t3 with
        | (.error e, t4) => (.error e, self2, t4)
        | (.ok _, t4) => (.ok (), self2, t4)
      else (.ok (), self1, t2)
    match depth with
    | (.error e, self2, t4) => (.error e, self2, t4)
    | (.ok _, self2, t4) =>
      let t5 := t4 ++ [GLCall.glGenFramebuffers 1]
      let self3 : framebuffer :=
        match d.glGenFramebuffers t5 with
        | some name => { self2 with m_framebuffer := name }
        | none => self2
      match check_error d 188 (lit "glGenFramebuffers(1, &m_framebuffer)") t5 with
      | (.error e, t6) => (.error e, self3, t6)
      | (.ok _, t6) => (.ok (), self3, t6)

/-- The method `framebuffer::cleanup_impl`. -/
def framebuffer.cleanup_impl (d : Driver) (HasDepth : Bool) (self : framebuffer) (t : Trace) :
    Except Exn Unit × Trace :=
  run_checked d
    ([(GLCall.glDeleteFramebuffers 1 [self.m_framebuffer], 193,
        lit "glDeleteFramebuffers(1, &m_framebuffer)"),
      (GLCall.glDeleteTextures 1 [self.m_texture], 194, lit "glDeleteTextures(1, &m_texture)")]
      ++ (if HasDepth then
            [(GLCall.glDeleteRenderbuffers 1 [self.m_renderbuffer], 196,
              lit "glDeleteRenderbuffers(1, &m_renderbuffer)")]
          else []))
    t

/-- The call `init()` on a framebuffer. -/
def framebuffer.init (d : Driver) (HasDepth : Bool) (self : framebuffer) (t : Trace) :
    Except Exn Unit × framebuffer × Trace :=
  gl_object.init (framebuffer.init_impl d HasDepth) self t

/-- The call `cleanup()` on a framebuffer. -/
def framebuffer.cleanup (d : Driver) (HasDepth : Bool) (self : framebuffer) (t : Trace) :
    Except Exn Unit × framebuffer × Trace :=
  gl_object.cleanup (framebuffer.cleanup_impl d HasDepth) self t

/-- Two calls in a row, the second on the object and the trace the first leaves; the second
is not reached when the first raises. -/
def twice (f : framebuffer → Trace → Except Exn Unit × framebuffer × Trace)
    (self : framebuffer) (t : Trace) : Except Exn Unit × framebuffer × Trace :=
  match f self t with
  | (.error e, s, t1) => (.error e, s, t1)
  | (.ok _, s, t1) => f s t1

/-! ## `session_impl` (`mvz.cpp`): construction -/

/-- A decoded image: width, height and the RGBA bytes. -/
structure image where
  w : Int
  h : Int
  px : List Nat
deriving DecidableEq, Repr

/-- The function `open_rc_image` of `mvz_stb.cpp`: `fs.open` throws for an absent path, and
the external decoder `stbi_load` gives `none` for a null result. -/
def open_rc_image (assets : Str → Option Str) (stbi_load : Str → Option image) (path : Str) :
    Except Exn (Option image) :=
  match assets path with
  | none => .error .system_error
  | some file => .ok (stbi_load file)

/-- A handler of the form `catch (...) { stmts; throw; }` entered with the exception `e`:
the exception that leaves it (the one of a statement that raises, else `e`) and the trace. -/
def rethrow_after : List (Trace → Except Exn Unit × Trace) → Exn → Trace → Exn × Trace
  | [], e, t => (e, t)
  | stmt :: rest, e, t =>
    match stmt t with
    | (.ok _, t1) => rethrow_after rest e t1
    | (.error e2, t1) => (e2, t1)

/-- A driver call made without `CHECK_GL`, as a statement. -/
def unchecked (call : GLCall) (t : Trace) : Except Exn Unit × Trace := (.ok (), t ++ [call])

/-- The function `create_cubemap`: the texture name it returns. -/
def create_cubemap (d : Driver) (_active_texture : Nat) (t : Trace) : Except Exn Nat × Trace :=
  let t1 := t ++ [GLCall.glGenTextures 1]
  let texture := (d.glGenTextures t1).getD 0
  match check_error d 111 (lit "glGenTextures(1, &texture)") t1 with
  | (.error e, t2) => (.error e, t2)
  | (.ok _, t2) =>
    match run_checked d
        [(.glActiveTexture (GL_TEXTURE0 + skybox_texture_index), 113,
            lit "glActiveTexture(GL_TEXTURE0 + skybox_texture_index)"),
         (.glBindTexture GL_TEXTURE_CUBE_MAP texture, 115,
            lit "glBindTexture(GL_TEXTURE_CUBE_MAP, texture)"),
         (.glTexParameteri GL_TEXTURE_CUBE_MAP GL_TEXTURE_MIN_FILTER GL_NEAREST, 117,
            lit "glTexParameteri(GL_TEXTURE_CUBE_MAP, GL_TEXTURE_MIN_FILTER, GL_NEAREST)"),
         (.glTexParameteri GL_TEXTURE_CUBE_MAP GL_TEXTURE_MAG_FILTER GL_LINEAR, 118,
            lit "glTexParameteri(GL_TEXTURE_CUBE_MAP, GL_TEXTURE_MAG_FILTER, GL_LINEAR)"),
         (.glTexParameteri GL_TEXTURE_CUBE_MAP GL_TEXTURE_WRAP_S GL_CLAMP_TO_EDGE, 120,
            lit "glTexParameteri(GL_TEXTURE_CUBE_MAP, GL_TEXTURE_WRAP_S, GL_CLAMP_TO_EDGE)"),
         (.glTexParameteri GL_TEXTURE_CUBE_MAP GL_TEXTURE_WRAP_T GL_CLAMP_TO_EDGE, 121,
            lit "glTexParameteri(GL_TEXTURE_CUBE_MAP, GL_TEXTURE_WRAP_T, GL_CLAMP_TO_EDGE)")]
        t2 with
    | (.error e, t3) => (.error e, t3)
    | (.ok _, t3) => (.ok texture, t3)

/-- The table `entries` of `open_internal_skybox`: the six faces and their files. -/
def skybox_entries : List (Nat × Str) :=
  [(GL_TEXTURE_CUBE_MAP_POSITIVE_X, lit "/px.png"),
   (GL_TEXTURE_CUBE_MAP_NEGATIVE_X, lit "/nx.png"),
   (GL_TEXTURE_CUBE_MAP_POSITIVE_Y, lit "/py.png"),
   (GL_TEXTURE_CUBE_MAP_NEGATIVE_Y, lit "/ny.png"),
   (GL_TEXTURE_CUBE_MAP_POSITIVE_Z, lit "/pz.png"),
   (GL_TEXTURE_CUBE_MAP_NEGATIVE_Z, lit "/nz.png")]

/-- The loop of `open_internal_skybox` over the entries that are left. -/
def session_impl.open_skybox_faces (d : Driver) (assets : Str → Option Str)
    (stbi_load : Str → Option image) (pre : Str) :
    List (Nat × Str) → Trace → Except Exn Unit × Trace
  | [], t => (.ok (), t)
  | entry :: rest, t =>
    let path := pre ++ entry.2
    let target := entry.1
    match open_rc_image assets stbi_load path with
    | .error e => (.error e, t)
    | .ok none =>
      (.error (.runtime_error (lit "Failed to open internal skybox '" ++ path ++ lit "'.")), t)
    | .ok (some data) =>
      match CHECK_GL d
          (.glTexImage2D target 0 GL_RGBA data.w data.h 0 GL_RGBA GL_UNSIGNED_BYTE data.px) 668
          (lit "glTexImage2D(target, 0, GL_RGBA, w, h, 0, GL_RGBA, GL_UNSIGNED_BYTE, data.get())")
          t with
      | (.error e, t1) => (.error e, t1)
      | (.ok _, t1) => session_impl.open_skybox_faces d assets stbi_load pre rest t1

/-- The method `session_impl::open_internal_skybox`. -/
def session_impl.open_internal_skybox (d : Driver) (assets : Str → Option Str)
    (stbi_load : Str → Option image) (self : session_impl) (pre : Str) (t : Trace) :
    Except Exn Unit × Trace :=
  let t1 := t ++ [GLCall.glActiveTexture (GL_TEXTURE0 + skybox_texture_index)]
  match CHECK_GL d (.glBindTexture GL_TEXTURE_CUBE_MAP self.m_skybox_texture) 650
      (lit "glBindTexture(GL_TEXTURE_CUBE_MAP, m_skybox_texture)") t1 with
  | (.error e, t2) => (.error e, t2)
  | (.ok _, t2) => session_impl.open_skybox_faces d assets stbi_load pre skybox_entries t2

/-- The method `session_impl::create_skybox_texture`; every exception of the model is a
`std::exception`, so its handler catches all of them. -/
def session_impl.create_skybox_texture (d : Driver) (assets : Str → Option Str)
    (stbi_load : Str → Option image) (self : session_impl) (t : Trace) :
    Except Exn Unit × session_impl × Trace :=
  match create_cubemap d (GL_TEXTURE0 + skybox_texture_index) t with
  | (.error e, t1) => (.error e, self, t1)
  | (.ok texture, t1) =>
    let self1 := { self with m_skybox_texture := texture }
    match session_impl.open_internal_skybox d assets stbi_load self1
        (lit "assets/skyboxes/DaySkyHDRI017B") t1 with
    | (.error e, t2) =>
      (.error e, self1, t2 ++ [GLCall.glDeleteTextures 1 [self1.m_skybox_texture]])
    | (.ok _, t2) => (.ok (), self1, t2)

/-- The 12 floats of the screen quad of `create_screen_quad`. -/
def screen_quad_data : List GLfloat :=
  [0, 0, 0, float_one, float_one, float_one, float_one, float_one, float_one, 0, 0, 0]

/-- The method `session_impl::create_screen_quad`. -/
def session_impl.create_screen_quad (d : Driver) (self : session_impl) (t : Trace) :
    Except Exn Unit × session_impl × Trace :=
  let t1 := t ++ [GLCall.glGenBuffers 1]
  let self1 :=
    match d.glGenBuffers t1 with
    | some name => { self with m_screen_quad := name }
    | none => self
  match check_error d 793 (lit "glGenBuffers(1, &m_screen_quad)") t1 with
  | (.error e, t2) => (.error e, self1, t2)
  | (.ok _, t2) =>
    (.ok (), self1,
      t2 ++ [GLCall.glBindBuffer GL_ARRAY_BUFFER self1.m_screen_quad,
        GLCall.glBufferData GL_ARRAY_BUFFER (screen_quad_data.length * 4) screen_quad_data
          GL_STATIC_DRAW])

/-- The method `session_impl::create_skybox_shaders`. The handler around `program::init`
cleans the two shaders up and does not rethrow; the two clean-ups after it run in any case. -/
def session_impl.create_skybox_shaders (d : Driver) (assets : Str → Option Str)
    (self : session_impl) (t : Trace) : Except Exn Unit × session_impl × Trace :=
  match shader.init d assets {} GL_VERTEX_SHADER (lit "assets/shaders/skybox.vert") t with
  | (.error e, _, t1) => (.error e, self, t1)
  | (.ok _, skybox_vert_shader, t1) =>
    match shader.init d assets {} GL_FRAGMENT_SHADER (lit "assets/shaders/skybox_color.frag")
        t1 with
    | (.error e, _, t2) => (.error e, self, skybox_vert_shader.cleanup t2)
    | (.ok _, skybox_color_frag_shader, t2) =>
      let r := program.init d self.m_skybox_color_program skybox_vert_shader.id
        skybox_color_frag_shader.id t2
      let t3 :=
        match r.1 with
        | .error _ => skybox_vert_shader.cleanup (skybox_color_frag_shader.cleanup r.2.2)
        | .ok _ => r.2.2
      (.ok (), { self with m_skybox_color_program := r.2.1 },
        skybox_color_frag_shader.cleanup (skybox_vert_shader.cleanup t3))

/-- The method `session_impl::create_mesh_shaders`. The handler around `program::init` cleans
the two shaders up and does not rethrow; after a successful `init` they are not cleaned up. -/
def session_impl.create_mesh_shaders (d : Driver) (assets : Str → Option Str)
    (self : session_impl) (t : Trace) : Except Exn Unit × session_impl × Trace :=
  match shader.init d assets {} GL_VERTEX_SHADER (lit "assets/shaders/mesh.vert") t with
  | (.error e, _, t1) => (.error e, self, t1)
  | (.ok _, mesh_vert_shader, t1) =>
    match shader.init d assets {} GL_FRAGMENT_SHADER (lit "assets/shaders/mesh_color.frag")
        t1 with
    | (.error e, _, t2) => (.error e, self, mesh_vert_shader.cleanup t2)
    | (.ok _, mesh_color_frag_shader, t2) =>
      let r := program.init d self.m_mesh_color_program mesh_vert_shader.id
        mesh_color_frag_shader.id t2
      let t3 :=
        match r.1 with
        | .error _ => mesh_color_frag_shader.cleanup (mesh_vert_shader.cleanup r.2.2)
        | .ok _ => r.2.2
      (.ok (), { self with m_mesh_color_program := r.2.1 }, t3)

/-- The method `session_impl::create_shaders`. -/
def session_impl.create_shaders (d : Driver) (assets : Str → Option Str)
    (self : session_impl) (t : Trace) : Except Exn Unit × session_impl × Trace :=
  match session_impl.create_skybox_shaders d assets self t with
  | (.error e, s, t1) => (.error e, s, t1)
  | (.ok _, s, t1) =>
    match session_impl.create_mesh_shaders d assets s t1 with
    | (.error e, s2, t2) => (.error e, s2, s.m_skybox_color_program.cleanup t2)
    | (.ok _, s2, t2) => (.ok (), s2, t2)

/-- The call `cleanup()` on a framebuffer with depth, as a statement of a handler. -/
def framebuffer.cleanup_stmt (d : Driver) (self : framebuffer) (t : Trace) :
    Except Exn Unit × Trace :=
  ((framebuffer.cleanup d true self t).1, (framebuffer.cleanup d true self t).2.2)

/-- A statement of the handler raises: the same walk as `rethrow_after`. -/
def handler_raises : List (Trace → Except Exn Unit × Trace) → Trace → Bool
  | [], _ => false
  | stmt :: rest, t =>
    match stmt t with
    | (.ok _, t1) => handler_raises rest t1
    | (.error _, _) => true

/-- The end of a constructor whose handler `catch (...) { stmts; throw; }` was entered with
`e`: the exception leaves the constructor and the members already built are destroyed. The
only statements of these handlers that can raise are the `cleanup()` of the framebuffers, and
a `cleanup()` that raises leaves its framebuffer marked initialized; the destructor
`~gl_object` of that member then calls `cleanup()`, which calls `cleanup_impl`, pure virtual in
the base class under destruction: the process is terminated, with no further driver call.
When no statement raises, both framebuffers are uninitialized, the destructors make no call
and `e` leaves the constructor. -/
def fail_after_handler (stmts : List (Trace → Except Exn Unit × Trace)) (e : Exn) (t : Trace) :
    Except Exn session_impl × Trace :=
  if handler_raises stmts t then (.error .terminated, (rethrow_after stmts e t).2)
  else (.error (rethrow_after stmts e t).1, (rethrow_after stmts e t).2)

/-- The constructor `session_impl::session_impl`: the outcome (the session built, or what
ends the constructor otherwise) and the trace. `assets` is the embedded asset store,
`stbi_load` the external image decoder. When `init()` of a framebuffer raises, the object is
not marked initialized and its destructor makes no call. -/
def session_impl.construct (d : Driver) (assets : Str → Option Str)
    (stbi_load : Str → Option image) (t : Trace) : Except Exn session_impl × Trace :=
  let self : session_impl := {}
  match framebuffer.init d true self.m_color_framebuffer t with
  | (.error e, _, t1) => (.error e, t1)
  | (.ok _, color, t1) =>
    let self1 := { self with m_color_framebuffer := color }
    match framebuffer.init d true self1.m_segmentation_framebuffer t1 with
    | (.error e, _, t2) =>
      fail_after_handler [framebuffer.cleanup_stmt d color] e t2
    | (.ok _, seg, t2) =>
      let self2 := { self1 with m_segmentation_framebuffer := seg }
      match session_impl.create_skybox_texture d assets stbi_load self2 t2 with
      | (.error e, _, t3) =>
        fail_after_handler [framebuffer.cleanup_stmt d seg, framebuffer.cleanup_stmt d color]
          e t3
      | (.ok _, self3, t3) =>
        match session_impl.create_screen_quad d self3 t3 with
        | (.error e, _, t4) =>
          fail_after_handler
            [framebuffer.cleanup_stmt d seg, framebuffer.cleanup_stmt d color,
              unchecked (.glDeleteTextures 1 [self3.m_skybox_texture])] e t4
        | (.ok _, self4, t4) =>
          match session_impl.create_shaders d assets self4 t4 with
          | (.error e, _, t5) =>
            fail_after_handler
              [unchecked (.glDeleteTextures 1 [self4.m_skybox_texture]),
                unchecked (.glDeleteBuffers 1 [self4.m_screen_quad]),
                framebuffer.cleanup_stmt d seg, framebuffer.cleanup_stmt d color] e t5
          | (.ok _, self5, t5) => (.ok self5, t5)

/-! ## `session_impl` (`mvz.cpp`): rendering -/

/-- The struct `camera` of `mvz.h`, with its default member initialisers (floats as bit
patterns). -/
structure camera where
  position : vec3 := ⟨0, 0, 0⟩
  rotation : vec3 := ⟨0, 0, 0⟩
  aspect : GLfloat := float_one
  fovy : GLfloat := 0x3F000000
  near : GLfloat := 0x3DCCCCCD
  far : GLfloat := 0x43480000
  resolution : Int × Int := (640, 480)
deriving DecidableEq, Repr

/-- The method `session_impl::render_skybox`. `glm_rotation` stands for the nine floats of
`glm::mat3(get_rotation_matrix(cam))`, which the external library glm computes. -/
def session_impl.render_skybox (d : Driver) (glm_rotation : camera → List GLfloat)
    (self : session_impl) (cam : camera) (t : Trace) : Except Exn Unit × Trace :=
  match CHECK_GL d (.glBindBuffer GL_ARRAY_BUFFER self.m_screen_quad) 612
      (lit "glBindBuffer(GL_ARRAY_BUFFER, m_screen_quad)") t with
  | (.error e, t1) => (.error e, t1)
  | (.ok _, t1) =>
    match self.m_skybox_color_program.use d t1 with
    | (.error e, t2) => (.error e, t2)
    | (.ok _, t2) =>
      let pos_loc := self.m_skybox_color_program.get_attribute_location d (lit "position") t2
      let rot_loc :=
        self.m_skybox_color_program.get_uniform_location d (lit "camera_rotation") pos_loc.2
      let sky_loc := self.m_skybox_color_program.get_uniform_location d (lit "skybox") rot_loc.2
      match run_checked d
          [(.glActiveTexture (GL_TEXTURE0 + skybox_texture_index), 620,
              lit "glActiveTexture(GL_TEXTURE0 + skybox_texture_index)"),
           (.glBindTexture GL_TEXTURE_CUBE_MAP self.m_skybox_texture, 622,
              lit "glBindTexture(GL_TEXTURE_CUBE_MAP, m_skybox_texture)"),
           (.glUniform1i sky_loc.1 skybox_texture_index, 624,
              lit "glUniform1i(sky_loc, skybox_texture_index)"),
           (.glUniformMatrix3fv rot_loc.1 1 GL_FALSE (glm_rotation cam), 628,
              lit "glUniformMatrix3fv(rot_loc, 1, GL_FALSE, glm::value_ptr(rotation))"),
           (.glEnableVertexAttribArray pos_loc.1, 630, lit "glEnableVertexAttribArray(pos_loc)"),
           (.glVertexAttribPointer pos_loc.1 2 GL_FLOAT GL_FALSE 8 0, 632,
              lit "glVertexAttribPointer(pos_loc, 2, GL_FLOAT, GL_FALSE, sizeof(float) * 2, reinterpret_cast<void*>(0))"),
           (.glDrawArrays GL_TRIANGLES 0 6, 634, lit "glDrawArrays(GL_TRIANGLES, 0, 6)")]
          sky_loc.2 with
      | (.error e, t3) => (.error e, t3)
      | (.ok _, t3) => (.ok (), t3 ++ [GLCall.glDisableVertexAttribArray pos_loc.1])

/-- The body of the loop of `render_current_fbo` for one instance. Its first statement is
`continue;`, so the statements that follow it in the source (the uniform `mvp`, the buffer
binding, the attribute pointers and `glDrawArrays` per mesh) are never reached. -/
def session_impl.render_instance (_self : session_impl) (_inst : mesh_instance) (t : Trace) :
    Trace := t

/-- The method `session_impl::render_current_fbo` (and `session::render`, which forwards to
it). -/
def session_impl.render_current_fbo (d : Driver) (glm_rotation : camera → List GLfloat)
    (self : session_impl) (cam : camera) (instances : List mesh_instance) (t : Trace) :
    Except Exn Unit × Trace :=
  match run_checked d
      [(.glEnable GL_DEPTH_TEST, 489, lit "glEnable(GL_DEPTH_TEST)"),
       (.glViewport 0 0 cam.resolution.1 cam.resolution.2, 491,
          lit "glViewport(0, 0, cam.resolution[0], cam.resolution[1])"),
       (.glClear (GL_COLOR_BUFFER_BIT ||| GL_DEPTH_BUFFER_BIT), 493,
          lit "glClear(GL_COLOR_BUFFER_BIT | GL_DEPTH_BUFFER_BIT)")] t with
  | (.error e, t1) => (.error e, t1)
  | (.ok _, t1) =>
    match session_impl.render_skybox d glm_rotation self cam t1 with
    | (.error e, t2) => (.error e, t2)
    | (.ok _, t2) =>
      match CHECK_GL d (.glClear GL_DEPTH_BUFFER_BIT) 497 (lit "glClear(GL_DEPTH_BUFFER_BIT)")
          t2 with
      | (.error e, t3) => (.error e, t3)
      | (.ok _, t3) =>
        match self.m_mesh_color_program.use d t3 with
        | (.error e, t4) => (.error e, t4)
        | (.ok _, t4) =>
          let pos_loc := self.m_mesh_color_program.get_attribute_location d (lit "position") t4
          let texcoords_loc :=
            self.m_mesh_color_program.get_attribute_location d (lit "texcoord") pos_loc.2
          let normal_loc :=
            self.m_mesh_color_program.get_attribute_location d (lit "normal") texcoords_loc.2
          match run_checked d
              [(.glEnableVertexAttribArray pos_loc.1, 505,
                  lit "glEnableVertexAttribArray(pos_loc)"),
               (.glEnableVertexAttribArray texcoords_loc.1, 506,
                  lit "glEnableVertexAttribArray(texcoords_loc)"),
               (.glEnableVertexAttribArray normal_loc.1, 507,
                  lit "glEnableVertexAttribArray(normal_loc)"),
               (.glActiveTexture (GL_TEXTURE0 + skybox_texture_index), 509,
                  lit "glActiveTexture(GL_TEXTURE0 + skybox_texture_index)"),
               (.glBindTexture GL_TEXTURE_CUBE_MAP self.m_skybox_texture, 510,
                  lit "glBindTexture(GL_TEXTURE_CUBE_MAP, m_skybox_texture)")]
              normal_loc.2 with
          | (.error e, t5) => (.error e, t5)
          | (.ok _, t5) =>
            let sky_loc := self.m_mesh_color_program.get_uniform_location d (lit "skybox") t5
            match CHECK_GL d (.glUniform1i sky_loc.1 skybox_texture_index) 511
                (lit "glUniform1i(m_mesh_color_program.get_uniform_location(" ++ [34]
                  ++ lit "skybox" ++ [34] ++ lit "), skybox_texture_index)") sky_loc.2 with
            | (.error e, t6) => (.error e, t6)
            | (.ok _, t6) =>
              let mvp_loc := self.m_mesh_color_program.get_uniform_location d (lit "mvp") t6
              let t7 := instances.foldl (fun tr inst => session_impl.render_instance self inst tr)
                mvp_loc.2
              run_checked d
                [(.glDisableVertexAttribArray pos_loc.1, 554,
                    lit "glDisableVertexAttribArray(pos_loc)"),
                 (.glDisableVertexAttribArray texcoords_loc.1, 555,
                    lit "glDisableVertexAttribArray(texcoords_loc)"),
                 (.glDisableVertexAttribArray normal_loc.1, 556,
                    lit "glDisableVertexAttribArray(normal_loc)")]
                t7

/-! ## Definitions used in the statements -/

/-- The vertices tagged `m`, in input order. -/
def tagged (m : Int) (vs : List vertex_input) : List vertex_input :=
  vs.filter (fun v => decide (v.mat = m))

/-- The concatenation, in input order, of the 8 floats of the vertices tagged `m`. -/
def floats_of (m : Int) (vs : List vertex_input) : List GLfloat :=
  ((tagged m vs).map vertex_input.floats).flatten

/-- The number of vertices tagged `m`. -/
def count_of (m : Int) (vs : List vertex_input) : Nat :=
  (tagged m vs).length

/-- The mesh that collects the vertices tagged `m`. -/
def mesh_of (vs : List vertex_input) (m : Int) : obj_mesh :=
  { material_index := m, vertices := floats_of m vs, num_vertices := (count_of m vs : Int) }

/-- Insertion of a key into an ascending list of keys, a key already there being kept once. -/
def key_insert (k : Int) : List Int → List Int
  | [] => [k]
  | k' :: rest =>
    if k < k' then k :: k' :: rest
    else if k' = k then k' :: rest
    else k' :: key_insert k rest

/-- The keys of the builder's map after the vertices `vs`. -/
def keys_of (vs : List vertex_input) : List Int :=
  vs.foldl (fun ks v => key_insert v.mat ks) []

/-- One triangle over the first three positions, the first normal and the first texture
coordinate, tagged material 0. -/
def one_triangle : mesh_t :=
  { indices := [⟨0, 0, 0⟩, ⟨1, 0, 0⟩, ⟨2, 0, 0⟩], material_ids := [0] }

/-- A parsed scene of two shapes of one triangle each, which the parser lists as `Suzanne`,
then `Ground`. -/
def scene_reader : ObjReader :=
  { attrib := { vertices := [10, 11, 12, 13, 14, 15, 16, 17, 18], normals := [20, 21, 22],
                texcoords := [30, 31] }
    shapes := [{ name := lit "Suzanne", mesh := one_triangle },
               { name := lit "Ground", mesh := one_triangle }] }

/-- A fake driver every call of which succeeds. Handles are numbered by the length of the
trace; a shader compiles. -/
def ok_driver : Driver :=
  { glGetError := fun _ => GL_NO_ERROR
    glCreateShader := fun t => t.length
    glGetShaderiv := fun _ => some GL_TRUE
    glGetShaderInfoLog := fun _ => (some 0, [])
    glGenBuffers := fun t => some t.length
    glCreateProgram := fun t => t.length
    glGetProgramiv := fun _ => some GL_TRUE
    glGetProgramInfoLog := fun _ => (some 0, [])
    glGenTextures := fun t => some t.length
    glGenRenderbuffers := fun t => some t.length
    glGenFramebuffers := fun t => some t.length
    glGetUniformLocation := fun t => t.length
    glGetAttribLocation := fun t => t.length }

/-- A fake driver every call of which succeeds, for a shader that does not compile: the
handle is 7, the compile status `GL_FALSE`, and the log has the length, the read size and the
bytes given. -/
def broken_shader_driver (log_length read_size : Int) (log : Str) : Driver :=
  { glGetError := fun _ => GL_NO_ERROR
    glCreateShader := fun _ => 7
    glGetShaderiv := fun t =>
      match t.getLast? with
      | some (.glGetShaderiv _ pname) =>
        if pname = GL_COMPILE_STATUS then some GL_FALSE else some log_length
      | _ => none
    glGetShaderInfoLog := fun _ => (some read_size, log)
    glGenBuffers := fun t => some t.length
    glCreateProgram := fun t => t.length
    glGetProgramiv := fun _ => some GL_TRUE
    glGetProgramInfoLog := fun _ => (some 0, [])
    glGenTextures := fun t => some t.length
    glGenRenderbuffers := fun t => some t.length
    glGenFramebuffers := fun t => some t.length
    glGetUniformLocation := fun t => t.length
    glGetAttribLocation := fun t => t.length }

/-- An asset store that holds the text `int x` (its `;` is missing) at every path. -/
def broken_assets : Str → Option Str := fun _ => some (lit "int x")

/-- The outcome of a `try` block of `shader::init` that starts at the trace `t`: it made the
calls `calls`, none of which deletes the handle, and then either went on, or deleted the
handle (once) and raised. -/
def block_outcome {α : Type} (h : Nat) (t : Trace) (r : Except Exn α × Trace) : Prop :=
  ∃ calls : List GLCall, calls.count (GLCall.glDeleteShader h) = 0
    ∧ ((∃ a, r = (.ok a, t ++ calls))
      ∨ (∃ msg, r = (.error (.open_gl_error msg), t ++ calls ++ [GLCall.glDeleteShader h])))

/-- A model file whose shapes are `Ground`, `Suzanne`, in that (sorted) order. -/
def ground_suzanne : obj_file :=
  { shapes := [{ name := lit "Ground" }, { name := lit "Suzanne" }] }

/-- The kinds of GPU handle. -/
inductive handle_kind where
  | texture
  | renderbuffer
  | framebuffer
  | buffer
  | shader
  | program
deriving DecidableEq, Repr

/-- The account of live handles that a counting fake driver keeps, at one call: `before` are
the earlier calls and `live` the handles alive before the call. A creating call adds the
handle the driver answers with, a deleting call removes the handles it names. -/
def live_step (d : Driver) (before : Trace) (live : List (handle_kind × Nat)) (c : GLCall) :
    List (handle_kind × Nat) :=
  let drop (k : handle_kind) (names : List Nat) : List (handle_kind × Nat) :=
    live.filter (fun x => !(decide (x.1 = k) && names.contains x.2))
  let add (k : handle_kind) (name : Option Nat) : List (handle_kind × Nat) :=
    match name with
    | some n => live ++ [(k, n)]
    | none => live
  match c with
  | .glGenTextures _ => add .texture (d.glGenTextures (before ++ [c]))
  | .glGenRenderbuffers _ => add .renderbuffer (d.glGenRenderbuffers (before ++ [c]))
  | .glGenFramebuffers _ => add .framebuffer (d.glGenFramebuffers (before ++ [c]))
  | .glGenBuffers _ => add .buffer (d.glGenBuffers (before ++ [c]))
  | .glCreateShader _ => add .shader (some (d.glCreateShader (before ++ [c])))
  | .glCreateProgram => add .program (some (d.glCreateProgram (before ++ [c])))
  | .glDeleteTextures n names => drop .texture (names.take n.toNat)
  | .glDeleteRenderbuffers n names => drop .renderbuffer (names.take n.toNat)
  | .glDeleteFramebuffers n names => drop .framebuffer (names.take n.toNat)
  | .glDeleteBuffers n names => drop .buffer (names.take n.toNat)
  | .glDeleteShader name => drop .shader [name]
  | .glDeleteProgram name => drop .program [name]
  | _ => live

/-- The account of live handles over the calls `rest` that follow the calls `before`. -/
def live_from (d : Driver) : Trace → List (handle_kind × Nat) → Trace → List (handle_kind × Nat)
  | _, live, [] => live
  | before, live, c :: rest => live_from d (before ++ [c]) (live_step d before live c) rest

/-- The handles that are alive after the calls of a trace that starts with no handle. -/
def live_handles (d : Driver) (t : Trace) : List (handle_kind × Nat) := live_from d [] [] t

/-- The vertex attribute arrays that are enabled after some calls, from those enabled before. -/
def enabled_arrays : List Int → List GLCall → List Int
  | enabled, [] => enabled
  | enabled, .glEnableVertexAttribArray i :: rest => enabled_arrays (i :: enabled) rest
  | enabled, .glDisableVertexAttribArray i :: rest =>
    enabled_arrays (enabled.filter (fun j => decide (j ≠ i))) rest
  | enabled, _ :: rest => enabled_arrays enabled rest

/-- The calls of `glClear` among some calls. -/
def clear_calls (calls : List GLCall) : List GLCall :=
  calls.filter (fun c => match c with | .glClear _ => true | _ => false)

/-- The calls of `glDrawArrays` among some calls. -/
def draw_calls (calls : List GLCall) : List GLCall :=
  calls.filter (fun c => match c with | .glDrawArrays _ _ _ => true | _ => false)

/-- An asset store that holds the same text at every path. -/
def plain_assets : Str → Option Str := fun _ => some (lit "void main()")

/-- An image decoder that gives a white pixel for every file. -/
def white_pixel : Str → Option image := fun _ => some ⟨1, 1, [255, 255, 255, 255]⟩

/-- A fake driver every call of which succeeds and no program of which links: the link status
is `GL_FALSE`, the log has 12 bytes, of which 11 are read: `link failed`. -/
def link_failure_driver : Driver :=
  { ok_driver with
    glGetProgramiv := fun t =>
      match t.getLast? with
      | some (.glGetProgramiv _ pname) => if pname = GL_LINK_STATUS then some GL_FALSE else some 12
      | _ => none
    glGetProgramInfoLog := fun _ => (some 11, lit "link failed" ++ [0]) }

/-- A fake driver whose first `glGenRenderbuffers` fails with `GL_INVALID_OPERATION` and
stores no name; every other call succeeds. -/
def renderbuffer_failure_driver : Driver :=
  { ok_driver with
    glGetError := fun t =>
      match t.dropLast.getLast? with
      | some (.glGenRenderbuffers _) => GL_INVALID_OPERATION
      | _ => GL_NO_ERROR
    glGenRenderbuffers := fun _ => none }

/-- A fake driver whose second `glGenBuffers` fails with `GL_INVALID_OPERATION` and stores no
name; every other call succeeds. -/
def second_buffer_failure_driver : Driver :=
  { ok_driver with
    glGetError := fun t =>
      match t.dropLast.getLast? with
      | some (.glGenBuffers _) =>
        if (t.filter (fun c => match c with | .glGenBuffers _ => true | _ => false)).length = 2
        then GL_INVALID_OPERATION else GL_NO_ERROR
      | _ => GL_NO_ERROR
    glGenBuffers := fun t =>
      if (t.filter (fun c => match c with | .glGenBuffers _ => true | _ => false)).length = 2
      then none else some t.length }

/-- Two triangles over the same three positions, the first of material 0, the second of
material 1. -/
def two_materials : mesh_t :=
  { indices := [⟨0, 0, 0⟩, ⟨1, 0, 0⟩, ⟨2, 0, 0⟩, ⟨0, 0, 0⟩, ⟨1, 0, 0⟩, ⟨2, 0, 0⟩]
    material_ids := [0, 1] }

/-- A parsed scene of one shape `Ground` of two meshes (materials 0 and 1). -/
def two_mesh_reader : ObjReader :=
  { attrib := { vertices := [10, 11, 12, 13, 14, 15, 16, 17, 18], normals := [20, 21, 22],
                texcoords := [30, 31] }
    shapes := [{ name := lit "Ground", mesh := two_materials }] }

/-- A parsed scene of two shapes of one triangle each, which the parser lists in the order
of their names: `Ground`, then `Suzanne`. -/
def sorted_scene_reader : ObjReader :=
  { scene_reader with
    shapes := [{ name := lit "Ground", mesh := one_triangle },
               { name := lit "Suzanne", mesh := one_triangle }] }

/-- The outcome of a `try` block of `program::init` that starts at the trace `t`: it made the
calls `calls`, none of which deletes the handle, and then either went on, or deleted the
handle (once) and raised. -/
def program_block_outcome {α : Type} (h : Nat) (t : Trace) (r : Except Exn α × Trace) : Prop :=
  ∃ calls : List GLCall, calls.count (GLCall.glDeleteProgram h) = 0
    ∧ ((∃ a, r = (.ok a, t ++ calls))
      ∨ (∃ msg, r = (.error (.open_gl_error msg), t ++ calls ++ [GLCall.glDeleteProgram h])))

/-- The identity as the nine floats of a rotation matrix, for every camera. -/
def identity_rotation : camera → List GLfloat :=
  fun _ => [float_one, 0, 0, 0, float_one, 0, 0, 0, float_one]

/-- Equality of outcomes is decidable. -/
instance {α : Type} [DecidableEq α] : DecidableEq (Except Exn α) := fun a b =>
  match a, b with
  | .ok x, .ok y =>
    if h : x = y then isTrue (by rw [h]) else isFalse (fun e => h (by cases e; rfl))
  | .error x, .error y =>
    if h : x = y then isTrue (by rw [h]) else isFalse (fun e => h (by cases e; rfl))
  | .ok _, .error _ => isFalse (fun e => by cases e)
  | .error _, .ok _ => isFalse (fun e => by cases e)

/-- An outcome is a normal return. -/
def returns_normally {α : Type} : Except Exn α → Bool
  | .ok _ => true
  | .error _ => false

/-- The session of the worked example of rendering, with the trace that leads to it: built
on the driver whose calls all succeed, then the scene `Ground`, `Suzanne` loaded. -/
def demo_session : session_impl × Trace :=
  match session_impl.construct ok_driver plain_assets white_pixel [] with
  | (.ok s, t) =>
    ((session_impl.load_obj ok_driver s (lit "scene.obj") (some sorted_scene_reader) t).2.1,
      (session_impl.load_obj ok_driver s (lit "scene.obj") (some sorted_scene_reader) t).2.2)
  | (.error _, t) => ({}, t)

/-- The instance of the worked example of rendering: the shape `Ground` of file 0. -/
def demo_instance : mesh_instance := { obj_id := 0, shape_index := 0 }

/-- The calls of a run of checked statements in which no check raises: each statement and
the `glGetError` after it. -/
def checked_calls : List (GLCall × Nat × Str) → List GLCall
  | [] => []
  | (stmt, _, _) :: rest => stmt :: GLCall.glGetError :: checked_calls rest

/-- The calls that follow the first `glClear` among some calls. -/
def after_first_clear : List GLCall → List GLCall
  | [] => []
  | .glClear _ :: rest => rest
  | _ :: rest => after_first_clear rest

/-- The calls that come before the first `glClear` among some calls. -/
def before_first_clear : List GLCall → List GLCall
  | [] => []
  | .glClear _ :: _ => []
  | c :: rest => c :: before_first_clear rest

/-- A fake driver on which `glDeleteFramebuffers` fails: the `glGetError` that follows it
reports `GL_INVALID_OPERATION`; every other call succeeds. -/
def delete_failure_driver : Driver :=
  { ok_driver with
    glGetError := fun t =>
      match t.dropLast.getLast? with
      | some (.glDeleteFramebuffers _ _) => GL_INVALID_OPERATION
      | _ => GL_NO_ERROR }

/-- The calls of `glEnableVertexAttribArray` and of `glDisableVertexAttribArray` among some
calls. -/
def attrib_array_calls (calls : List GLCall) : List GLCall :=
  calls.filter (fun c =>
    match c with
    | .glEnableVertexAttribArray _ => true
    | .glDisableVertexAttribArray _ => true
    | _ => false)

/-! ## Theorems -/

theorem mem_key_insert (k x : Int) (ks : List Int) :
    x ∈ key_insert k ks ↔ x = k ∨ x ∈ ks := by
  induction ks with
  | nil => simp [key_insert]
  | cons k' rest ih =>
    unfold key_insert
    split
    · simp
    · split
      · rename_i h1 h2
        subst h2
        simp
      · simp [ih]
        tauto

theorem key_insert_sorted (k : Int) (ks : List Int) (h : ks.Pairwise (· < ·)) :
    (key_insert k ks).Pairwise (· < ·) := by
  induction ks with
  | nil => simp [key_insert]
  | cons k' rest ih =>
    rw [List.pairwise_cons] at h
    unfold key_insert
    split
    · rename_i hlt
      rw [List.pairwise_cons]
      refine ⟨?_, List.pairwise_cons.mpr h⟩
      intro x hx
      rcases List.mem_cons.mp hx with rfl | hx
      · exact hlt
      · exact lt_trans hlt (h.1 x hx)
    · split
      · exact List.pairwise_cons.mpr h
      · rename_i h1 h2
        rw [List.pairwise_cons]
        refine ⟨?_, ih h.2⟩
        intro x hx
        rcases (mem_key_insert k x rest).mp hx with rfl | hx
        · omega
        · exact h.1 x hx

theorem key_insert_of_mem (k : Int) (ks : List Int) (h : ks.Pairwise (· < ·)) (hk : k ∈ ks) :
    key_insert k ks = ks := by
  induction ks with
  | nil => simp at hk
  | cons k' rest ih =>
    rw [List.pairwise_cons] at h
    unfold key_insert
    rcases List.mem_cons.mp hk with rfl | hk
    · simp
    · have := h.1 k hk
      have h1 : ¬ k < k' := by omega
      have h2 : ¬ k' = k := by omega
      simp [h1, h2, ih h.2 hk]

theorem find_map_keys (g : Int → obj_mesh) (ks : List Int) (m : Int) :
    IntMap.find (ks.map (fun k => (k, g k))) m = if m ∈ ks then some (g m) else none := by
  induction ks with
  | nil => simp [IntMap.find]
  | cons k' rest ih =>
    simp only [List.map_cons, IntMap.find, ih, List.mem_cons]
    by_cases h : k' = m
    · subst h; simp
    · have h' : ¬ m = k' := fun e => h e.symm
      simp [h, h']

theorem emplace_map_keys (g : Int → obj_mesh) (ks : List Int) (m : Int) (v : obj_mesh)
    (hm : m ∉ ks) :
    IntMap.emplace (ks.map (fun k => (k, g k))) m v
      = (key_insert m ks).map (fun k => (k, if k = m then v else g k)) := by
  induction ks with
  | nil => simp [IntMap.emplace, key_insert]
  | cons k' rest ih =>
    have hk' : ¬ k' = m := fun e => hm (by simp [e])
    have hrest : m ∉ rest := fun e => hm (by simp [e])
    have hcongr : rest.map (fun k => (k, g k))
        = rest.map (fun k => (k, if k = m then v else g k)) := by
      apply List.map_congr_left
      intro a ha
      have : ¬ a = m := fun e => hrest (e ▸ ha)
      simp [this]
    simp only [List.map_cons, IntMap.emplace, key_insert]
    by_cases h : m < k'
    · simp [h, hk', hcongr]
    · simp [h, hk', ih hrest]

theorem modify_map_keys (g : Int → obj_mesh) (f : obj_mesh → obj_mesh) (ks : List Int) (m : Int)
    (h : ks.Pairwise (· < ·)) :
    IntMap.modify (ks.map (fun k => (k, g k))) m f
      = ks.map (fun k => (k, if k = m then f (g k) else g k)) := by
  induction ks with
  | nil => simp [IntMap.modify]
  | cons k' rest ih =>
    rw [List.pairwise_cons] at h
    simp only [List.map_cons, IntMap.modify]
    by_cases hk : k' = m
    · subst hk
      have hcongr : rest.map (fun k => (k, g k))
          = rest.map (fun k => (k, if k = k' then f (g k) else g k)) := by
        apply List.map_congr_left
        intro a ha
        have := h.1 a ha
        have : ¬ a = k' := by omega
        simp [this]
      simp [hcongr]
    · simp [hk, ih h.2]

theorem tagged_append (m : Int) (vs : List vertex_input) (v : vertex_input) :
    tagged m (vs ++ [v]) = tagged m vs ++ (if v.mat = m then [v] else []) := by
  unfold tagged
  rw [List.filter_append]
  by_cases h : v.mat = m <;> simp [h]

theorem floats_of_append (m : Int) (vs : List vertex_input) (v : vertex_input) :
    floats_of m (vs ++ [v]) = floats_of m vs ++ (if v.mat = m then v.floats else []) := by
  unfold floats_of
  rw [tagged_append]
  by_cases h : v.mat = m <;> simp [h]

theorem count_of_append (m : Int) (vs : List vertex_input) (v : vertex_input) :
    count_of m (vs ++ [v]) = count_of m vs + (if v.mat = m then 1 else 0) := by
  unfold count_of
  rw [tagged_append]
  by_cases h : v.mat = m <;> simp [h]

theorem mesh_of_append (vs : List vertex_input) (v : vertex_input) (k : Int) :
    mesh_of (vs ++ [v]) k
      = if k = v.mat then mesh_builder.add_to (mesh_of vs k) v.pos v.uv v.norm
        else mesh_of vs k := by
  by_cases h : k = v.mat
  · subst h
    simp [mesh_of, mesh_builder.add_to, floats_of_append, count_of_append, vertex_input.floats]
  · have h' : ¬ v.mat = k := fun e => h e.symm
    simp [mesh_of, floats_of_append, count_of_append, h, h']

theorem keys_of_append (vs : List vertex_input) (v : vertex_input) :
    keys_of (vs ++ [v]) = key_insert v.mat (keys_of vs) := by
  simp [keys_of, List.foldl_append]

theorem keys_of_sorted (vs : List vertex_input) : (keys_of vs).Pairwise (· < ·) := by
  induction vs using List.reverseRecOn with
  | nil => simp [keys_of]
  | append_singleton vs v ih =>
    rw [keys_of_append]
    exact key_insert_sorted _ _ ih

theorem mem_keys_of (vs : List vertex_input) (m : Int) :
    m ∈ keys_of vs ↔ ∃ v ∈ vs, v.mat = m := by
  induction vs using List.reverseRecOn with
  | nil => simp [keys_of]
  | append_singleton vs v ih =>
    rw [keys_of_append, mem_key_insert, ih]
    constructor
    · rintro (rfl | ⟨w, hw, rfl⟩)
      · exact ⟨v, by simp, rfl⟩
      · exact ⟨w, by simp [hw], rfl⟩
    · rintro ⟨w, hw, rfl⟩
      rcases List.mem_append.mp hw with hw | hw
      · exact Or.inr ⟨w, hw, rfl⟩
      · simp at hw
        subst hw
        exact Or.inl rfl

theorem mesh_of_absent (vs : List vertex_input) (m : Int) (h : m ∉ keys_of vs) :
    mesh_of vs m = { material_index := m, vertices := [] } := by
  have h' : ∀ v ∈ vs, ¬ v.mat = m := fun v hv e => h ((mem_keys_of vs m).mpr ⟨v, hv, e⟩)
  have ht : tagged m vs = [] := by
    unfold tagged
    rw [List.filter_eq_nil_iff]
    intro v hv
    simpa using h' v hv
  simp [mesh_of, floats_of, count_of, ht]

theorem feed_append (vs : List vertex_input) (v : vertex_input) :
    mesh_builder.feed (vs ++ [v])
      = mesh_builder.add (mesh_builder.feed vs) v.mat v.pos v.uv v.norm := by
  simp [mesh_builder.feed, List.foldl_append]

/-- The map of the builder after the vertices `vs`: one entry per material id, in ascending
order of id, holding the mesh collected for that id. -/
theorem feed_m_meshes (vs : List vertex_input) :
    (mesh_builder.feed vs).m_meshes = (keys_of vs).map (fun k => (k, mesh_of vs k)) := by
  induction vs using List.reverseRecOn with
  | nil => simp [mesh_builder.feed, keys_of]
  | append_singleton vs v ih =>
    rw [feed_append, keys_of_append]
    have hs := keys_of_sorted vs
    unfold mesh_builder.add mesh_builder.get_or_create
    rw [ih, find_map_keys]
    by_cases hmem : v.mat ∈ keys_of vs
    · simp only [hmem, if_true]
      rw [ih, modify_map_keys _ _ _ _ hs, key_insert_of_mem _ _ hs hmem]
      apply List.map_congr_left
      intro a _
      rw [mesh_of_append]
    · simp only [hmem, if_false]
      rw [emplace_map_keys _ _ _ _ hmem, modify_map_keys _ _ _ _ (key_insert_sorted _ _ hs)]
      apply List.map_congr_left
      intro a _
      rw [mesh_of_append]
      by_cases ha : a = v.mat
      · subst ha
        simp [mesh_of_absent vs _ hmem]
      · simp [ha]

theorem build_eq (vs : List vertex_input) :
    mesh_builder.build vs = (keys_of vs).map (mesh_of vs) := by
  simp [mesh_builder.build, mesh_builder.take_meshes, feed_m_meshes, List.map_map, Function.comp_def]

theorem floats_of_length (m : Int) (vs : List vertex_input) :
    (floats_of m vs).length = 8 * count_of m vs := by
  induction vs using List.reverseRecOn with
  | nil => simp [floats_of, count_of, tagged]
  | append_singleton vs v ih =>
    rw [floats_of_append, count_of_append, List.length_append, ih]
    by_cases h : v.mat = m <;> simp [h, vertex_input.floats]
    omega

theorem build_material_indices (vs : List vertex_input) :
    (mesh_builder.build vs).map (fun x => x.material_index) = keys_of vs := by
  rw [build_eq, List.map_map]
  simp [Function.comp_def, mesh_of]

theorem build_filter (vs : List vertex_input) (m : Int) (hm : m ∈ keys_of vs) :
    (mesh_builder.build vs).filter (fun x => decide (x.material_index = m)) = [mesh_of vs m] := by
  rw [build_eq, List.filter_map]
  have h1 : ((fun x : obj_mesh => decide (x.material_index = m)) ∘ mesh_of vs)
      = fun k => decide (k = m) := by
    funext k
    simp [mesh_of]
  rw [h1, List.filter_eq, List.count_eq_one_of_mem ((keys_of_sorted vs).imp (fun h => ne_of_lt h)) hm]
  simp

/-- C1, as the code has it: the meshes of `take_meshes` come in strictly ascending order of
material id (so no id comes twice), the ids are exactly the material ids of the input, and
triangles tagged 0, 1, 0 give two meshes of 6 and 3 vertices. -/
theorem take_meshes_ascending_by_material (vs : List vertex_input) :
    ((mesh_builder.build vs).map (fun x => x.material_index)).Pairwise (· < ·)
    ∧ (∀ m : Int, m ∈ (mesh_builder.build vs).map (fun x => x.material_index)
        ↔ ∃ v ∈ vs, v.mat = m)
    ∧ (mesh_builder.build (flat_triangle 0 7 ++ flat_triangle 1 8 ++ flat_triangle 0 9)).map
        (fun x => (x.material_index, x.num_vertices)) = [(0, 6), (1, 3)] := by
  refine ⟨?_, ?_, by decide⟩
  · rw [build_material_indices]
    exact keys_of_sorted vs
  · intro m
    rw [build_material_indices]
    exact mem_keys_of vs m

/-- C1 fails as stated: for a triangle tagged 1 followed by a triangle tagged 0 the material
ids are first seen in the order 1, 0, and the meshes come out in the order 0, 1. -/
theorem take_meshes_not_first_seen_order :
    (mesh_builder.build (flat_triangle 1 7 ++ flat_triangle 0 8)).map (fun x => x.material_index)
      = [0, 1]
    ∧ first_seen ((flat_triangle 1 7 ++ flat_triangle 0 8).map (fun v => v.mat)) = [1, 0]
    ∧ (mesh_builder.build (flat_triangle 1 7 ++ flat_triangle 0 8)).map
        (fun x => x.material_index)
      ≠ first_seen ((flat_triangle 1 7 ++ flat_triangle 0 8).map (fun v => v.mat)) := by
  decide

/-- C2: for a material id `m` that occurs in the input, exactly one emitted mesh has
`material_index = m`; its `num_vertices` is the number of input vertices tagged `m`, its
`vertices` are the 8 floats of those vertices, concatenated in input order, and so hold
`8 * num_vertices` floats. And `N ≥ 1` triangles all tagged 0 give one mesh, of `3 N` vertices. -/
theorem mesh_of_material_collects_its_vertices (vs : List vertex_input) (m : Int)
    (hm : ∃ v ∈ vs, v.mat = m) :
    (mesh_builder.build vs).filter (fun x => decide (x.material_index = m))
      = [{ material_index := m
           vertices := ((vs.filter (fun v => decide (v.mat = m))).map vertex_input.floats).flatten
           num_vertices := ((vs.filter (fun v => decide (v.mat = m))).length : Int) }]
    ∧ ((vs.filter (fun v => decide (v.mat = m))).map vertex_input.floats).flatten.length
      = 8 * (vs.filter (fun v => decide (v.mat = m))).length
    ∧ (∀ N : Nat, 0 < N → vs.length = 3 * N → (∀ v ∈ vs, v.mat = 0) →
        ∃ mesh : obj_mesh, mesh_builder.build vs = [mesh] ∧ mesh.material_index = 0
          ∧ mesh.num_vertices = 3 * (N : Int) ∧ mesh.vertices.length = 8 * (3 * N)) := by
  refine ⟨?_, ?_, ?_⟩
  · exact build_filter vs m ((mem_keys_of vs m).mpr hm)
  · exact floats_of_length m vs
  · intro N hN hlen hall
    have hne : vs ≠ [] := by
      intro e
      rw [e] at hlen
      simp at hlen
      omega
    obtain ⟨v0, hv0⟩ := List.exists_mem_of_ne_nil vs hne
    have hkeys : keys_of vs = [0] := by
      have hs := keys_of_sorted vs
      have hmem : ∀ k, k ∈ keys_of vs ↔ k = 0 := by
        intro k
        rw [mem_keys_of]
        constructor
        · rintro ⟨v, hv, rfl⟩
          exact hall v hv
        · rintro rfl
          exact ⟨v0, hv0, hall v0 hv0⟩
      cases hk : keys_of vs with
      | nil =>
        have := (hmem 0).mpr rfl
        rw [hk] at this
        simp at this
      | cons a rest =>
        rw [hk] at hs hmem
        have ha : a = 0 := (hmem a).mp (by simp)
        subst ha
        cases rest with
        | nil => rfl
        | cons b rest2 =>
          have hb : b = 0 := (hmem b).mp (by simp)
          rw [List.pairwise_cons] at hs
          have := hs.1 b (by simp)
          omega
    have htag : tagged 0 vs = vs := by
      unfold tagged
      rw [List.filter_eq_self]
      intro v hv
      simpa using hall v hv
    refine ⟨mesh_of vs 0, ?_, rfl, ?_, ?_⟩
    · rw [build_eq, hkeys]
      rfl
    · show ((count_of 0 vs : Nat) : Int) = _
      unfold count_of
      rw [htag, hlen]
      push_cast
      ring
    · show (floats_of 0 vs).length = _
      rw [floats_of_length]
      unfold count_of
      rw [htag, hlen]

/-- A run of C2: two triangles tagged 0 around one triangle tagged 1; the mesh of material 0. -/
theorem mesh_of_material_collects_its_vertices_witness :
    (∃ v ∈ flat_triangle 0 7 ++ flat_triangle 1 8, v.mat = (0 : Int))
    ∧ (mesh_builder.build (flat_triangle 0 7 ++ flat_triangle 1 8)).filter
        (fun x => decide (x.material_index = 0))
      = [{ material_index := 0
           vertices := (List.replicate 24 7)
           num_vertices := 3 }] :=
  ⟨⟨flat_vertex 0 7, by simp [flat_triangle], rfl⟩,
   (mesh_of_material_collects_its_vertices (flat_triangle 0 7 ++ flat_triangle 1 8) 0
      ⟨flat_vertex 0 7, by simp [flat_triangle], rfl⟩).1.trans (by decide)⟩

theorem strLt_irrefl (a : Str) : strLt a a = false := by
  induction a with
  | nil => rfl
  | cons x xs ih => simp [strLt, ih]

theorem strLt_trans : ∀ (a b c : Str), strLt a b = true → strLt b c = true → strLt a c = true
  | [], [], _, h, _ => by simp [strLt] at h
  | [], _ :: _, [], _, h => by simp [strLt] at h
  | [], _ :: _, _ :: _, _, _ => by simp [strLt]
  | _ :: _, [], _, h, _ => by simp [strLt] at h
  | _ :: _, _ :: _, [], _, h => by simp [strLt] at h
  | x :: xs, y :: ys, z :: zs, h1, h2 => by
    simp only [strLt] at h1 h2 ⊢
    split_ifs at h1 h2 ⊢ <;>
      first
        | rfl
        | omega
        | exact strLt_trans xs ys zs h1 h2

theorem strLt_total : ∀ (a b : Str), strLt a b = false → strLt b a = false → a = b
  | [], [], _, _ => rfl
  | [], _ :: _, h, _ => by simp [strLt] at h
  | _ :: _, [], _, h => by simp [strLt] at h
  | x :: xs, y :: ys, h1, h2 => by
    simp only [strLt] at h1 h2
    split_ifs at h1 h2
    have hxy : x = y := by omega
    subst hxy
    rw [strLt_total xs ys h1 h2]

/-- A name not below `val` stays not below it after any name that is not smaller. -/
theorem strLt_false_of_le (a b val : Str) (hab : strLt b a = false) (ha : strLt a val = false) :
    strLt b val = false := by
  cases hb : strLt b val with
  | false => rfl
  | true =>
    cases hba : strLt a b with
    | true => rw [strLt_trans a b val hba hb] at ha; exact absurd ha (by simp)
    | false =>
      have := strLt_total a b hba hab
      subst this
      rw [hb] at ha
      exact absurd ha (by simp)

/-- The loop of `lower_bound` finds the partition point `p` of a partitioned range: with
enough fuel (`len` rounds), it returns `p`. -/
theorem lower_bound_loop_eq {α β : Type} (comp : α → β → Bool) (xs : List α) (val : β) (p : Nat)
    (hlt : ∀ i (h : i < xs.length), i < p → comp xs[i] val = true)
    (hge : ∀ i (h : i < xs.length), p ≤ i → comp xs[i] val = false) :
    ∀ fuel first len, len ≤ fuel → first ≤ p → p ≤ first + len → first + len ≤ xs.length →
      lower_bound_loop comp xs val fuel first len = p := by
  intro fuel
  induction fuel with
  | zero =>
    intro first len h1 h2 h3 _
    simp only [lower_bound_loop]
    omega
  | succ fuel ih =>
    intro first len h1 h2 h3 h4
    unfold lower_bound_loop
    by_cases hlen : len = 0
    · simp only [hlen, if_true]
      omega
    · simp only [hlen, if_false]
      have hmid : first + len / 2 < xs.length := by omega
      rw [List.getElem?_eq_getElem hmid]
      simp only
      cases hc : comp xs[first + len / 2] val with
      | true =>
        simp only [if_true]
        have hp : first + len / 2 < p := by
          by_contra hcon
          have := hge (first + len / 2) hmid (by omega)
          rw [hc] at this
          exact absurd this (by simp)
        apply ih <;> omega
      | false =>
        simp only [Bool.false_eq_true, if_false]
        have hp : p ≤ first + len / 2 := by
          by_contra hcon
          have := hlt (first + len / 2) hmid (by omega)
          rw [hc] at this
          exact absurd this (by simp)
        apply ih <;> omega

/-- On shapes sorted by name, `lower_bound` returns the index of the first shape whose name is
not below `name`. -/
theorem lower_bound_sorted (shapes : List obj_shape) (name : Str) (hs : shapes_sorted shapes) :
    lower_bound (fun (shp : obj_shape) (n : Str) => strLt shp.name n) shapes name
      = shapes.findIdx (fun shp => !strLt shp.name name) := by
  unfold lower_bound
  apply lower_bound_loop_eq
  · intro i h hi
    have := List.not_of_lt_findIdx hi
    simpa using this
  · intro i h hi
    have hp : shapes.findIdx (fun shp => !strLt shp.name name) < shapes.length := by omega
    have h0 := List.findIdx_getElem (w := hp)
    simp only [Bool.not_eq_true'] at h0
    rcases Nat.eq_or_lt_of_le hi with heq | hlt
    · simp only [← heq]
      exact h0
    · have hpair := (List.pairwise_iff_getElem.mp hs) _ i hp h hlt
      exact strLt_false_of_le _ _ _ hpair h0
  · exact le_refl _
  · omega
  · have := @List.findIdx_le_length _ (fun shp : obj_shape => !strLt shp.name name) shapes
    omega
  · omega

/-- What `find_shape` returns is `-1` or the index of a shape of that very name. -/
theorem find_shape_cases (f : obj_file) (name : Str) :
    f.find_shape name = -1
    ∨ ∃ (i : Nat) (h : i < f.shapes.length), f.find_shape name = (i : Int) ∧ f.shapes[i].name = name
        ∧ i = lower_bound (fun (shp : obj_shape) (n : Str) => strLt shp.name n) f.shapes name := by
  unfold obj_file.find_shape
  simp only
  split
  · exact Or.inl rfl
  · split
    · exact Or.inl rfl
    · rename_i hne shp hshp
      by_cases hn : shp.name = name
      · right
        rw [List.getElem?_eq_some] at hshp
        obtain ⟨hlt, hget⟩ := hshp
        refine ⟨_, hlt, ?_, ?_, rfl⟩
        · simp [hn]
        · rw [hget]; exact hn
      · left
        simp [hn]

/-- C5: `find_shape` is an exact-match lookup on the bytes of the name. On any list of
shapes (sorted or not) a name that no shape carries gives `-1`, and `instance` on a registered
file then raises `mvz::runtime_error`; on shapes sorted by name, a name that some shape
carries gives the smallest index of a shape of that name. -/
theorem find_shape_exact_match (f : obj_file) (name : Str) :
    ((∀ shp ∈ f.shapes, shp.name ≠ name) → f.find_shape name = -1)
    ∧ (shapes_sorted f.shapes → (∃ shp ∈ f.shapes, shp.name = name) →
        ∃ (i : Nat) (h : i < f.shapes.length), f.find_shape name = (i : Int)
          ∧ f.shapes[i].name = name
          ∧ ∀ (j : Nat) (hj : j < f.shapes.length), j < i → f.shapes[j].name ≠ name)
    ∧ (∀ (s : session_impl) (obj_id : Int) (path : Str),
        IntMap.at s.m_obj_files obj_id = some f → IntMap.at s.m_obj_paths obj_id = some path →
        (∀ shp ∈ f.shapes, shp.name ≠ name) →
        ∃ msg, session_impl.instance_of s obj_id name = .error (.runtime_error msg)) := by
  have hfirst : (∀ shp ∈ f.shapes, shp.name ≠ name) → f.find_shape name = -1 := by
    intro habs
    rcases find_shape_cases f name with h | ⟨i, hi, _, hname, _⟩
    · exact h
    · exact absurd hname (habs _ (List.getElem_mem _))
  refine ⟨hfirst, ?_, ?_⟩
  · intro hs ⟨shp, hmem, hname⟩
    have hlb := lower_bound_sorted f.shapes name hs
    have hp : f.shapes.findIdx (fun shp => !strLt shp.name name) < f.shapes.length := by
      apply List.findIdx_lt_length_of_exists
      exact ⟨shp, hmem, by simp [hname, strLt_irrefl]⟩
    have h0 := List.findIdx_getElem (w := hp)
    simp only [Bool.not_eq_true'] at h0
    obtain ⟨k, hk, hkget⟩ := List.mem_iff_getElem.mp hmem
    have hpk : f.shapes.findIdx (fun shp => !strLt shp.name name) ≤ k := by
      by_contra hcon
      have := @List.not_of_lt_findIdx _ (fun shp : obj_shape => !strLt shp.name name)
        f.shapes k (by omega)
      simp [hkget, hname, strLt_irrefl] at this
    have hname_p : (f.shapes[f.shapes.findIdx (fun shp => !strLt shp.name name)]).name = name := by
      apply strLt_total _ _ h0
      rcases Nat.eq_or_lt_of_le hpk with heq | hlt
      · have : f.shapes[f.shapes.findIdx (fun shp => !strLt shp.name name)] = shp := by
          simp only [heq]; exact hkget
        rw [this, hname]
        exact strLt_irrefl _
      · have hpair := (List.pairwise_iff_getElem.mp hs) _ k hp hk hlt
        rw [hkget, hname] at hpair
        exact hpair
    refine ⟨_, hp, ?_, hname_p, ?_⟩
    · unfold obj_file.find_shape
      simp only [hlb]
      rw [if_neg (by omega), List.getElem?_eq_getElem hp]
      simp [hname_p]
    · intro j hj hji heq
      have := List.not_of_lt_findIdx hji
      simp [heq, strLt_irrefl] at this
  · intro s obj_id path hf hpath habs
    unfold session_impl.instance_of
    simp only [hf, hpath, hfirst habs]
    exact ⟨_, rfl⟩

/-- A run of C5 on the sorted shapes `Ground`, `Suzanne`: `ground` is not found, `Suzanne`
is found at its index. -/
theorem find_shape_exact_match_witness :
    (∀ shp ∈ ground_suzanne.shapes, shp.name ≠ lit "ground")
    ∧ shapes_sorted ground_suzanne.shapes
    ∧ ground_suzanne.find_shape (lit "ground") = -1
    ∧ ∃ (i : Nat) (h : i < ground_suzanne.shapes.length),
        ground_suzanne.find_shape (lit "Suzanne") = (i : Int)
        ∧ ground_suzanne.shapes[i].name = lit "Suzanne"
        ∧ ∀ (j : Nat) (hj : j < ground_suzanne.shapes.length), j < i →
            ground_suzanne.shapes[j].name ≠ lit "Suzanne" :=
  ⟨by decide, by decide,
    (find_shape_exact_match ground_suzanne (lit "ground")).1 (by decide),
    (find_shape_exact_match ground_suzanne (lit "Suzanne")).2.1 (by decide)
      ⟨{ name := lit "Suzanne" }, by decide, rfl⟩⟩

theorem std_sort_foldl_cmp_shape_name (xs acc : List obj_shape) :
    xs.foldl (insertion_step cmp_shape_name) acc = xs.reverse ++ acc := by
  induction xs generalizing acc with
  | nil => rfl
  | cons x rest ih =>
    rw [List.foldl_cons, ih]
    have hstep : insertion_step cmp_shape_name acc x = x :: acc := by
      unfold insertion_step
      cases acc with
      | nil => rfl
      | cons a as =>
        cases h : (a :: as).getLast? with
        | none => simp at h
        | some first => simp [cmp_shape_name, strLt_irrefl, linear_insert]
    rw [hstep]
    simp

/-- The sort of `obj_file::load` moves nothing in a range of at most 16 shapes (the range on
which `std_sort` stands for `std::sort`): its comparison `a.name < a.name` is never true. -/
theorem std_sort_cmp_shape_name (xs : List obj_shape) (_hlen : xs.length ≤ 16) :
    std_sort cmp_shape_name xs = xs := by
  unfold std_sort
  rw [std_sort_foldl_cmp_shape_name]
  simp

/-- C3 at a failing input: the parser lists the shapes `Suzanne`, `Ground`; `load` succeeds
and stores them in that order, which is not sorted by name. -/
theorem load_keeps_parser_order :
    ∃ file : obj_file, obj_file.load {} (some scene_reader) = .ok (true, file)
      ∧ file.shapes.map (fun shp => shp.name) = [lit "Suzanne", lit "Ground"]
      ∧ ¬ shapes_sorted file.shapes :=
  ⟨_, rfl, by decide, by decide⟩

/-- Whatever the parser lists, up to 16 shapes, a successful `load` stores the shapes in the
parser's order. -/
theorem load_stores_parser_order (reader : ObjReader) (shapes : List obj_shape)
    (h : obj_file.load_shapes reader.attrib reader.shapes [] = .ok shapes)
    (hlen : shapes.length ≤ 16) :
    obj_file.load {} (some reader) = .ok (true, { shapes := shapes }) := by
  simp only [obj_file.load, h, std_sort_cmp_shape_name shapes hlen]

/-- C4 at a failing input: the scene whose shapes the parser lists as `Suzanne`, `Ground` is
loaded into a new session and gets the id 0; `instance(0, "Ground")` and
`instance(0, "Suzanne")` both raise the runtime error of a shape that is not found. -/
theorem instance_fails_on_loaded_shape :
    ∃ (s : session_impl) (t : Trace) (m1 m2 : Str),
      session_impl.load_obj ok_driver {} (lit "scene.obj") (some scene_reader) [] = (.ok 0, s, t)
      ∧ (IntMap.at s.m_obj_files 0).map (fun f => f.shapes.map (fun shp => shp.name))
          = some [lit "Suzanne", lit "Ground"]
      ∧ session_impl.instance_of s 0 (lit "Ground") = .error (.runtime_error m1)
      ∧ session_impl.instance_of s 0 (lit "Suzanne") = .error (.runtime_error m2) :=
  ⟨_, _, _, _, rfl, by decide, rfl, rfl⟩

theorem find_emplace_none {β : Type} (m : IntMap β) (k k' : Int) (v : β) :
    IntMap.find (IntMap.emplace m k v) k' = none ↔ k' ≠ k ∧ IntMap.find m k' = none := by
  induction m with
  | nil =>
    simp only [IntMap.emplace, IntMap.find]
    by_cases h : k = k'
    · simp [h]
    · have h' : ¬ k' = k := fun e => h e.symm
      simp [h, h']
  | cons p rest ih =>
    obtain ⟨a, b⟩ := p
    simp only [IntMap.emplace]
    by_cases h1 : k < a
    · simp only [h1, if_true, IntMap.find]
      by_cases h2 : k = k'
      · simp [h2]
      · have h' : ¬ k' = k := fun e => h2 e.symm
        simp [h2, h']
    · simp only [h1, if_false]
      by_cases h2 : a = k
      · simp only [h2, if_true, IntMap.find]
        by_cases h3 : k = k'
        · simp [h3]
        · have h' : ¬ k' = k := fun e => h3 e.symm
          simp [h3, h']
      · simp only [h2, if_false, IntMap.find]
        by_cases h3 : a = k'
        · simp [h3]
        · simp only [h3, if_false]
          exact ih

/-- What one call of `load_obj` does to the session: it raises and leaves the session and the
trace as they were, or it returns the counter, advances it by one and registers the file
under that id only. -/
theorem load_obj_cases (d : Driver) (self : session_impl) (path : Str)
    (parsed : Option ObjReader) (t : Trace) :
    (∃ e, session_impl.load_obj d self path parsed t = (.error e, self, t))
    ∨ (∃ s t', session_impl.load_obj d self path parsed t = (.ok self.m_next_obj_id, s, t')
        ∧ s.m_next_obj_id = self.m_next_obj_id + 1
        ∧ ∀ k, IntMap.find s.m_obj_files k = none
            ↔ k ≠ self.m_next_obj_id ∧ IntMap.find self.m_obj_files k = none) := by
  unfold session_impl.load_obj
  split
  · exact Or.inl ⟨_, rfl⟩
  · exact Or.inl ⟨_, rfl⟩
  · refine Or.inr ⟨_, _, rfl, rfl, ?_⟩
    intro k
    exact find_emplace_none _ _ _ _

/-- The ids returned by a run of `load_obj` calls are the values of the counter from its
start on, one after the other; the counter ends past the last of them, and a file id is
unknown to the registry after the run when it was unknown before and has not been returned. -/
theorem run_loads_ids (d : Driver) (calls : List load_call) :
    ∀ (self : session_impl) (t : Trace),
      returned_ids (session_impl.run_loads d calls self t).1
        = (List.range (returned_ids (session_impl.run_loads d calls self t).1).length).map
            (fun (k : Nat) => self.m_next_obj_id + (k : Int))
      ∧ (session_impl.run_loads d calls self t).2.1.m_next_obj_id
        = self.m_next_obj_id + ((returned_ids (session_impl.run_loads d calls self t).1).length : Int)
      ∧ ∀ k, IntMap.find self.m_obj_files k = none →
          k ∉ returned_ids (session_impl.run_loads d calls self t).1 →
          IntMap.find (session_impl.run_loads d calls self t).2.1.m_obj_files k = none := by
  induction calls with
  | nil =>
    intro self t
    simp [session_impl.run_loads, returned_ids]
  | cons c rest ih =>
    intro self t
    rcases load_obj_cases d self c.path c.parsed t with ⟨e, he⟩ | ⟨s, t', hs, hnext, hfind⟩
    · have := ih self t
      simp only [session_impl.run_loads, he, returned_ids]
      exact this
    · obtain ⟨h1, h2, h3⟩ := ih s t'
      simp only [session_impl.run_loads, hs, returned_ids]
      refine ⟨?_, ?_, ?_⟩
      · rw [List.length_cons, List.range_succ_eq_map, List.map_cons, List.map_map]
        congr 1
        · simp
        · rw [h1]
          simp only [List.length_map, List.length_range, hnext]
          apply List.map_congr_left
          intro a _
          simp only [Function.comp, Nat.succ_eq_add_one]
          push_cast
          ring
      · rw [h2, hnext, List.length_cons]
        push_cast
        ring
      · intro k hk hnot
        rw [List.mem_cons, not_or] at hnot
        exact h3 k ((hfind k).mpr ⟨hnot.1, hk⟩) hnot.2

/-- C7: on a session whose counter is at its initial value 0, whatever the other members,
the successful calls among any sequence of `load_obj` calls return 0, 1, 2, ... in that order
(the k-th returns k - 1); the returned ids are strictly increasing, so none comes twice. -/
theorem load_obj_ids_fresh_and_increasing (d : Driver) (calls : List load_call)
    (self : session_impl) (t : Trace) :
    returned_ids (session_impl.run_loads d calls { self with m_next_obj_id := 0 } t).1
      = (List.range (returned_ids
          (session_impl.run_loads d calls { self with m_next_obj_id := 0 } t).1).length).map
          (fun (k : Nat) => (k : Int))
    ∧ (returned_ids (session_impl.run_loads d calls { self with m_next_obj_id := 0 } t).1).Pairwise
        (· < ·)
    ∧ (returned_ids (session_impl.run_loads d calls { self with m_next_obj_id := 0 } t).1).Nodup := by
  have h := (run_loads_ids d calls { self with m_next_obj_id := 0 } t).1
  simp only [zero_add] at h
  have hp : (returned_ids (session_impl.run_loads d calls { self with m_next_obj_id := 0 } t).1).Pairwise
      (· < ·) := by
    rw [h, List.pairwise_map]
    exact (List.pairwise_lt_range _).imp (fun hab => by exact_mod_cast hab)
  exact ⟨h, hp, hp.imp (fun hab => ne_of_lt hab)⟩

/-- C8: when the parser reports failure, `load_obj` raises `mvz::runtime_error`, and the
session (registry and counter) and the trace of driver calls are what they were. -/
theorem load_obj_parse_failure_changes_nothing (d : Driver) (self : session_impl) (path : Str)
    (t : Trace) :
    session_impl.load_obj d self path none t
      = (.error (.runtime_error (lit "Failed to load OBJ file '" ++ path ++ lit "'.")), self, t)
    ∧ ∀ (rest : List load_call),
        returned_ids (session_impl.run_loads d (⟨path, none⟩ :: rest) self t).1
          = returned_ids (session_impl.run_loads d rest self t).1 := by
  have h : session_impl.load_obj d self path none t
      = (.error (.runtime_error (lit "Failed to load OBJ file '" ++ path ++ lit "'.")), self, t) := rfl
  refine ⟨h, ?_⟩
  intro rest
  simp only [session_impl.run_loads, h, returned_ids]

/-- C6 fails as stated: on a new session, where no load has returned any id,
`instance(0, "Ground")` raises `std::out_of_range`, which is not a `mvz::runtime_error`. -/
theorem instance_unknown_file_not_runtime_error :
    session_impl.instance_of {} 0 (lit "Ground") = .error .out_of_range
    ∧ Exn.is_runtime_error .out_of_range = false :=
  ⟨rfl, rfl⟩

/-- C6, as the code has it: after any sequence of `load_obj` calls on a session whose
registry was empty, `instance` on a file id that no load has returned raises
`std::out_of_range`, for every shape name. -/
theorem instance_unknown_file_out_of_range (d : Driver) (calls : List load_call)
    (self : session_impl) (t : Trace) (obj_id : Int) (shape : Str)
    (hnew : self.m_obj_files = [])
    (hid : obj_id ∉ returned_ids (session_impl.run_loads d calls self t).1) :
    session_impl.instance_of (session_impl.run_loads d calls self t).2.1 obj_id shape
      = .error .out_of_range := by
  have h := (run_loads_ids d calls self t).2.2 obj_id (by rw [hnew]; rfl) hid
  unfold session_impl.instance_of IntMap.at
  rw [h]

/-- A run of C6: after a failed and a successful load, the id 1 has not been returned. -/
theorem instance_unknown_file_out_of_range_witness :
    returned_ids (session_impl.run_loads ok_driver
        [⟨lit "none.obj", none⟩, ⟨lit "scene.obj", some scene_reader⟩] {} []).1 = [0]
    ∧ session_impl.instance_of (session_impl.run_loads ok_driver
        [⟨lit "none.obj", none⟩, ⟨lit "scene.obj", some scene_reader⟩] {} []).2.1 1 (lit "Ground")
      = .error .out_of_range :=
  ⟨by decide, instance_unknown_file_out_of_range ok_driver
      [⟨lit "none.obj", none⟩, ⟨lit "scene.obj", some scene_reader⟩] {} [] 1 (lit "Ground") rfl
      (by decide)⟩

theorem throw_gl_error_some (err line : Nat) (code : Str) (h : err ≠ GL_NO_ERROR) :
    ∃ msg, throw_gl_error err line code = some (.open_gl_error msg) := by
  unfold throw_gl_error
  rw [if_neg h]
  split_ifs <;> exact ⟨_, rfl⟩

theorem check_error_cases (d : Driver) (line : Nat) (code : Str) (t : Trace) :
    (d.glGetError (t ++ [GLCall.glGetError]) = GL_NO_ERROR
      ∧ check_error d line code t = (.ok (), t ++ [GLCall.glGetError]))
    ∨ (d.glGetError (t ++ [GLCall.glGetError]) ≠ GL_NO_ERROR
      ∧ ∃ msg, check_error d line code t = (.error (.open_gl_error msg), t ++ [GLCall.glGetError])) := by
  unfold check_error
  by_cases h : d.glGetError (t ++ [GLCall.glGetError]) = GL_NO_ERROR
  · left
    simp [h]
  · right
    obtain ⟨msg, hmsg⟩ := throw_gl_error_some _ line code h
    refine ⟨h, msg, ?_⟩
    simp [h, hmsg]

theorem compile_block_outcome (d : Driver) (h : Nat) (src : Str) (len : Int) (t : Trace) :
    block_outcome h t (shader.compile_block d h src len t) := by
  unfold shader.compile_block CHECK_GL
  rcases check_error_cases d 232 (lit "glShaderSource(m_id, 1, &source_ptr, &source_len)")
      (t ++ [GLCall.glShaderSource h 1 src len]) with ⟨_, h1⟩ | ⟨_, m1, h1⟩
  · rcases check_error_cases d 233 (lit "glCompileShader(m_id)")
        (t ++ [GLCall.glShaderSource h 1 src len] ++ [GLCall.glGetError]
          ++ [GLCall.glCompileShader h]) with ⟨_, h2⟩ | ⟨_, m2, h2⟩
    · rcases check_error_cases d 235
          (lit "glGetShaderiv(m_id, GL_COMPILE_STATUS, &compile_status)")
          (t ++ [GLCall.glShaderSource h 1 src len] ++ [GLCall.glGetError]
            ++ [GLCall.glCompileShader h] ++ [GLCall.glGetError]
            ++ [GLCall.glGetShaderiv h GL_COMPILE_STATUS]) with ⟨_, h3⟩ | ⟨_, m3, h3⟩
      · simp only [h1, h2, h3]
        exact ⟨[GLCall.glShaderSource h 1 src len, GLCall.glGetError, GLCall.glCompileShader h,
          GLCall.glGetError, GLCall.glGetShaderiv h GL_COMPILE_STATUS, GLCall.glGetError],
          by simp, Or.inl ⟨_, Prod.ext rfl (by simp)⟩⟩
      · simp only [h1, h2, h3]
        exact ⟨[GLCall.glShaderSource h 1 src len, GLCall.glGetError, GLCall.glCompileShader h,
          GLCall.glGetError, GLCall.glGetShaderiv h GL_COMPILE_STATUS, GLCall.glGetError],
          by simp, Or.inr ⟨_, Prod.ext rfl (by simp)⟩⟩
    · simp only [h1, h2]
      exact ⟨[GLCall.glShaderSource h 1 src len, GLCall.glGetError, GLCall.glCompileShader h,
        GLCall.glGetError], by simp, Or.inr ⟨_, Prod.ext rfl (by simp)⟩⟩
  · simp only [h1]
    exact ⟨[GLCall.glShaderSource h 1 src len, GLCall.glGetError], by simp, Or.inr ⟨_, Prod.ext rfl (by simp)⟩⟩

theorem log_length_block_outcome (d : Driver) (h : Nat) (t : Trace) :
    block_outcome h t (shader.log_length_block d h t) := by
  unfold shader.log_length_block
  rcases check_error_cases d 247 (lit "glGetShaderiv(m_id, GL_INFO_LOG_LENGTH, &log_length)")
      (t ++ [GLCall.glGetShaderiv h GL_INFO_LOG_LENGTH]) with ⟨_, h1⟩ | ⟨_, m1, h1⟩
  · simp only [h1]
    exact ⟨[GLCall.glGetShaderiv h GL_INFO_LOG_LENGTH, GLCall.glGetError], by simp,
      Or.inl ⟨_, Prod.ext rfl (by simp)⟩⟩
  · simp only [h1]
    exact ⟨[GLCall.glGetShaderiv h GL_INFO_LOG_LENGTH, GLCall.glGetError], by simp,
      Or.inr ⟨_, Prod.ext rfl (by simp)⟩⟩

theorem info_log_block_outcome (d : Driver) (h : Nat) (n : Int) (t : Trace) :
    block_outcome h t (shader.info_log_block d h n t) := by
  unfold shader.info_log_block
  rcases check_error_cases d 267
      (lit "glGetShaderInfoLog(m_id, log_length, &read_size, &log[0])")
      (t ++ [GLCall.glGetShaderInfoLog h n]) with ⟨_, h1⟩ | ⟨_, m1, h1⟩
  · simp only [h1]
    exact ⟨[GLCall.glGetShaderInfoLog h n, GLCall.glGetError], by simp, Or.inl ⟨_, Prod.ext rfl (by simp)⟩⟩
  · simp only [h1]
    exact ⟨[GLCall.glGetShaderInfoLog h n, GLCall.glGetError], by simp, Or.inr ⟨_, Prod.ext rfl (by simp)⟩⟩

theorem check_error_ok (d : Driver) (line : Nat) (code : Str) (t : Trace)
    (h : d.glGetError (t ++ [GLCall.glGetError]) = GL_NO_ERROR) :
    check_error d line code t = (.ok (), t ++ [GLCall.glGetError]) := by
  rcases check_error_cases d line code t with ⟨_, h1⟩ | ⟨h1, _⟩
  · exact h1
  · exact absurd h h1

/-- Every run of `shader::init` that got its handle `h`: the calls it made after the creation
delete `h` not at all when it returns, and exactly once when it raises. -/
theorem shader_init_outcome (d : Driver) (assets : Str → Option Str) (self : shader) (type : Nat)
    (path : Str) (t : Trace) (file : Str) (hfile : assets path = some file)
    (hcreate : d.glGetError (t ++ [GLCall.glCreateShader type, GLCall.glGetError]) = GL_NO_ERROR) :
    ∃ (res : Except Exn Unit) (calls : List GLCall),
      shader.init d assets self type path t
        = (res, { m_id := d.glCreateShader (t ++ [GLCall.glCreateShader type]) },
            t ++ [GLCall.glCreateShader type, GLCall.glGetError] ++ calls)
      ∧ ((res = .ok ()
          ∧ calls.count (GLCall.glDeleteShader (d.glCreateShader (t ++ [GLCall.glCreateShader type]))) = 0)
        ∨ ((∃ e, res = .error e)
          ∧ calls.count (GLCall.glDeleteShader (d.glCreateShader (t ++ [GLCall.glCreateShader type]))) = 1)) := by
  have hc : check_error d 229 (lit "glCreateShader") (t ++ [GLCall.glCreateShader type])
      = (.ok (), t ++ [GLCall.glCreateShader type, GLCall.glGetError]) := by
    rw [check_error_ok _ _ _ _ (by simpa using hcreate)]
    simp
  unfold shader.init
  simp only [hfile, hc]
  generalize d.glCreateShader (t ++ [GLCall.glCreateShader type]) = h
  generalize t ++ [GLCall.glCreateShader type, GLCall.glGetError] = t1
  obtain ⟨c1, hc1, hb1⟩ := compile_block_outcome d h file (to_GLint file.length) t1
  rcases hb1 with ⟨a, hb1⟩ | ⟨m, hb1⟩
  swap
  · simp only [hb1]
    exact ⟨_, c1 ++ [GLCall.glDeleteShader h], Prod.ext rfl (Prod.ext rfl (by simp)), Or.inr ⟨⟨_, rfl⟩, by simp [hc1]⟩⟩
  cases a with
  | true =>
    simp only [hb1]
    exact ⟨_, c1, rfl, Or.inl ⟨rfl, hc1⟩⟩
  | false =>
    simp only [hb1]
    obtain ⟨c2, hc2, hb2⟩ := log_length_block_outcome d h (t1 ++ c1)
    rcases hb2 with ⟨n, hb2⟩ | ⟨m, hb2⟩
    swap
    · simp only [hb2]
      exact ⟨_, c1 ++ c2 ++ [GLCall.glDeleteShader h], Prod.ext rfl (Prod.ext rfl (by simp)), Or.inr ⟨⟨_, rfl⟩, by simp [hc1, hc2]⟩⟩
    simp only [hb2]
    by_cases hn : n < 0
    · simp only [hn, if_true]
      exact ⟨_, c1 ++ c2 ++ [GLCall.glDeleteShader h], Prod.ext rfl (Prod.ext rfl (by simp)), Or.inr ⟨⟨_, rfl⟩, by simp [hc1, hc2]⟩⟩
    · simp only [hn, if_false]
      obtain ⟨c3, hc3, hb3⟩ := info_log_block_outcome d h n (t1 ++ c1 ++ c2)
      rcases hb3 with ⟨⟨rs, log⟩, hb3⟩ | ⟨m, hb3⟩
      swap
      · simp only [hb3]
        exact ⟨_, c1 ++ c2 ++ c3 ++ [GLCall.glDeleteShader h], Prod.ext rfl (Prod.ext rfl (by simp)),
          Or.inr ⟨⟨_, rfl⟩, by simp [hc1, hc2, hc3]⟩⟩
      simp only [hb3]
      by_cases hrs : rs < 0
      · simp only [hrs, if_true]
        exact ⟨_, c1 ++ c2 ++ c3 ++ [GLCall.glDeleteShader h], Prod.ext rfl (Prod.ext rfl (by simp)),
          Or.inr ⟨⟨_, rfl⟩, by simp [hc1, hc2, hc3]⟩⟩
      · simp only [hrs, if_false]
        unfold CHECK_GL
        rcases check_error_cases d 282 (lit "glDeleteShader(m_id)")
            (t1 ++ c1 ++ c2 ++ c3 ++ [GLCall.glDeleteShader h]) with ⟨_, h4⟩ | ⟨_, m4, h4⟩
        · simp only [h4]
          exact ⟨_, c1 ++ c2 ++ c3 ++ [GLCall.glDeleteShader h, GLCall.glGetError], Prod.ext rfl (Prod.ext rfl (by simp)),
            Or.inr ⟨⟨_, rfl⟩, by simp [hc1, hc2, hc3]⟩⟩
        · simp only [h4]
          exact ⟨_, c1 ++ c2 ++ c3 ++ [GLCall.glDeleteShader h, GLCall.glGetError], Prod.ext rfl (Prod.ext rfl (by simp)),
            Or.inr ⟨⟨_, rfl⟩, by simp [hc1, hc2, hc3]⟩⟩

/-- C10: in every run of `shader::init` in which the handle was created (the asset is there
and `glCreateShader` raised no driver error), whatever the driver answers afterwards: the
object holds the handle; when `init` returns, none of the calls it made deletes the handle;
when it raises, `glDeleteShader` has been called on the handle, once, before the exception
leaves; and a negative log length, as a negative read size, raises `mvz::runtime_error`. -/
theorem shader_init_frees_handle_before_raising (d : Driver) (assets : Str → Option Str)
    (self : shader) (type : Nat) (path : Str) (t : Trace) (file : Str)
    (hfile : assets path = some file)
    (hcreate : d.glGetError (t ++ [GLCall.glCreateShader type, GLCall.glGetError]) = GL_NO_ERROR) :
    (∃ (res : Except Exn Unit) (calls : List GLCall),
      shader.init d assets self type path t
        = (res, { m_id := d.glCreateShader (t ++ [GLCall.glCreateShader type]) },
            t ++ [GLCall.glCreateShader type, GLCall.glGetError] ++ calls)
      ∧ ((res = .ok ()
          ∧ calls.count (GLCall.glDeleteShader (d.glCreateShader (t ++ [GLCall.glCreateShader type]))) = 0)
        ∨ ((∃ e, res = .error e)
          ∧ calls.count (GLCall.glDeleteShader (d.glCreateShader (t ++ [GLCall.glCreateShader type]))) = 1)))
    ∧ (∀ (t2 t3 : Trace) (n : Int),
        shader.compile_block d (d.glCreateShader (t ++ [GLCall.glCreateShader type])) file
            (to_GLint file.length) (t ++ [GLCall.glCreateShader type, GLCall.glGetError])
          = (.ok false, t2) →
        shader.log_length_block d (d.glCreateShader (t ++ [GLCall.glCreateShader type])) t2
          = (.ok n, t3) →
        n < 0 →
        ∃ msg, (shader.init d assets self type path t).1 = .error (.runtime_error msg))
    ∧ (∀ (t2 t3 t4 : Trace) (n rs : Int) (log : Str),
        shader.compile_block d (d.glCreateShader (t ++ [GLCall.glCreateShader type])) file
            (to_GLint file.length) (t ++ [GLCall.glCreateShader type, GLCall.glGetError])
          = (.ok false, t2) →
        shader.log_length_block d (d.glCreateShader (t ++ [GLCall.glCreateShader type])) t2
          = (.ok n, t3) →
        0 ≤ n →
        shader.info_log_block d (d.glCreateShader (t ++ [GLCall.glCreateShader type])) n t3
          = (.ok (rs, log), t4) →
        rs < 0 →
        ∃ msg, (shader.init d assets self type path t).1 = .error (.runtime_error msg)) := by
  have hc : check_error d 229 (lit "glCreateShader") (t ++ [GLCall.glCreateShader type])
      = (.ok (), t ++ [GLCall.glCreateShader type, GLCall.glGetError]) := by
    rw [check_error_ok _ _ _ _ (by simpa using hcreate)]
    simp
  refine ⟨shader_init_outcome d assets self type path t file hfile hcreate, ?_, ?_⟩
  · intro t2 t3 n h1 h2 hn
    unfold shader.init
    simp only [hfile, hc, h1, h2, hn, if_true]
    exact ⟨_, rfl⟩
  · intro t2 t3 t4 n rs log h1 h2 hn h3 hrs
    have hn' : ¬ n < 0 := by omega
    unfold shader.init
    simp only [hfile, hc, h1, h2, hn', if_false, h3, hrs, if_true]
    exact ⟨_, rfl⟩

/-- A run of C10: the driver reports the log length -1; `init` raises a runtime error after
it has deleted the handle 7. -/
theorem shader_init_frees_handle_before_raising_witness :
    broken_assets (lit "mesh.vert") = some (lit "int x")
    ∧ (broken_shader_driver (-1) 0 []).glGetError
        ([] ++ [GLCall.glCreateShader GL_VERTEX_SHADER, GLCall.glGetError]) = GL_NO_ERROR
    ∧ ∃ msg, (shader.init (broken_shader_driver (-1) 0 []) broken_assets {} GL_VERTEX_SHADER
        (lit "mesh.vert") []).1 = .error (.runtime_error msg) :=
  ⟨rfl, rfl,
    (shader_init_frees_handle_before_raising (broken_shader_driver (-1) 0 []) broken_assets {}
      GL_VERTEX_SHADER (lit "mesh.vert") [] (lit "int x") rfl rfl).2.1 _ _ (-1) rfl rfl
      (by decide)⟩

/-- C9: when the source compiles with a status other than `GL_TRUE`, no driver call raising an
error and the log length and the read size not being negative, `shader::init` raises a
`glsl_error` whose `source()` is the text of the asset, byte for byte, whose `path()` is the
path passed in, and whose message is the log buffer resized to `read_size`: its first
`read_size` bytes when the driver wrote that many within the buffer. -/
theorem shader_init_compile_failure_reports_source (d : Driver) (assets : Str → Option Str)
    (self : shader) (type : Nat) (path : Str) (t : Trace) (file : Str)
    (t2 t3 t4 : Trace) (n rs : Int) (log : Str)
    (hfile : assets path = some file)
    (hcreate : d.glGetError (t ++ [GLCall.glCreateShader type, GLCall.glGetError]) = GL_NO_ERROR)
    (hcompile : shader.compile_block d (d.glCreateShader (t ++ [GLCall.glCreateShader type])) file
        (to_GLint file.length) (t ++ [GLCall.glCreateShader type, GLCall.glGetError])
      = (.ok false, t2))
    (hlen : shader.log_length_block d (d.glCreateShader (t ++ [GLCall.glCreateShader type])) t2
      = (.ok n, t3))
    (hn : 0 ≤ n)
    (hlog : shader.info_log_block d (d.glCreateShader (t ++ [GLCall.glCreateShader type])) n t3
      = (.ok (rs, log), t4))
    (hrs : 0 ≤ rs)
    (hdel : d.glGetError (t4 ++ [GLCall.glDeleteShader
        (d.glCreateShader (t ++ [GLCall.glCreateShader type])), GLCall.glGetError]) = GL_NO_ERROR) :
    shader.init d assets self type path t
      = (.error (.glsl_error (str_resize log rs.toNat) path file),
          { m_id := d.glCreateShader (t ++ [GLCall.glCreateShader type]) },
          t4 ++ [GLCall.glDeleteShader (d.glCreateShader (t ++ [GLCall.glCreateShader type])),
            GLCall.glGetError])
    ∧ rs = (d.glGetShaderInfoLog (t3 ++ [GLCall.glGetShaderInfoLog
        (d.glCreateShader (t ++ [GLCall.glCreateShader type])) n])).1.getD 0
    ∧ (rs.toNat ≤ n.toNat →
        rs.toNat ≤ (d.glGetShaderInfoLog (t3 ++ [GLCall.glGetShaderInfoLog
          (d.glCreateShader (t ++ [GLCall.glCreateShader type])) n])).2.length →
        str_resize log rs.toNat
          = (d.glGetShaderInfoLog (t3 ++ [GLCall.glGetShaderInfoLog
              (d.glCreateShader (t ++ [GLCall.glCreateShader type])) n])).2.take rs.toNat) := by
  have hc : check_error d 229 (lit "glCreateShader") (t ++ [GLCall.glCreateShader type])
      = (.ok (), t ++ [GLCall.glCreateShader type, GLCall.glGetError]) := by
    rw [check_error_ok _ _ _ _ (by simpa using hcreate)]
    simp
  have hd : check_error d 282 (lit "glDeleteShader(m_id)")
      (t4 ++ [GLCall.glDeleteShader (d.glCreateShader (t ++ [GLCall.glCreateShader type]))])
      = (.ok (), t4 ++ [GLCall.glDeleteShader
          (d.glCreateShader (t ++ [GLCall.glCreateShader type])), GLCall.glGetError]) := by
    rw [check_error_ok _ _ _ _ (by simpa using hdel)]
    simp
  have hn' : ¬ n < 0 := by omega
  have hrs' : ¬ rs < 0 := by omega
  refine ⟨?_, ?_, ?_⟩
  · unfold shader.init
    simp only [hfile, hc, hcompile, hlen, hn', if_false, hlog, hrs', CHECK_GL, hd]
  · unfold shader.info_log_block at hlog
    simp only at hlog
    split at hlog
    · simp at hlog
    · simp only [Prod.mk.injEq, Except.ok.injEq] at hlog
      exact hlog.1.1.symm
  · intro h1 h2
    unfold shader.info_log_block at hlog
    simp only at hlog
    split at hlog
    · simp at hlog
    · simp only [Prod.mk.injEq, Except.ok.injEq] at hlog
      rw [← hlog.1.2]
      unfold str_resize
      simp only [List.length_append, List.length_take, List.length_replicate]
      rw [List.take_append_of_le_length (by simp; omega), List.take_take]
      have : rs.toNat - (min n.toNat (d.glGetShaderInfoLog (t3 ++ [GLCall.glGetShaderInfoLog
          (d.glCreateShader (t ++ [GLCall.glCreateShader type])) n])).2.length
          + (n.toNat - min n.toNat (d.glGetShaderInfoLog (t3 ++ [GLCall.glGetShaderInfoLog
          (d.glCreateShader (t ++ [GLCall.glCreateShader type])) n])).2.length)) = 0 := by omega
      rw [this]
      simp [h1]

/-- A run of C9: the text `int x` does not compile; the driver reports a log of length 4 and
writes the three bytes of `bad` and a zero; the exception carries `bad`, the path and `int x`. -/
theorem shader_init_compile_failure_reports_source_witness :
    (shader.init (broken_shader_driver 4 3 (lit "bad" ++ [0])) broken_assets {} GL_FRAGMENT_SHADER
        (lit "mesh_color.frag") []).1
      = .error (.glsl_error (lit "bad") (lit "mesh_color.frag") (lit "int x")) :=
  (congrArg Prod.fst
    (shader_init_compile_failure_reports_source (broken_shader_driver 4 3 (lit "bad" ++ [0]))
      broken_assets {} GL_FRAGMENT_SHADER (lit "mesh_color.frag") [] (lit "int x") _ _ _ 4 3 _
      rfl rfl rfl rfl (by decide) rfl (by decide) rfl).1).trans rfl


/-- A run of checked statements makes calls that are among its statements and `glGetError`,
and raises nothing but `open_gl_error`. -/
theorem run_checked_outcome (d : Driver) (cs : List (GLCall × Nat × Str)) :
    ∀ t : Trace, ∃ calls : List GLCall,
      (∀ c ∈ calls, c = GLCall.glGetError ∨ c ∈ cs.map (fun x => x.1))
      ∧ (run_checked d cs t = (.ok (), t ++ calls)
        ∨ ∃ msg, run_checked d cs t = (.error (.open_gl_error msg), t ++ calls)) := by
  induction cs with
  | nil =>
    intro t
    exact ⟨[], by simp, Or.inl (by simp [run_checked])⟩
  | cons x rest ih =>
    intro t
    obtain ⟨stmt, line, code⟩ := x
    unfold run_checked CHECK_GL
    rcases check_error_cases d line code (t ++ [stmt]) with ⟨_, h1⟩ | ⟨_, m1, h1⟩
    · obtain ⟨calls, hmem, hres⟩ := ih (t ++ [stmt] ++ [GLCall.glGetError])
      refine ⟨[stmt, GLCall.glGetError] ++ calls, ?_, ?_⟩
      · intro c hc
        simp only [List.mem_append, List.mem_cons, List.mem_singleton, List.not_mem_nil,
          or_false] at hc
        rcases hc with (rfl | rfl) | hc
        · right; simp
        · left; rfl
        · rcases hmem c hc with h | h
          · left; exact h
          · right; simp only [List.map_cons, List.mem_cons]; right; exact h
      · simp only [h1]
        rcases hres with h | ⟨msg, h⟩
        · left; rw [h]; simp
        · right; exact ⟨msg, by rw [h]; simp⟩
    · refine ⟨[stmt, GLCall.glGetError], ?_, Or.inr ⟨m1, ?_⟩⟩
      · intro c hc
        simp only [List.mem_cons, List.mem_singleton, List.not_mem_nil, or_false] at hc
        rcases hc with rfl | rfl
        · right; simp
        · left; rfl
      · simp only [h1]
        simp

theorem link_block_outcome (d : Driver) (h vert frag : Nat) (t : Trace) :
    program_block_outcome h t (program.link_block d h vert frag t) := by
  unfold program.link_block
  obtain ⟨calls, hmem, hres⟩ := run_checked_outcome d
    [(.glAttachShader h vert, 303, lit "glAttachShader(m_id, vert_shader)"),
     (.glAttachShader h frag, 304, lit "glAttachShader(m_id, frag_shader)"),
     (.glLinkProgram h, 305, lit "glLinkProgram(m_id)"),
     (.glDetachShader h vert, 306, lit "glDetachShader(m_id, vert_shader)"),
     (.glDetachShader h frag, 307, lit "glDetachShader(m_id, frag_shader)")] t
  have hcount : calls.count (GLCall.glDeleteProgram h) = 0 := by
    rw [List.count_eq_zero]
    intro hin
    rcases hmem _ hin with h1 | h1
    · exact absurd h1 (by simp)
    · simp at h1
  rcases hres with h1 | ⟨msg, h1⟩
  · rw [h1]
    exact ⟨calls, hcount, Or.inl ⟨_, rfl⟩⟩
  · rw [h1]
    exact ⟨calls, hcount, Or.inr ⟨msg, rfl⟩⟩

theorem link_status_block_outcome (d : Driver) (h : Nat) (t : Trace) :
    program_block_outcome h t (program.link_status_block d h t) := by
  unfold program.link_status_block
  rcases check_error_cases d 316 (lit "glGetProgramiv(m_id, GL_LINK_STATUS, &link_status)")
      (t ++ [GLCall.glGetProgramiv h GL_LINK_STATUS]) with ⟨_, h1⟩ | ⟨_, m1, h1⟩
  · simp only [h1]
    exact ⟨[GLCall.glGetProgramiv h GL_LINK_STATUS, GLCall.glGetError], by simp,
      Or.inl ⟨_, Prod.ext rfl (by simp)⟩⟩
  · simp only [h1]
    exact ⟨[GLCall.glGetProgramiv h GL_LINK_STATUS, GLCall.glGetError], by simp,
      Or.inr ⟨_, Prod.ext rfl (by simp)⟩⟩

theorem program_log_length_block_outcome (d : Driver) (h : Nat) (t : Trace) :
    program_block_outcome h t (program.log_length_block d h t) := by
  unfold program.log_length_block
  rcases check_error_cases d 329 (lit "glGetProgramiv(m_id, GL_INFO_LOG_LENGTH, &log_length)")
      (t ++ [GLCall.glGetProgramiv h GL_INFO_LOG_LENGTH]) with ⟨_, h1⟩ | ⟨_, m1, h1⟩
  · simp only [h1]
    exact ⟨[GLCall.glGetProgramiv h GL_INFO_LOG_LENGTH, GLCall.glGetError], by simp,
      Or.inl ⟨_, Prod.ext rfl (by simp)⟩⟩
  · simp only [h1]
    exact ⟨[GLCall.glGetProgramiv h GL_INFO_LOG_LENGTH, GLCall.glGetError], by simp,
      Or.inr ⟨_, Prod.ext rfl (by simp)⟩⟩

theorem program_info_log_block_outcome (d : Driver) (h : Nat) (n : Int) (t : Trace) :
    program_block_outcome h t (program.info_log_block d h n t) := by
  unfold program.info_log_block
  rcases check_error_cases d 349
      (lit "glGetProgramInfoLog(m_id, log_length, &read_size, &info_log[0])")
      (t ++ [GLCall.glGetProgramInfoLog h n]) with ⟨_, h1⟩ | ⟨_, m1, h1⟩
  · simp only [h1]
    exact ⟨[GLCall.glGetProgramInfoLog h n, GLCall.glGetError], by simp,
      Or.inl ⟨_, Prod.ext rfl (by simp)⟩⟩
  · simp only [h1]
    exact ⟨[GLCall.glGetProgramInfoLog h n, GLCall.glGetError], by simp,
      Or.inr ⟨_, Prod.ext rfl (by simp)⟩⟩

/-- Every run of `program::init` that got its handle `h`: the calls it made after the creation
delete `h` not at all when it returns, and exactly once when it raises. -/
theorem program_init_outcome (d : Driver) (self : program) (vert frag : Nat) (t : Trace)
    (hcreate : d.glGetError (t ++ [GLCall.glCreateProgram, GLCall.glGetError]) = GL_NO_ERROR) :
    ∃ (res : Except Exn Unit) (calls : List GLCall),
      program.init d self vert frag t
        = (res, { m_id := d.glCreateProgram (t ++ [GLCall.glCreateProgram]) },
            t ++ [GLCall.glCreateProgram, GLCall.glGetError] ++ calls)
      ∧ ((res = .ok ()
          ∧ calls.count (GLCall.glDeleteProgram (d.glCreateProgram (t ++ [GLCall.glCreateProgram]))) = 0)
        ∨ ((∃ e, res = .error e)
          ∧ calls.count (GLCall.glDeleteProgram (d.glCreateProgram (t ++ [GLCall.glCreateProgram]))) = 1)) := by
  have hc : check_error d 300 (lit "glCreateProgram") (t ++ [GLCall.glCreateProgram])
      = (.ok (), t ++ [GLCall.glCreateProgram, GLCall.glGetError]) := by
    rw [check_error_ok _ _ _ _ (by simpa using hcreate)]
    simp
  unfold program.init
  simp only [hc]
  generalize d.glCreateProgram (t ++ [GLCall.glCreateProgram]) = h
  generalize t ++ [GLCall.glCreateProgram, GLCall.glGetError] = t1
  obtain ⟨c1, hc1, hb1⟩ := link_block_outcome d h vert frag t1
  rcases hb1 with ⟨a, hb1⟩ | ⟨m, hb1⟩
  swap
  · simp only [hb1]
    exact ⟨_, c1 ++ [GLCall.glDeleteProgram h], Prod.ext rfl (Prod.ext rfl (by simp)),
      Or.inr ⟨⟨_, rfl⟩, by simp [hc1]⟩⟩
  simp only [hb1]
  obtain ⟨c2, hc2, hb2⟩ := link_status_block_outcome d h (t1 ++ c1)
  rcases hb2 with ⟨st, hb2⟩ | ⟨m, hb2⟩
  swap
  · simp only [hb2]
    exact ⟨_, c1 ++ c2 ++ [GLCall.glDeleteProgram h], Prod.ext rfl (Prod.ext rfl (by simp)),
      Or.inr ⟨⟨_, rfl⟩, by simp [hc1, hc2]⟩⟩
  simp only [hb2]
  by_cases hst : st = GL_TRUE
  · simp only [hst, if_true]
    exact ⟨_, c1 ++ c2, Prod.ext rfl (Prod.ext rfl (by simp)), Or.inl ⟨rfl, by simp [hc1, hc2]⟩⟩
  simp only [hst, if_false]
  obtain ⟨c3, hc3, hb3⟩ := program_log_length_block_outcome d h (t1 ++ c1 ++ c2)
  rcases hb3 with ⟨n, hb3⟩ | ⟨m, hb3⟩
  swap
  · simp only [hb3]
    exact ⟨_, c1 ++ c2 ++ c3 ++ [GLCall.glDeleteProgram h],
      Prod.ext rfl (Prod.ext rfl (by simp)), Or.inr ⟨⟨_, rfl⟩, by simp [hc1, hc2, hc3]⟩⟩
  simp only [hb3]
  by_cases hn : n < 0
  · simp only [hn, if_true]
    exact ⟨_, c1 ++ c2 ++ c3 ++ [GLCall.glDeleteProgram h],
      Prod.ext rfl (Prod.ext rfl (by simp)), Or.inr ⟨⟨_, rfl⟩, by simp [hc1, hc2, hc3]⟩⟩
  simp only [hn, if_false]
  obtain ⟨c4, hc4, hb4⟩ := program_info_log_block_outcome d h n (t1 ++ c1 ++ c2 ++ c3)
  rcases hb4 with ⟨⟨rs, log⟩, hb4⟩ | ⟨m, hb4⟩
  swap
  · simp only [hb4]
    exact ⟨_, c1 ++ c2 ++ c3 ++ c4 ++ [GLCall.glDeleteProgram h],
      Prod.ext rfl (Prod.ext rfl (by simp)), Or.inr ⟨⟨_, rfl⟩, by simp [hc1, hc2, hc3, hc4]⟩⟩
  simp only [hb4]
  by_cases hrs : rs < 0
  · simp only [hrs, if_true]
    exact ⟨_, c1 ++ c2 ++ c3 ++ c4 ++ [GLCall.glDeleteProgram h],
      Prod.ext rfl (Prod.ext rfl (by simp)), Or.inr ⟨⟨_, rfl⟩, by simp [hc1, hc2, hc3, hc4]⟩⟩
  simp only [hrs, if_false]
  unfold CHECK_GL
  rcases check_error_cases d 362 (lit "glDeleteProgram(m_id)")
      (t1 ++ c1 ++ c2 ++ c3 ++ c4 ++ [GLCall.glDeleteProgram h]) with ⟨_, h5⟩ | ⟨_, m5, h5⟩
  · simp only [h5]
    exact ⟨_, c1 ++ c2 ++ c3 ++ c4 ++ [GLCall.glDeleteProgram h, GLCall.glGetError],
      Prod.ext rfl (Prod.ext rfl (by simp)), Or.inr ⟨⟨_, rfl⟩, by simp [hc1, hc2, hc3, hc4]⟩⟩
  · simp only [h5]
    exact ⟨_, c1 ++ c2 ++ c3 ++ c4 ++ [GLCall.glDeleteProgram h, GLCall.glGetError],
      Prod.ext rfl (Prod.ext rfl (by simp)), Or.inr ⟨⟨_, rfl⟩, by simp [hc1, hc2, hc3, hc4]⟩⟩


/-- C11: for every driver, once `glCreateProgram` has given the handle without a driver
error: `program::init` deletes the handle not at all when it returns and exactly once, by
`glDeleteProgram`, before it raises; and when attach, link and detach raise nothing, the link
status is not `GL_TRUE`, the queries raise nothing and the log length and the read size are
not negative, it raises, after the delete, an `open_gl_error` whose message is the log buffer
resized to `read_size`: the first `read_size` bytes the driver wrote. -/
theorem program_init_link_failure_frees_and_reports (d : Driver) (self : program)
    (vert frag : Nat) (t : Trace)
    (hcreate : d.glGetError (t ++ [GLCall.glCreateProgram, GLCall.glGetError]) = GL_NO_ERROR) :
    (∃ (res : Except Exn Unit) (calls : List GLCall),
      program.init d self vert frag t
        = (res, { m_id := d.glCreateProgram (t ++ [GLCall.glCreateProgram]) },
            t ++ [GLCall.glCreateProgram, GLCall.glGetError] ++ calls)
      ∧ ((res = .ok ()
          ∧ calls.count (GLCall.glDeleteProgram (d.glCreateProgram (t ++ [GLCall.glCreateProgram]))) = 0)
        ∨ ((∃ e, res = .error e)
          ∧ calls.count (GLCall.glDeleteProgram (d.glCreateProgram (t ++ [GLCall.glCreateProgram]))) = 1)))
    ∧ (∀ (t2 t3 t4 t5 : Trace) (st n rs : Int) (log : Str),
        program.link_block d (d.glCreateProgram (t ++ [GLCall.glCreateProgram])) vert frag
            (t ++ [GLCall.glCreateProgram, GLCall.glGetError]) = (.ok (), t2) →
        program.link_status_block d (d.glCreateProgram (t ++ [GLCall.glCreateProgram])) t2
          = (.ok st, t3) →
        st ≠ GL_TRUE →
        program.log_length_block d (d.glCreateProgram (t ++ [GLCall.glCreateProgram])) t3
          = (.ok n, t4) →
        0 ≤ n →
        program.info_log_block d (d.glCreateProgram (t ++ [GLCall.glCreateProgram])) n t4
          = (.ok (rs, log), t5) →
        0 ≤ rs →
        d.glGetError (t5 ++ [GLCall.glDeleteProgram
          (d.glCreateProgram (t ++ [GLCall.glCreateProgram])), GLCall.glGetError]) = GL_NO_ERROR →
        program.init d self vert frag t
          = (.error (.open_gl_error (str_resize log rs.toNat)),
              { m_id := d.glCreateProgram (t ++ [GLCall.glCreateProgram]) },
              t5 ++ [GLCall.glDeleteProgram (d.glCreateProgram (t ++ [GLCall.glCreateProgram])),
                GLCall.glGetError])
        ∧ (rs.toNat ≤ n.toNat →
            rs.toNat ≤ (d.glGetProgramInfoLog (t4 ++ [GLCall.glGetProgramInfoLog
              (d.glCreateProgram (t ++ [GLCall.glCreateProgram])) n])).2.length →
            str_resize log rs.toNat
              = (d.glGetProgramInfoLog (t4 ++ [GLCall.glGetProgramInfoLog
                  (d.glCreateProgram (t ++ [GLCall.glCreateProgram])) n])).2.take rs.toNat)) := by
  refine ⟨program_init_outcome d self vert frag t hcreate, ?_⟩
  intro t2 t3 t4 t5 st n rs log hlink hstatus hst hlen hn hlog hrs hdel
  have hc : check_error d 300 (lit "glCreateProgram") (t ++ [GLCall.glCreateProgram])
      = (.ok (), t ++ [GLCall.glCreateProgram, GLCall.glGetError]) := by
    rw [check_error_ok _ _ _ _ (by simpa using hcreate)]
    simp
  have hd : check_error d 362 (lit "glDeleteProgram(m_id)")
      (t5 ++ [GLCall.glDeleteProgram (d.glCreateProgram (t ++ [GLCall.glCreateProgram]))])
      = (.ok (), t5 ++ [GLCall.glDeleteProgram
          (d.glCreateProgram (t ++ [GLCall.glCreateProgram])), GLCall.glGetError]) := by
    rw [check_error_ok _ _ _ _ (by simpa using hdel)]
    simp
  have hn' : ¬ n < 0 := by omega
  have hrs' : ¬ rs < 0 := by omega
  constructor
  · unfold program.init
    simp only [hc, hlink, hstatus, hst, if_false, hlen, hn', hlog, hrs', CHECK_GL, hd]
  · intro h1 h2
    unfold program.info_log_block at hlog
    simp only at hlog
    split at hlog
    · simp at hlog
    · simp only [Prod.mk.injEq, Except.ok.injEq] at hlog
      rw [← hlog.1.2]
      unfold str_resize
      simp only [List.length_append, List.length_take, List.length_replicate]
      rw [List.take_append_of_le_length (by simp; omega), List.take_take]
      have : rs.toNat - (min n.toNat (d.glGetProgramInfoLog (t4 ++ [GLCall.glGetProgramInfoLog
          (d.glCreateProgram (t ++ [GLCall.glCreateProgram])) n])).2.length
          + (n.toNat - min n.toNat (d.glGetProgramInfoLog (t4 ++ [GLCall.glGetProgramInfoLog
          (d.glCreateProgram (t ++ [GLCall.glCreateProgram])) n])).2.length)) = 0 := by omega
      rw [this]
      simp [h1]

/-- A run of C11: no program links; the driver reports a log of length 12 and writes the 11
bytes of `link failed` and a zero; `init` raises an `open_gl_error` that carries them. -/
theorem program_init_link_failure_frees_and_reports_witness :
    link_failure_driver.glGetError ([] ++ [GLCall.glCreateProgram, GLCall.glGetError])
      = GL_NO_ERROR
    ∧ (program.init link_failure_driver {} 46 54 []).1
      = .error (.open_gl_error (lit "link failed")) :=
  ⟨rfl, (congrArg Prod.fst
    ((program_init_link_failure_frees_and_reports link_failure_driver {} 46 54 [] rfl).2
      _ _ _ _ 0 12 11 _ rfl rfl (by decide) rfl (by decide) rfl (by decide) rfl).1).trans rfl⟩


/-- The destruction routine of a framebuffer starts with `glDeleteFramebuffers` on its
framebuffer and makes that call once; when it returns, it has made all its deletes in order. -/
theorem framebuffer_cleanup_impl_calls (d : Driver) (HasDepth : Bool) (self : framebuffer)
    (t : Trace) :
    ∃ calls : List GLCall, (framebuffer.cleanup_impl d HasDepth self t).2 = t ++ calls
      ∧ calls.count (GLCall.glDeleteFramebuffers 1 [self.m_framebuffer]) = 1
      ∧ ((framebuffer.cleanup_impl d HasDepth self t).1 = .ok () →
          calls = [GLCall.glDeleteFramebuffers 1 [self.m_framebuffer], GLCall.glGetError,
                    GLCall.glDeleteTextures 1 [self.m_texture], GLCall.glGetError]
                  ++ (if HasDepth then
                        [GLCall.glDeleteRenderbuffers 1 [self.m_renderbuffer], GLCall.glGetError]
                      else [])) := by
  unfold framebuffer.cleanup_impl
  rcases check_error_cases d 193 (lit "glDeleteFramebuffers(1, &m_framebuffer)")
      (t ++ [GLCall.glDeleteFramebuffers 1 [self.m_framebuffer]]) with ⟨_, h1⟩ | ⟨_, m1, h1⟩
  swap
  · refine ⟨[GLCall.glDeleteFramebuffers 1 [self.m_framebuffer], GLCall.glGetError], ?_, ?_, ?_⟩
    · cases HasDepth <;> (simp only [run_checked, CHECK_GL, h1, reduceIte, List.cons_append, List.nil_append, Bool.false_eq_true]; simp)
    · simp
    · cases HasDepth <;> (simp only [run_checked, CHECK_GL, h1, reduceIte, List.cons_append, List.nil_append, Bool.false_eq_true]; simp)
  rcases check_error_cases d 194 (lit "glDeleteTextures(1, &m_texture)")
      (t ++ [GLCall.glDeleteFramebuffers 1 [self.m_framebuffer]] ++ [GLCall.glGetError]
        ++ [GLCall.glDeleteTextures 1 [self.m_texture]]) with ⟨_, h2⟩ | ⟨_, m2, h2⟩
  swap
  · refine ⟨[GLCall.glDeleteFramebuffers 1 [self.m_framebuffer], GLCall.glGetError,
      GLCall.glDeleteTextures 1 [self.m_texture], GLCall.glGetError], ?_, ?_, ?_⟩
    · cases HasDepth <;> (simp only [run_checked, CHECK_GL, h1, h2, reduceIte, List.cons_append, List.nil_append, Bool.false_eq_true]; simp)
    · simp
    · cases HasDepth <;> (simp only [run_checked, CHECK_GL, h1, h2, reduceIte, List.cons_append, List.nil_append, Bool.false_eq_true]; simp)
  cases HasDepth with
  | false =>
    refine ⟨[GLCall.glDeleteFramebuffers 1 [self.m_framebuffer], GLCall.glGetError,
      GLCall.glDeleteTextures 1 [self.m_texture], GLCall.glGetError], ?_, ?_, ?_⟩
    · (simp only [run_checked, CHECK_GL, h1, h2, reduceIte, List.cons_append, List.nil_append, Bool.false_eq_true]; simp)
    · simp
    · simp
  | true =>
    rcases check_error_cases d 196 (lit "glDeleteRenderbuffers(1, &m_renderbuffer)")
        (t ++ [GLCall.glDeleteFramebuffers 1 [self.m_framebuffer]] ++ [GLCall.glGetError]
          ++ [GLCall.glDeleteTextures 1 [self.m_texture]] ++ [GLCall.glGetError]
          ++ [GLCall.glDeleteRenderbuffers 1 [self.m_renderbuffer]]) with ⟨_, h3⟩ | ⟨_, m3, h3⟩
    · refine ⟨[GLCall.glDeleteFramebuffers 1 [self.m_framebuffer], GLCall.glGetError,
        GLCall.glDeleteTextures 1 [self.m_texture], GLCall.glGetError,
        GLCall.glDeleteRenderbuffers 1 [self.m_renderbuffer], GLCall.glGetError], ?_, ?_, ?_⟩
      · (simp only [run_checked, CHECK_GL, h1, h2, h3, reduceIte, List.cons_append, List.nil_append, Bool.false_eq_true]; simp)
      · simp
      · simp
    · refine ⟨[GLCall.glDeleteFramebuffers 1 [self.m_framebuffer], GLCall.glGetError,
        GLCall.glDeleteTextures 1 [self.m_texture], GLCall.glGetError,
        GLCall.glDeleteRenderbuffers 1 [self.m_renderbuffer], GLCall.glGetError], ?_, ?_, ?_⟩
      · (simp only [run_checked, CHECK_GL, h1, h2, h3, reduceIte, List.cons_append, List.nil_append, Bool.false_eq_true]; simp)
      · simp
      · (simp only [run_checked, CHECK_GL, h1, h2, h3, reduceIte, List.cons_append, List.nil_append, Bool.false_eq_true]; simp)

/-- C15 fails as stated: on a driver whose `glDeleteFramebuffers` reports an error, `init()`
of a fresh framebuffer with depth returns and marks it initialized; the `cleanup()` that
follows runs the destruction routine, which raises at its first check, and the object is left
marked initialized, not uninitialized; a later `cleanup()` therefore runs the destruction
routine again and calls `glDeleteFramebuffers` a second time. -/
theorem framebuffer_cleanup_raise_stays_initialized :
    framebuffer.init delete_failure_driver true {} []
      = (.ok (), { m_initialized := true, m_framebuffer := 5, m_renderbuffer := 3, m_texture := 1 },
          [GLCall.glGenTextures 1, GLCall.glGetError, GLCall.glGenRenderbuffers 1,
            GLCall.glGetError, GLCall.glGenFramebuffers 1, GLCall.glGetError])
    ∧ returns_normally (framebuffer.cleanup delete_failure_driver true
        (framebuffer.init delete_failure_driver true {} []).2.1
        (framebuffer.init delete_failure_driver true {} []).2.2).1 = false
    ∧ (framebuffer.cleanup delete_failure_driver true
        (framebuffer.init delete_failure_driver true {} []).2.1
        (framebuffer.init delete_failure_driver true {} []).2.2).2.1
      = { m_initialized := true, m_framebuffer := 5, m_renderbuffer := 3, m_texture := 1 }
    ∧ (framebuffer.cleanup delete_failure_driver true
        (framebuffer.init delete_failure_driver true {} []).2.1
        (framebuffer.init delete_failure_driver true {} []).2.2).2.2
      = [GLCall.glGenTextures 1, GLCall.glGetError, GLCall.glGenRenderbuffers 1,
          GLCall.glGetError, GLCall.glGenFramebuffers 1, GLCall.glGetError,
          GLCall.glDeleteFramebuffers 1 [5], GLCall.glGetError]
    ∧ (framebuffer.cleanup delete_failure_driver true
        { m_initialized := true, m_framebuffer := 5, m_renderbuffer := 3, m_texture := 1 }
        [GLCall.glGenTextures 1, GLCall.glGetError, GLCall.glGenRenderbuffers 1,
          GLCall.glGetError, GLCall.glGenFramebuffers 1, GLCall.glGetError,
          GLCall.glDeleteFramebuffers 1 [5], GLCall.glGetError]).2.2
      = [GLCall.glGenTextures 1, GLCall.glGetError, GLCall.glGenRenderbuffers 1,
          GLCall.glGetError, GLCall.glGenFramebuffers 1, GLCall.glGetError,
          GLCall.glDeleteFramebuffers 1 [5], GLCall.glGetError,
          GLCall.glDeleteFramebuffers 1 [5], GLCall.glGetError] := by
  decide

/-- The creation routine of a framebuffer returns on a driver that reports no error. -/
theorem framebuffer_init_impl_ok_of (d : Driver) (hok : ∀ tr, d.glGetError tr = GL_NO_ERROR)
    (HasDepth : Bool) (self : framebuffer) (t : Trace) :
    (framebuffer.init_impl d HasDepth self t).1 = .ok () := by
  have hc : ∀ (line : Nat) (code : Str) (tr : Trace),
      check_error d line code tr = (.ok (), tr ++ [GLCall.glGetError]) :=
    fun line code tr => check_error_ok d line code tr (hok _)
  cases HasDepth <;> simp [framebuffer.init_impl, hc]

/-- C15, as the code has it: for a framebuffer (the object that follows the wrapper
`gl_object`), every driver and every trace. `cleanup()` on an object that is not initialized
makes no call and changes nothing. On an initialized object `cleanup()` is one run of the
destruction routine (its outcome and its calls, with one `glDeleteFramebuffers` on its
framebuffer); when no delete of the routine reports a driver error, `cleanup()` returns, has
made all the deletes in order and has marked the object uninitialized; when `cleanup()`
returns, the object is marked uninitialized, the deletes are all made and a further
`cleanup()` does nothing; when `cleanup()` raises, the object is unchanged, still marked
initialized. `cleanup(); cleanup()` is `cleanup()`: same outcome, same object, same calls.
An `init()` on a fresh object leaves it uninitialized when the creation routine raises and
marks it initialized when it returns, and it returns when the driver reports no error. -/
theorem framebuffer_cleanup_once_and_idempotent (d : Driver) (HasDepth : Bool)
    (self : framebuffer) (t : Trace) :
    (self.m_initialized = false → framebuffer.cleanup d HasDepth self t = (.ok (), self, t))
    ∧ (self.m_initialized = true →
        (framebuffer.cleanup d HasDepth self t).1 = (framebuffer.cleanup_impl d HasDepth self t).1
        ∧ (framebuffer.cleanup d HasDepth self t).2.2
            = (framebuffer.cleanup_impl d HasDepth self t).2
        ∧ (d.glGetError (t ++ [GLCall.glDeleteFramebuffers 1 [self.m_framebuffer],
              GLCall.glGetError]) = GL_NO_ERROR →
            d.glGetError (t ++ [GLCall.glDeleteFramebuffers 1 [self.m_framebuffer],
              GLCall.glGetError, GLCall.glDeleteTextures 1 [self.m_texture],
              GLCall.glGetError]) = GL_NO_ERROR →
            (HasDepth = true →
              d.glGetError (t ++ [GLCall.glDeleteFramebuffers 1 [self.m_framebuffer],
                GLCall.glGetError, GLCall.glDeleteTextures 1 [self.m_texture],
                GLCall.glGetError, GLCall.glDeleteRenderbuffers 1 [self.m_renderbuffer],
                GLCall.glGetError]) = GL_NO_ERROR) →
            framebuffer.cleanup d HasDepth self t
              = (.ok (), { self with m_initialized := false },
                  t ++ ([GLCall.glDeleteFramebuffers 1 [self.m_framebuffer], GLCall.glGetError,
                          GLCall.glDeleteTextures 1 [self.m_texture], GLCall.glGetError]
                        ++ (if HasDepth then
                              [GLCall.glDeleteRenderbuffers 1 [self.m_renderbuffer],
                                GLCall.glGetError]
                            else []))))
        ∧ (∀ e, (framebuffer.cleanup d HasDepth self t).1 = .error e →
            (framebuffer.cleanup d HasDepth self t).2.1 = self)
        ∧ ((framebuffer.cleanup d HasDepth self t).1 = .ok () →
            framebuffer.cleanup d HasDepth (framebuffer.cleanup d HasDepth self t).2.1
                (framebuffer.cleanup d HasDepth self t).2.2
              = (.ok (), (framebuffer.cleanup d HasDepth self t).2.1,
                  (framebuffer.cleanup d HasDepth self t).2.2))
        ∧ ∃ calls : List GLCall, (framebuffer.cleanup d HasDepth self t).2.2 = t ++ calls
          ∧ calls.count (GLCall.glDeleteFramebuffers 1 [self.m_framebuffer]) = 1
          ∧ ((framebuffer.cleanup d HasDepth self t).1 = .ok () →
              (framebuffer.cleanup d HasDepth self t).2.1 = { self with m_initialized := false }
              ∧ calls = [GLCall.glDeleteFramebuffers 1 [self.m_framebuffer], GLCall.glGetError,
                          GLCall.glDeleteTextures 1 [self.m_texture], GLCall.glGetError]
                        ++ (if HasDepth then
                              [GLCall.glDeleteRenderbuffers 1 [self.m_renderbuffer],
                                GLCall.glGetError]
                            else [])))
    ∧ twice (framebuffer.cleanup d HasDepth) self t = framebuffer.cleanup d HasDepth self t
    ∧ (self.m_initialized = false →
        (∀ e, (framebuffer.init d HasDepth self t).1 = .error e →
          (framebuffer.init d HasDepth self t).2.1.m_initialized = false)
        ∧ ((framebuffer.init d HasDepth self t).1 = .ok () →
          (framebuffer.init d HasDepth self t).2.1.m_initialized = true)
        ∧ ((∀ tr, d.glGetError tr = GL_NO_ERROR) →
          (framebuffer.init d HasDepth self t).1 = .ok ())) := by
  refine ⟨?_, ?_, ?_, ?_⟩
  · intro h
    simp [framebuffer.cleanup, gl_object.cleanup, h]
  · intro h
    refine ⟨?_, ?_, ?_, ?_, ?_, ?_⟩
    · rcases hr : framebuffer.cleanup_impl d HasDepth self t with ⟨r, t1⟩
      cases r <;> simp [framebuffer.cleanup, gl_object.cleanup, h, hr]
    · rcases hr : framebuffer.cleanup_impl d HasDepth self t with ⟨r, t1⟩
      cases r <;> simp [framebuffer.cleanup, gl_object.cleanup, h, hr]
    · intro g1 g2 g3
      have k1 := check_error_ok d 193 (lit "glDeleteFramebuffers(1, &m_framebuffer)")
        (t ++ [GLCall.glDeleteFramebuffers 1 [self.m_framebuffer]]) (by simpa using g1)
      have k2 := check_error_ok d 194 (lit "glDeleteTextures(1, &m_texture)")
        (t ++ [GLCall.glDeleteFramebuffers 1 [self.m_framebuffer]] ++ [GLCall.glGetError]
          ++ [GLCall.glDeleteTextures 1 [self.m_texture]]) (by simpa using g2)
      cases HasDepth with
      | false =>
        simp only [framebuffer.cleanup, gl_object.cleanup, h, framebuffer.cleanup_impl,
          run_checked, CHECK_GL, k1, k2, reduceIte, List.cons_append, List.nil_append,
          Bool.false_eq_true, List.append_nil]
        simp
      | true =>
        have k3 := check_error_ok d 196 (lit "glDeleteRenderbuffers(1, &m_renderbuffer)")
          (t ++ [GLCall.glDeleteFramebuffers 1 [self.m_framebuffer]] ++ [GLCall.glGetError]
            ++ [GLCall.glDeleteTextures 1 [self.m_texture]] ++ [GLCall.glGetError]
            ++ [GLCall.glDeleteRenderbuffers 1 [self.m_renderbuffer]])
          (by simpa using g3 rfl)
        simp only [framebuffer.cleanup, gl_object.cleanup, h, framebuffer.cleanup_impl,
          run_checked, CHECK_GL, k1, k2, k3, reduceIte, List.cons_append, List.nil_append,
          Bool.false_eq_true, List.append_nil]
        simp
    · intro e he
      rcases hr : framebuffer.cleanup_impl d HasDepth self t with ⟨r, t1⟩
      cases r with
      | error e2 => simp [framebuffer.cleanup, gl_object.cleanup, h, hr]
      | ok u => simp [framebuffer.cleanup, gl_object.cleanup, h, hr] at he
    · intro hok
      rcases hr : framebuffer.cleanup_impl d HasDepth self t with ⟨r, t1⟩
      cases r with
      | error e2 => simp [framebuffer.cleanup, gl_object.cleanup, h, hr] at hok
      | ok u => simp [framebuffer.cleanup, gl_object.cleanup, h, hr]
    · obtain ⟨calls, h1, h2, h3⟩ := framebuffer_cleanup_impl_calls d HasDepth self t
      refine ⟨calls, ?_, h2, ?_⟩
      · simp only [framebuffer.cleanup, gl_object.cleanup, h, if_true]
        rw [← h1]
        split <;> simp_all
      · simp only [framebuffer.cleanup, gl_object.cleanup, h, if_true]
        split
        · intro hcon
          simp at hcon
        · rename_i heq
          intro _
          refine ⟨rfl, h3 ?_⟩
          rw [heq]
  · by_cases h : self.m_initialized = true
    · rcases hr : framebuffer.cleanup_impl d HasDepth self t with ⟨r, t1⟩
      cases r with
      | error e => simp [twice, framebuffer.cleanup, gl_object.cleanup, h, hr]
      | ok u => simp [twice, framebuffer.cleanup, gl_object.cleanup, h, hr]
    · simp [twice, framebuffer.cleanup, gl_object.cleanup, h]
  · intro h
    refine ⟨?_, ?_, ?_⟩
    · intro e he
      unfold framebuffer.init gl_object.init at he ⊢
      split at he <;> simp_all
    · intro hok
      unfold framebuffer.init gl_object.init at hok ⊢
      split at hok <;> simp_all
    · intro hok
      have hi := framebuffer_init_impl_ok_of d hok HasDepth self t
      unfold framebuffer.init gl_object.init
      split
      · rename_i heq
        rw [heq] at hi
        simp at hi
      · rfl

/-- A run of C15: a fresh framebuffer with depth on the driver whose calls all succeed. Its
`cleanup()` before `init()` does nothing; `init()` returns and marks it initialized; the
`cleanup()` that follows returns, has made the three deletes with their checks and has
marked the object uninitialized; one more `cleanup()` makes no call and changes nothing. -/
theorem framebuffer_cleanup_once_and_idempotent_witness :
    framebuffer.cleanup ok_driver true {} [] = (.ok (), {}, [])
    ∧ framebuffer.init ok_driver true {} []
      = (.ok (), { m_initialized := true, m_framebuffer := 5, m_renderbuffer := 3, m_texture := 1 },
          [GLCall.glGenTextures 1, GLCall.glGetError, GLCall.glGenRenderbuffers 1,
            GLCall.glGetError, GLCall.glGenFramebuffers 1, GLCall.glGetError])
    ∧ framebuffer.cleanup ok_driver true
        { m_initialized := true, m_framebuffer := 5, m_renderbuffer := 3, m_texture := 1 }
        [GLCall.glGenTextures 1, GLCall.glGetError, GLCall.glGenRenderbuffers 1,
          GLCall.glGetError, GLCall.glGenFramebuffers 1, GLCall.glGetError]
      = (.ok (), { m_initialized := false, m_framebuffer := 5, m_renderbuffer := 3, m_texture := 1 },
          [GLCall.glGenTextures 1, GLCall.glGetError, GLCall.glGenRenderbuffers 1,
            GLCall.glGetError, GLCall.glGenFramebuffers 1, GLCall.glGetError,
            GLCall.glDeleteFramebuffers 1 [5], GLCall.glGetError,
            GLCall.glDeleteTextures 1 [1], GLCall.glGetError,
            GLCall.glDeleteRenderbuffers 1 [3], GLCall.glGetError])
    ∧ framebuffer.cleanup ok_driver true
        { m_initialized := false, m_framebuffer := 5, m_renderbuffer := 3, m_texture := 1 }
        [GLCall.glGenTextures 1, GLCall.glGetError, GLCall.glGenRenderbuffers 1,
          GLCall.glGetError, GLCall.glGenFramebuffers 1, GLCall.glGetError,
          GLCall.glDeleteFramebuffers 1 [5], GLCall.glGetError,
          GLCall.glDeleteTextures 1 [1], GLCall.glGetError,
          GLCall.glDeleteRenderbuffers 1 [3], GLCall.glGetError]
      = (.ok (), { m_initialized := false, m_framebuffer := 5, m_renderbuffer := 3, m_texture := 1 },
          [GLCall.glGenTextures 1, GLCall.glGetError, GLCall.glGenRenderbuffers 1,
            GLCall.glGetError, GLCall.glGenFramebuffers 1, GLCall.glGetError,
            GLCall.glDeleteFramebuffers 1 [5], GLCall.glGetError,
            GLCall.glDeleteTextures 1 [1], GLCall.glGetError,
            GLCall.glDeleteRenderbuffers 1 [3], GLCall.glGetError]) :=
  ⟨(framebuffer_cleanup_once_and_idempotent ok_driver true {} []).1 rfl,
    rfl,
    ((framebuffer_cleanup_once_and_idempotent ok_driver true
        { m_initialized := true, m_framebuffer := 5, m_renderbuffer := 3, m_texture := 1 }
        [GLCall.glGenTextures 1, GLCall.glGetError, GLCall.glGenRenderbuffers 1,
          GLCall.glGetError, GLCall.glGenFramebuffers 1, GLCall.glGetError]).2.1 rfl).2.2.1
      rfl rfl (fun _ => rfl),
    (framebuffer_cleanup_once_and_idempotent ok_driver true
        { m_initialized := false, m_framebuffer := 5, m_renderbuffer := 3, m_texture := 1 }
        [GLCall.glGenTextures 1, GLCall.glGetError, GLCall.glGenRenderbuffers 1,
          GLCall.glGetError, GLCall.glGenFramebuffers 1, GLCall.glGetError,
          GLCall.glDeleteFramebuffers 1 [5], GLCall.glGetError,
          GLCall.glDeleteTextures 1 [1], GLCall.glGetError,
          GLCall.glDeleteRenderbuffers 1 [3], GLCall.glGetError]).1 rfl⟩

/-- C17 fails as stated: a shader of handle 7 cleaned up twice gets two `glDeleteShader 7`, not
one; a shader and a program that were never initialized get a delete call on handle 0. -/
theorem shader_cleanup_twice_deletes_twice :
    shader.cleanup { m_id := 7 } (shader.cleanup { m_id := 7 } [])
      = [GLCall.glDeleteShader 7, GLCall.glDeleteShader 7]
    ∧ shader.cleanup { m_id := 7 } (shader.cleanup { m_id := 7 } [])
      ≠ shader.cleanup { m_id := 7 } []
    ∧ program.cleanup { m_id := 7 } (program.cleanup { m_id := 7 } [])
      ≠ program.cleanup { m_id := 7 } []
    ∧ shader.cleanup {} [] = [GLCall.glDeleteShader 0]
    ∧ program.cleanup {} [] = [GLCall.glDeleteProgram 0] := by
  decide

/-- C17, as the code has it: every `cleanup()` of a shader or of a program makes exactly one
call, `glDeleteShader` or `glDeleteProgram` on the handle the object holds (0 for an object
that was never initialized), so that two in a row make that call twice. -/
theorem shader_and_program_cleanup_always_delete (s : shader) (p : program) (t : Trace) :
    shader.cleanup s t = t ++ [GLCall.glDeleteShader s.m_id]
    ∧ program.cleanup p t = t ++ [GLCall.glDeleteProgram p.m_id]
    ∧ shader.cleanup s (shader.cleanup s t)
      = t ++ [GLCall.glDeleteShader s.m_id, GLCall.glDeleteShader s.m_id]
    ∧ program.cleanup p (program.cleanup p t)
      = t ++ [GLCall.glDeleteProgram p.m_id, GLCall.glDeleteProgram p.m_id]
    ∧ ({} : shader).m_id = 0 ∧ ({} : program).m_id = 0 := by
  simp [shader.cleanup, program.cleanup]


set_option maxRecDepth 1000000 in
/-- C12 at a failing input: on a driver every call of which succeeds and no program of which
links, `program::init` raises `open_gl_error` (`link failed`) for the skybox program and for
the mesh program, and the constructor returns normally: the two errors are swallowed. -/
theorem construction_completes_after_link_failure :
    returns_normally (session_impl.construct link_failure_driver plain_assets white_pixel []).1
      = true
    ∧ program.init link_failure_driver {} 46 54
        ((session_impl.construct link_failure_driver plain_assets white_pixel []).2.take 61)
      = (.error (.open_gl_error (lit "link failed")), { m_id := 62 },
          (session_impl.construct link_failure_driver plain_assets white_pixel []).2.take 81)
    ∧ program.init link_failure_driver {} 86 94
        ((session_impl.construct link_failure_driver plain_assets white_pixel []).2.take 101)
      = (.error (.open_gl_error (lit "link failed")), { m_id := 102 },
          (session_impl.construct link_failure_driver plain_assets white_pixel []).2.take 121) := by
  decide


set_option maxRecDepth 1000000 in
/-- C13 at two failing inputs. When no program links (every other call succeeding),
`program::init` raises and the constructor exits with the three handles of each framebuffer,
the skybox texture and the buffer of the screen quad alive. When the first
`glGenRenderbuffers` fails, the constructor raises and the texture that the color framebuffer
had generated stays alive. -/
theorem construction_failure_leaves_handles_alive :
    returns_normally (session_impl.construct link_failure_driver plain_assets white_pixel []).1
      = true
    ∧ (program.init link_failure_driver {} 46 54
        ((session_impl.construct link_failure_driver plain_assets white_pixel []).2.take 61)).1
      = .error (.open_gl_error (lit "link failed"))
    ∧ live_handles link_failure_driver
        (session_impl.construct link_failure_driver plain_assets white_pixel []).2
      = [(.texture, 1), (.renderbuffer, 3), (.framebuffer, 5), (.texture, 7),
         (.renderbuffer, 9), (.framebuffer, 11), (.texture, 13), (.buffer, 42)]
    ∧ returns_normally
        (session_impl.construct renderbuffer_failure_driver plain_assets white_pixel []).1 = false
    ∧ live_handles renderbuffer_failure_driver
        (session_impl.construct renderbuffer_failure_driver plain_assets white_pixel []).2
      = [(.texture, 1)] := by
  decide

set_option maxRecDepth 1000000 in
/-- C14 at a failing input: a shape of two meshes, and a driver whose second `glGenBuffers`
fails. The check after that call raises, the handler calls `glDeleteBuffers(0, ...)`, which
releases nothing, and swallows the error: `load_obj` returns the file id 0, and the buffer of
mesh 0 stays alive. -/
theorem buffer_creation_failure_is_swallowed :
    (session_impl.load_obj second_buffer_failure_driver {} (lit "scene.obj")
        (some two_mesh_reader) []).1 = .ok 0
    ∧ returns_normally (check_error second_buffer_failure_driver 693
        (lit "glGenBuffers(1, &shp.meshes.at(j))")
        ((session_impl.load_obj second_buffer_failure_driver {} (lit "scene.obj")
          (some two_mesh_reader) []).2.2.take 7)).1 = false
    ∧ (session_impl.load_obj second_buffer_failure_driver {} (lit "scene.obj")
        (some two_mesh_reader) []).2.2[8]? = some (GLCall.glDeleteBuffers 0 [])
    ∧ live_handles second_buffer_failure_driver
        (session_impl.load_obj second_buffer_failure_driver {} (lit "scene.obj")
          (some two_mesh_reader) []).2.2 = [(.buffer, 1)] := by
  decide

set_option maxRecDepth 1000000 in
/-- C16 fails as stated: a session is built on the driver whose calls all succeed, the scene
`Ground`, `Suzanne` is loaded and `Ground` (one mesh of 3 vertices) is instantiated;
`render` of this one instance calls `glClear` twice, not once, and its only draw is the one
of the 6 vertices of the skybox. -/
theorem render_clears_twice :
    returns_normally (session_impl.construct ok_driver plain_assets white_pixel []).1 = true
    ∧ session_impl.instance_of demo_session.1 0 (lit "Ground") = .ok demo_instance
    ∧ (IntMap.at demo_session.1.m_gl_obj_files 0).map
        (fun f => f.shapes.map (fun shp => shp.num_vertices)) = some [[3], [3]]
    ∧ (session_impl.render_current_fbo ok_driver identity_rotation demo_session.1 {}
        [demo_instance] demo_session.2).1 = .ok ()
    ∧ clear_calls ((session_impl.render_current_fbo ok_driver identity_rotation demo_session.1 {}
        [demo_instance] demo_session.2).2.drop demo_session.2.length)
      = [GLCall.glClear (GL_COLOR_BUFFER_BIT ||| GL_DEPTH_BUFFER_BIT),
         GLCall.glClear GL_DEPTH_BUFFER_BIT]
    ∧ (clear_calls ((session_impl.render_current_fbo ok_driver identity_rotation demo_session.1
        {} [demo_instance] demo_session.2).2.drop demo_session.2.length)).length ≠ 1
    ∧ draw_calls ((session_impl.render_current_fbo ok_driver identity_rotation demo_session.1 {}
        [demo_instance] demo_session.2).2.drop demo_session.2.length)
      = [GLCall.glDrawArrays GL_TRIANGLES 0 6] := by
  decide


theorem check_error_ok_of (d : Driver) (hok : ∀ tr, d.glGetError tr = GL_NO_ERROR) (line : Nat)
    (code : Str) (t : Trace) : check_error d line code t = (.ok (), t ++ [GLCall.glGetError]) :=
  check_error_ok d line code t (hok _)

theorem CHECK_GL_ok_of (d : Driver) (hok : ∀ tr, d.glGetError tr = GL_NO_ERROR) (stmt : GLCall)
    (line : Nat) (code : Str) (t : Trace) :
    CHECK_GL d stmt line code t = (.ok (), t ++ [stmt, GLCall.glGetError]) := by
  unfold CHECK_GL
  rw [check_error_ok_of d hok]
  simp

theorem run_checked_ok_of (d : Driver) (hok : ∀ tr, d.glGetError tr = GL_NO_ERROR)
    (cs : List (GLCall × Nat × Str)) :
    ∀ t : Trace, run_checked d cs t = (.ok (), t ++ checked_calls cs) := by
  induction cs with
  | nil => intro t; simp [run_checked, checked_calls]
  | cons x rest ih =>
    intro t
    obtain ⟨stmt, line, code⟩ := x
    simp only [run_checked, CHECK_GL_ok_of d hok, ih, checked_calls]
    simp

theorem render_instances_fold (self : session_impl) (instances : List mesh_instance) :
    ∀ t : Trace,
      instances.foldl (fun tr inst => session_impl.render_instance self inst tr) t = t := by
  induction instances with
  | nil => intro t; rfl
  | cons x rest ih => intro t; exact ih _

/-- The clears, the skybox draw and the arrays of `render`: on a driver every call of which
succeeds `render` returns
normally, calls `glClear` exactly twice, makes one draw (the skybox) between the two, and
leaves no vertex attribute array enabled. -/
theorem render_clears_draw_and_arrays (d : Driver)
    (hok : ∀ tr, d.glGetError tr = GL_NO_ERROR) (glm_rotation : camera → List GLfloat)
    (self : session_impl) (cam : camera) (instances : List mesh_instance) (t : Trace) :
    (session_impl.render_current_fbo d glm_rotation self cam instances t).1 = .ok ()
    ∧ clear_calls
        ((session_impl.render_current_fbo d glm_rotation self cam instances t).2.drop t.length)
      = [GLCall.glClear (GL_COLOR_BUFFER_BIT ||| GL_DEPTH_BUFFER_BIT),
         GLCall.glClear GL_DEPTH_BUFFER_BIT]
    ∧ draw_calls (before_first_clear (after_first_clear
        ((session_impl.render_current_fbo d glm_rotation self cam instances t).2.drop t.length)))
      = [GLCall.glDrawArrays GL_TRIANGLES 0 6]
    ∧ enabled_arrays []
        ((session_impl.render_current_fbo d glm_rotation self cam instances t).2.drop t.length)
      = [] := by
  simp only [session_impl.render_current_fbo, session_impl.render_skybox, program.use,
    program.get_attribute_location, program.get_uniform_location, run_checked_ok_of d hok,
    CHECK_GL_ok_of d hok, render_instances_fold, checked_calls, List.append_assoc,
    List.cons_append, List.nil_append, List.drop_left]
  generalize d.glGetAttribLocation _ = p1
  generalize d.glGetAttribLocation _ = p2
  generalize d.glGetAttribLocation _ = p3
  generalize d.glGetAttribLocation _ = p4
  generalize d.glGetUniformLocation _ = u1
  generalize d.glGetUniformLocation _ = u2
  generalize d.glGetUniformLocation _ = u3
  generalize lit _ = s1
  generalize lit _ = s2
  generalize lit _ = s3
  generalize lit _ = s4
  generalize lit _ = s5
  generalize lit _ = s6
  generalize glm_rotation cam = rot
  refine ⟨trivial, ?_, ?_, ?_⟩
  · simp only [clear_calls, List.filter]
  · simp only [after_first_clear, before_first_clear, draw_calls, List.filter]
  · simp only [enabled_arrays]
    have h1 : List.filter (fun j => decide (j ≠ p1)) [p1] = [] := by simp
    rw [h1, List.filter_eq_nil_iff]
    intro a ha
    simp only [List.mem_filter, List.mem_cons, List.mem_nil_iff, or_false, ne_eq, decide_not,
      Bool.not_eq_true', decide_eq_false_iff_not] at ha
    simp only [ne_eq, decide_not, Bool.not_eq_true', decide_eq_false_iff_not, not_not]
    omega

/-- C16, as the code has it: on a driver every call of which succeeds, for every session,
camera and list of instances, `render` returns normally; it calls `glClear` exactly twice
(color and depth before the skybox, depth after it); between the two it makes exactly one
draw, of the 6 vertices of the skybox; no vertex attribute array is left enabled, whatever
the number of instances. The arrays of the mesh pass are enabled before the loop over the
instances and disabled after it: the trace of `render` is the trace `before_loop`, then the
calls of the loop body for each instance, then the three checked
`glDisableVertexAttribArray` of the locations of `position`, `texcoord` and `normal`; these
locations are the answers the mesh program got from the driver in this run, before the loop;
and in `before_loop` the calls on attribute arrays that follow the second `glClear` are the
three `glEnableVertexAttribArray` of these locations, in this order. -/
theorem render_two_clears_one_skybox_draw_no_array_left (d : Driver)
    (hok : ∀ tr, d.glGetError tr = GL_NO_ERROR) (glm_rotation : camera → List GLfloat)
    (self : session_impl) (cam : camera) (instances : List mesh_instance) (t : Trace) :
    (session_impl.render_current_fbo d glm_rotation self cam instances t).1 = .ok ()
    ∧ clear_calls
        ((session_impl.render_current_fbo d glm_rotation self cam instances t).2.drop t.length)
      = [GLCall.glClear (GL_COLOR_BUFFER_BIT ||| GL_DEPTH_BUFFER_BIT),
         GLCall.glClear GL_DEPTH_BUFFER_BIT]
    ∧ draw_calls (before_first_clear (after_first_clear
        ((session_impl.render_current_fbo d glm_rotation self cam instances t).2.drop t.length)))
      = [GLCall.glDrawArrays GL_TRIANGLES 0 6]
    ∧ enabled_arrays []
        ((session_impl.render_current_fbo d glm_rotation self cam instances t).2.drop t.length)
      = []
    ∧ ∃ (before_loop tr_pos tr_tex tr_nrm : Trace),
        (session_impl.render_current_fbo d glm_rotation self cam instances t).2
          = instances.foldl (fun tr inst => session_impl.render_instance self inst tr) before_loop
            ++ [GLCall.glDisableVertexAttribArray
                  (self.m_mesh_color_program.get_attribute_location d (lit "position") tr_pos).1,
                GLCall.glGetError,
                GLCall.glDisableVertexAttribArray
                  (self.m_mesh_color_program.get_attribute_location d (lit "texcoord") tr_tex).1,
                GLCall.glGetError,
                GLCall.glDisableVertexAttribArray
                  (self.m_mesh_color_program.get_attribute_location d (lit "normal") tr_nrm).1,
                GLCall.glGetError]
        ∧ t <+: tr_pos
        ∧ (self.m_mesh_color_program.get_attribute_location d (lit "position") tr_pos).2
            <+: before_loop
        ∧ (self.m_mesh_color_program.get_attribute_location d (lit "texcoord") tr_tex).2
            <+: before_loop
        ∧ (self.m_mesh_color_program.get_attribute_location d (lit "normal") tr_nrm).2
            <+: before_loop
        ∧ attrib_array_calls (after_first_clear (after_first_clear (before_loop.drop t.length)))
          = [GLCall.glEnableVertexAttribArray
               (self.m_mesh_color_program.get_attribute_location d (lit "position") tr_pos).1,
             GLCall.glEnableVertexAttribArray
               (self.m_mesh_color_program.get_attribute_location d (lit "texcoord") tr_tex).1,
             GLCall.glEnableVertexAttribArray
               (self.m_mesh_color_program.get_attribute_location d (lit "normal") tr_nrm).1] := by
  have h4 := render_clears_draw_and_arrays d hok glm_rotation self cam instances t
  refine ⟨h4.1, h4.2.1, h4.2.2.1, h4.2.2.2, ?_⟩
  simp only [session_impl.render_current_fbo, session_impl.render_skybox, program.use,
    program.get_attribute_location, program.get_uniform_location, run_checked_ok_of d hok,
    CHECK_GL_ok_of d hok, checked_calls]
  refine ⟨_, _, _, _, rfl, ?_, ?_, ?_, ?_, ?_⟩
  all_goals
    try generalize d.glGetAttribLocation _ = p1
    try generalize d.glGetAttribLocation _ = p2
    try generalize d.glGetAttribLocation _ = p3
    try generalize d.glGetAttribLocation _ = p4
    try generalize d.glGetUniformLocation _ = u1
    try generalize d.glGetUniformLocation _ = u2
    try generalize d.glGetUniformLocation _ = u3
    try generalize glm_rotation cam = rot
    simp only [List.append_assoc, List.cons_append, List.nil_append, List.drop_left]
  · exact List.prefix_append _ _
  · rw [List.prefix_append_right_inj]
    simp
  · rw [List.prefix_append_right_inj]
    simp
  · rw [List.prefix_append_right_inj]
    simp
  · simp only [after_first_clear, attrib_array_calls, List.filter]

set_option maxRecDepth 1000000 in
/-- A run of C16 on the driver whose calls all succeed: `render` of the instance of `Ground`
in the session of the worked example returns normally, calls `glClear` twice, draws the
skybox between the two and leaves no array enabled. Its calls on attribute arrays are, in
order: array 130 enabled and disabled (the skybox pass), then the arrays 152, 153, 154 of the
mesh pass enabled, then the same three disabled. -/
theorem render_two_clears_one_skybox_draw_no_array_left_witness :
    (∀ tr, ok_driver.glGetError tr = GL_NO_ERROR)
    ∧ (session_impl.render_current_fbo ok_driver identity_rotation demo_session.1 {}
        [demo_instance] demo_session.2).1 = .ok ()
    ∧ clear_calls
        ((session_impl.render_current_fbo ok_driver identity_rotation demo_session.1 {}
          [demo_instance] demo_session.2).2.drop demo_session.2.length)
      = [GLCall.glClear (GL_COLOR_BUFFER_BIT ||| GL_DEPTH_BUFFER_BIT),
         GLCall.glClear GL_DEPTH_BUFFER_BIT]
    ∧ draw_calls (before_first_clear (after_first_clear
        ((session_impl.render_current_fbo ok_driver identity_rotation demo_session.1 {}
          [demo_instance] demo_session.2).2.drop demo_session.2.length)))
      = [GLCall.glDrawArrays GL_TRIANGLES 0 6]
    ∧ enabled_arrays []
        ((session_impl.render_current_fbo ok_driver identity_rotation demo_session.1 {}
          [demo_instance] demo_session.2).2.drop demo_session.2.length) = []
    ∧ attrib_array_calls
        ((session_impl.render_current_fbo ok_driver identity_rotation demo_session.1 {}
          [demo_instance] demo_session.2).2.drop demo_session.2.length)
      = [GLCall.glEnableVertexAttribArray 130, GLCall.glDisableVertexAttribArray 130,
         GLCall.glEnableVertexAttribArray 152, GLCall.glEnableVertexAttribArray 153,
         GLCall.glEnableVertexAttribArray 154, GLCall.glDisableVertexAttribArray 152,
         GLCall.glDisableVertexAttribArray 153, GLCall.glDisableVertexAttribArray 154]
    ∧ attrib_array_calls (after_first_clear (after_first_clear
        ((session_impl.render_current_fbo ok_driver identity_rotation demo_session.1 {}
          [demo_instance] demo_session.2).2.drop demo_session.2.length)))
      = [GLCall.glEnableVertexAttribArray 152, GLCall.glEnableVertexAttribArray 153,
         GLCall.glEnableVertexAttribArray 154, GLCall.glDisableVertexAttribArray 152,
         GLCall.glDisableVertexAttribArray 153, GLCall.glDisableVertexAttribArray 154] :=
  ⟨fun _ => rfl,
    (render_two_clears_one_skybox_draw_no_array_left ok_driver (fun _ => rfl) identity_rotation
      demo_session.1 {} [demo_instance] demo_session.2).1,
    (render_two_clears_one_skybox_draw_no_array_left ok_driver (fun _ => rfl) identity_rotation
      demo_session.1 {} [demo_instance] demo_session.2).2.1,
    (render_two_clears_one_skybox_draw_no_array_left ok_driver (fun _ => rfl) identity_rotation
      demo_session.1 {} [demo_instance] demo_session.2).2.2.1,
    (render_two_clears_one_skybox_draw_no_array_left ok_driver (fun _ => rfl) identity_rotation
      demo_session.1 {} [demo_instance] demo_session.2).2.2.2.1,
    by decide, by decide⟩

end mvz
